import Mathlib

/-!
Graphics settings panel: a shallow embedding of
`pcsx2-qt/Settings/GraphicsSettingsWidget.cpp` (renderer, adapter and internal
resolution dropdowns, tab visibility, dependent controls, patch migration).

The panel is modelled by explicit state passing: every handler of the C++ class
becomes a function from the panel state to the panel state.  The collaborators
the file only consumes (the settings layers, the Qt combo box, the adapter
enumerator, the numeric values of the renderer enumerators) are kept apart from
the code of the file itself and are either modelled from the specification or
taken as parameters.
-/

namespace GraphicsSettings

/-! ## Settings layers -/

/-- A value held by a settings layer under a section/key pair. -/
inductive SettingValue where
  | int (v : Int)
  | bool (v : Bool)
  | str (v : String)
  | float (v : ℚ)
  | list (v : List String)
  deriving DecidableEq

/-- One settings layer (the global store, or the per-game overlay): a partial
map from section and key to a value. -/
abbrev SettingsInterface := String → String → Option SettingValue

namespace SettingsInterface

/-- The layer with no key set. -/
def empty : SettingsInterface := fun _ _ => none

/-- Write (`some v`) or delete (`none`) one key, leaving every other key alone. -/
def put (s : SettingsInterface) (section_ key : String) (v : Option SettingValue) :
    SettingsInterface :=
  fun a b => if a = section_ ∧ b = key then v else s a b

/-- `GetIntValue`: succeeds only when the key holds an integer. -/
def GetIntValue (s : SettingsInterface) (section_ key : String) : Option Int :=
  match s section_ key with
  | some (.int v) => some v
  | _ => none

/-- `GetBoolValue` with an out-parameter: succeeds only when the key holds a boolean. -/
def GetBoolValue (s : SettingsInterface) (section_ key : String) : Option Bool :=
  match s section_ key with
  | some (.bool v) => some v
  | _ => none

/-- `GetStringValue` with an out-parameter: succeeds only when the key holds a string. -/
def GetStringValue (s : SettingsInterface) (section_ key : String) : Option String :=
  match s section_ key with
  | some (.str v) => some v
  | _ => none

/-- `GetFloatValue` with an out-parameter: succeeds only when the key holds a float. -/
def GetFloatValue (s : SettingsInterface) (section_ key : String) : Option ℚ :=
  match s section_ key with
  | some (.float v) => some v
  | _ => none

/-- `ContainsValue`: the key is set, whatever it holds. -/
def ContainsValue (s : SettingsInterface) (section_ key : String) : Bool :=
  (s section_ key).isSome

end SettingsInterface

/-- Modelled from the spec: the settings dialog that owns the panel
(`SettingsWindow`, reached through `dialog()`), whose code is not part of this
file.  It holds the global store and, in per-game mode, the overlay edited over
it ("a mode in which the panel edits an overlay over the global configuration;
unset keys inherit from global").  `saves` counts the calls of
`saveAndReloadGameSettings`. -/
structure SettingsWindow where
  base : SettingsInterface
  sif : Option SettingsInterface
  saves : Nat

namespace SettingsWindow

/-- Modelled from the spec: `isPerGameSettings`, true when an overlay is edited. -/
def isPerGameSettings (d : SettingsWindow) : Bool := d.sif.isSome

/-- `Host::GetBaseIntSettingValue`: the global store, with a default. -/
def GetBaseIntSettingValue (d : SettingsWindow) (section_ key : String) (dflt : Int) : Int :=
  (d.base.GetIntValue section_ key).getD dflt

/-- `Host::GetBaseBoolSettingValue`: the global store, with a default. -/
def GetBaseBoolSettingValue (d : SettingsWindow) (section_ key : String) (dflt : Bool) : Bool :=
  (d.base.GetBoolValue section_ key).getD dflt

/-- `Host::GetBaseStringSettingValue`: the global store, with a default. -/
def GetBaseStringSettingValue (d : SettingsWindow) (section_ key : String) (dflt : String) :
    String :=
  (d.base.GetStringValue section_ key).getD dflt

/-- `Host::GetBaseFloatSettingValue`: the global store, with a default. -/
def GetBaseFloatSettingValue (d : SettingsWindow) (section_ key : String) (dflt : ℚ) : ℚ :=
  (d.base.GetFloatValue section_ key).getD dflt

/-- Modelled from the spec: `getEffectiveIntValue`, "the value a key resolves to
after applying any per-game overlay on top of the global store". -/
def getEffectiveIntValue (d : SettingsWindow) (section_ key : String) (dflt : Int) : Int :=
  match d.sif.bind (fun s => s.GetIntValue section_ key) with
  | some v => v
  | none => d.GetBaseIntSettingValue section_ key dflt

/-- Modelled from the spec: `getEffectiveBoolValue`, the overlay value when set,
otherwise the global one. -/
def getEffectiveBoolValue (d : SettingsWindow) (section_ key : String) (dflt : Bool) : Bool :=
  match d.sif.bind (fun s => s.GetBoolValue section_ key) with
  | some v => v
  | none => d.GetBaseBoolSettingValue section_ key dflt

/-- Modelled from the spec: `getEffectiveStringValue`, the overlay value when
set, otherwise the global one. -/
def getEffectiveStringValue (d : SettingsWindow) (section_ key : String) (dflt : String) :
    String :=
  match d.sif.bind (fun s => s.GetStringValue section_ key) with
  | some v => v
  | none => d.GetBaseStringSettingValue section_ key dflt

/-- Modelled from the spec: the common part of the `set...SettingValue` family.
In per-game mode the overlay is edited (an absent value deletes the override)
and the game settings are saved and reloaded; in global mode the global store is
edited. -/
def setSettingValue (d : SettingsWindow) (section_ key : String) (v : Option SettingValue) :
    SettingsWindow :=
  match d.sif with
  | some s => { d with sif := some (s.put section_ key v), saves := d.saves + 1 }
  | none => { d with base := d.base.put section_ key v }

/-- Modelled from the spec: `setIntSettingValue(section, key, std::optional<int>)`. -/
def setIntSettingValue (d : SettingsWindow) (section_ key : String) (v : Option Int) :
    SettingsWindow :=
  d.setSettingValue section_ key (v.map SettingValue.int)

/-- Modelled from the spec: `setStringSettingValue(section, key, std::optional<const char*>)`. -/
def setStringSettingValue (d : SettingsWindow) (section_ key : String) (v : Option String) :
    SettingsWindow :=
  d.setSettingValue section_ key (v.map SettingValue.str)

/-- Modelled from the spec: `setFloatSettingValue(section, key, std::optional<float>)`. -/
def setFloatSettingValue (d : SettingsWindow) (section_ key : String) (v : Option ℚ) :
    SettingsWindow :=
  d.setSettingValue section_ key (v.map SettingValue.float)

/-- The layer the panel edits: the overlay in per-game mode, the global store otherwise. -/
def edited (d : SettingsWindow) : SettingsInterface :=
  match d.sif with
  | some s => s
  | none => d.base

end SettingsWindow

/-! ## Qt widgets used by the panel -/

/-- The user data of a combo-box entry (`QVariant`): invalid when none was given. -/
inductive QVariant where
  | invalid
  | float (v : ℚ)
  | string (v : String)
  deriving DecidableEq

namespace QVariant

/-- `isValid()`. -/
def isValid (v : QVariant) : Bool :=
  match v with
  | invalid => false
  | _ => true

/-- `toFloat()`: the number held, zero when the variant holds none. -/
def toFloat (v : QVariant) : ℚ :=
  match v with
  | float x => x
  | _ => 0

end QVariant

/-- `Qt::CheckState`. -/
inductive CheckState where
  | Unchecked
  | PartiallyChecked
  | Checked
  deriving DecidableEq

/-- A non-editable `QComboBox` without placeholder text: its entries, the
current index (`-1` when there is none) and the enabled flag. -/
structure QComboBox where
  items : List (String × QVariant)
  currentIndex : Int
  enabled : Bool

namespace QComboBox

/-- A freshly created, empty combo box. -/
def new : QComboBox := { items := [], currentIndex := -1, enabled := true }

/-- `count()`. -/
def count (c : QComboBox) : Int := c.items.length

/-- `clear()`: no entry and no current index. -/
def clear (c : QComboBox) : QComboBox := { c with items := [], currentIndex := -1 }

/-- `setCurrentIndex(i)`: an index outside the entries leaves no current entry. -/
def setCurrentIndex (c : QComboBox) (i : Int) : QComboBox :=
  { c with currentIndex := if 0 ≤ i ∧ i < c.count then i else -1 }

/-- `insertItem(i, text, data)`: the position is clamped to the entries; an entry
inserted at or before the current one moves the current index along with its
entry, and the first entry of an empty box becomes current. -/
def insertItem (c : QComboBox) (i : Int) (text : String) (data : QVariant) : QComboBox :=
  let pos : Nat := (max 0 (min i c.count)).toNat
  { c with
    items := c.items.take pos ++ (text, data) :: c.items.drop pos
    currentIndex :=
      if c.items.isEmpty then 0
      else if 0 ≤ c.currentIndex ∧ (pos : Int) ≤ c.currentIndex then c.currentIndex + 1
      else c.currentIndex }

/-- `addItem(text, data)`: insertion after the last entry. -/
def addItem (c : QComboBox) (text : String) (data : QVariant) : QComboBox :=
  c.insertItem c.count text data

/-- `setEnabled(b)`. -/
def setEnabled (c : QComboBox) (b : Bool) : QComboBox := { c with enabled := b }

/-- The entry at an index, if the index is one of the entries. -/
def item (c : QComboBox) (i : Int) : Option (String × QVariant) :=
  if 0 ≤ i then c.items.get? i.toNat else none

/-- `itemText(i)`: empty for an index outside the entries. -/
def itemText (c : QComboBox) (i : Int) : String :=
  match c.item i with
  | some e => e.1
  | none => ""

/-- `currentText()`: the text of the current entry, empty when there is none. -/
def currentText (c : QComboBox) : String := c.itemText c.currentIndex

/-- `currentData()`: the data of the current entry, invalid when there is none. -/
def currentData (c : QComboBox) : QVariant :=
  match c.item c.currentIndex with
  | some e => e.2
  | none => QVariant.invalid

/-- The position of the first entry carrying the data, if any does. -/
def indexOfData : List (String × QVariant) → QVariant → Option Nat
  | [], _ => none
  | e :: l, v => if e.2 = v then some 0 else (indexOfData l v).map (fun i => i + 1)

/-- `findData(v)`: the index of the first entry carrying the data, `-1` when none does. -/
def findData (c : QComboBox) (v : QVariant) : Int :=
  match indexOfData c.items v with
  | some i => (i : Int)
  | none => -1

end QComboBox

/-! ## Renderer table and build configuration -/

/-- The renderer enumerators the file names (`GSRendererType`). -/
inductive GSRendererType where
  | Auto | DX11 | DX12 | OGL | VK | Metal | SW | Null
  deriving DecidableEq

/-- An entry of the renderer table. -/
structure RendererInfo where
  name : String
  type : GSRendererType

/-- The preprocessor symbols the file tests. -/
structure BuildConfig where
  win32 : Bool
  opengl : Bool
  vulkan : Bool
  apple : Bool
  devbuild : Bool

/-- The renderer table `s_renderer_info`, whose entries depend on the build. -/
def s_renderer_info (b : BuildConfig) : List RendererInfo :=
  [⟨"Automatic (Default)", .Auto⟩]
    ++ (if b.win32 then [⟨"Direct3D 11 (Legacy)", .DX11⟩, ⟨"Direct3D 12", .DX12⟩] else [])
    ++ (if b.opengl then [⟨"OpenGL", .OGL⟩] else [])
    ++ (if b.vulkan then [⟨"Vulkan", .VK⟩] else [])
    ++ (if b.apple then [⟨"Metal", .Metal⟩] else [])
    ++ [⟨"Software Renderer", .SW⟩, ⟨"Null", .Null⟩]

/-- What the adapter enumerator reports for one adapter (`GSAdapterInfo`). -/
structure GSAdapterInfo where
  name : String
  fullscreen_modes : List String
  max_upscale_multiplier : Nat

/-- The collaborators the panel reads but does not define: the build, the integer
value of each renderer enumerator (`static_cast<int>`), the renderer preferred on
this machine, the adapter enumerator (called with the integer value of a renderer
type), the name standing for the default adapter, whether advanced settings are
shown, the integer values of two `TriFiltering` enumerators, and the section and
keys of the patch lists (`Patch::PATCHES_CONFIG_SECTION`,
`Patch::PATCH_ENABLE_CONFIG_KEY`, `Patch::PATCH_DISABLE_CONFIG_KEY`). -/
structure Host where
  build : BuildConfig
  rendererValue : GSRendererType → Int
  GetPreferredRenderer : GSRendererType
  GSGetAdapterInfo : Int → List GSAdapterInfo
  GetDefaultAdapter : String
  ShouldShowAdvancedSettings : Bool
  TriFiltering_Automatic : Int
  TriFiltering_Forced : Int
  PATCHES_CONFIG_SECTION : String
  PATCH_ENABLE_CONFIG_KEY : String
  PATCH_DISABLE_CONFIG_KEY : String

/-! ## The panel state -/

/-- The tabs of the panel, named after the members that hold them. -/
inductive Tab where
  | display | hardware_rendering | software_rendering | hardware_fixes | upscaling_fixes
  | texture_replacement | post | osd | capture | advanced
  deriving DecidableEq

/-- The controls of the hardware Rendering tab (`m_hw`) that the file refers to. -/
inductive HwWidget where
  | textureFiltering | trilinearFiltering | anisotropicFiltering | dithering | mipmapping
  | blending | enableHWFixes | stereoscopicMode | stereoDominantEye | stereoSeparation
  | stereoConvergence | stereoDepthFactor | stereoUiDepth | stereoUiSecondLayerDepth
  | stereoSwapEyes | stereoFlipRendering | stereoDontRenderMonoObjects | stereoRejectNonPositiveZ
  | stereoRejectSmallZRange | stereoRejectSpriteBlit | stereoRejectConstantColor
  | stereoRejectScalingDraw | stereoRejectSbsInput | stereoRejectTabInput
  | stereoRequireDisplayBuffer1 | stereoRequireDisplayBuffer2 | stereoFixStencilShadows
  | stereoRequirePerspectiveUV | stereoRequireZVaries | stereoRequireDepthActive
  | stereoRejectSprites | stereoRejectUiLike | stereoUiSafeDetect | stereoUiAdvancedDetect
  | stereoUiBackgroundDepth | stereoMasterFix | stereoMasterFix1 | stereoMasterFix2
  | stereoMasterFix3 | stereoMasterFix4 | stereoMasterFix5 | stereoMasterFix6 | stereoMasterFix7
  | stereoMasterFix8 | stereoMasterFix9 | stereoMasterFix10 | stereoMasterFixTest
  | stereoRequireTextureMapping | stereoRequireAlphaBlend | stereoRequireAlphaTest
  | stereoRequireUvVaries | stereoRequireColorVaries | stereoRequireFog | stereoStencilRequireDate
  | stereoStencilRequireDatm | stereoStencilRequireAte | stereoStencilRequireAfailZbOnly
  | stereoStencilRequireAfailNotKeep | stereoStencilRequireZWrite | stereoStencilRequireZTest
  | stereoStencilRequireZTestGequal | stereoStencilRequireFbMask | stereoStencilRequireFbMaskFull
  | stereoStencilRequireTexIsFb | stereoRejectFullscreenDraw | stereoRejectFullscreenScissor
  | stereoRejectFullCover | stereoRejectSpriteNoGaps | stereoRejectTexIsFb
  | stereoRejectChannelShuffle | stereoRejectTextureShuffle | stereoRejectFullscreenShuffle
  | stereoRejectShaderShuffle | stereoRejectShuffleAcross | stereoRejectShuffleSame
  | stereoRejectChannelFetch | stereoRejectChannelFetchFb | stereoRejectFeedbackLoop
  | stereoRejectColclip | stereoRejectRtaCorrection | stereoUniversalRejectRtaSourceCorrection
  | stereoUniversalRejectColclipHw | stereoUniversalRejectColclip | stereoUniversalRejectBlendMix
  | stereoUniversalRejectPabe | stereoUniversalRejectFbMask | stereoUniversalRejectTexIsFb
  | stereoUniversalRejectNoColor | stereoUniversalRejectNoColor1 | stereoUniversalRejectAemFmt
  | stereoUniversalRejectPalFmt | stereoUniversalRejectDstFmt | stereoUniversalRejectDepthFmt
  | stereoUniversalRejectAem | stereoUniversalRejectFba | stereoUniversalRejectFog
  | stereoUniversalRejectIip | stereoUniversalRejectDate | stereoUniversalRejectAtst
  | stereoUniversalRejectAfail | stereoUniversalRejectFst | stereoUniversalRejectTfx
  | stereoUniversalRejectTcc | stereoUniversalRejectWms | stereoUniversalRejectWmt
  | stereoUniversalRejectAdjs | stereoUniversalRejectAdjt | stereoUniversalRejectLtf
  | stereoUniversalRejectShuffle | stereoUniversalRejectShuffleSame
  | stereoUniversalRejectReal16Src | stereoUniversalRejectProcessBa
  | stereoUniversalRejectProcessRg | stereoUniversalRejectShuffleAcross
  | stereoUniversalRejectWriteRg | stereoUniversalRejectBlendA | stereoUniversalRejectBlendB
  | stereoUniversalRejectBlendC | stereoUniversalRejectBlendD | stereoUniversalRejectFixedOneA
  | stereoUniversalRejectBlendHw | stereoUniversalRejectAMasked | stereoUniversalRejectRoundInv
  | stereoUniversalRejectChannel | stereoUniversalRejectChannelFb | stereoUniversalRejectDither
  | stereoUniversalRejectDitherAdjust | stereoUniversalRejectZClamp | stereoUniversalRejectZFloor
  | stereoUniversalRejectTCOffsetHack | stereoUniversalRejectUrbanChaosHle
  | stereoUniversalRejectTalesOfAbyssHle | stereoUniversalRejectAutomaticLod
  | stereoUniversalRejectManualLod | stereoUniversalRejectPointSampler
  | stereoUniversalRejectRegionRect | stereoUniversalRejectScanmask
  | stereoUniversalRequireRtaCorrection | stereoUniversalRequireRtaSourceCorrection
  | stereoUniversalRequireColclipHw | stereoUniversalRequireColclip
  | stereoUniversalRequireBlendMix | stereoUniversalRequirePabe | stereoUniversalRequireFbMask
  | stereoUniversalRequireTexIsFb | stereoUniversalRequireNoColor | stereoUniversalRequireNoColor1
  | stereoUniversalRequireAemFmt | stereoUniversalRequirePalFmt | stereoUniversalRequireDstFmt
  | stereoUniversalRequireDepthFmt | stereoUniversalRequireAem | stereoUniversalRequireFba
  | stereoUniversalRequireFog | stereoUniversalRequireIip | stereoUniversalRequireDate
  | stereoUniversalRequireAtst | stereoUniversalRequireAfail | stereoUniversalRequireFst
  | stereoUniversalRequireTfx | stereoUniversalRequireTcc | stereoUniversalRequireWms
  | stereoUniversalRequireWmt | stereoUniversalRequireAdjs | stereoUniversalRequireAdjt
  | stereoUniversalRequireLtf | stereoUniversalRequireShuffle | stereoUniversalRequireShuffleSame
  | stereoUniversalRequireReal16Src | stereoUniversalRequireProcessBa
  | stereoUniversalRequireProcessRg | stereoUniversalRequireShuffleAcross
  | stereoUniversalRequireWriteRg | stereoUniversalRequireBlendA | stereoUniversalRequireBlendB
  | stereoUniversalRequireBlendC | stereoUniversalRequireBlendD | stereoUniversalRequireFixedOneA
  | stereoUniversalRequireBlendHw | stereoUniversalRequireAMasked | stereoUniversalRequireRoundInv
  | stereoUniversalRequireChannel | stereoUniversalRequireChannelFb | stereoUniversalRequireDither
  | stereoUniversalRequireDitherAdjust | stereoUniversalRequireZClamp
  | stereoUniversalRequireZFloor | stereoUniversalRequireTCOffsetHack
  | stereoUniversalRequireUrbanChaosHle | stereoUniversalRequireTalesOfAbyssHle
  | stereoUniversalRequireAutomaticLod | stereoUniversalRequireManualLod
  | stereoUniversalRequirePointSampler | stereoUniversalRequireRegionRect
  | stereoUniversalRequireScanmask | stereoUniversalRequireAlphaBlend
  | stereoUniversalRequireAlphaTest | stereoUniversalRequireDatm | stereoUniversalRequireZTest
  | stereoUniversalRequireZWrite | stereoUniversalRequireZTestAlways
  | stereoUniversalRequireZTestNever | stereoUniversalRequireAa1
  | stereoUniversalRequireChannelShuffle | stereoUniversalRequireTextureShuffle
  | stereoUniversalRequireFullscreenShuffle | stereoUniversalRequirePoints
  | stereoUniversalRequireLines | stereoUniversalRequireTriangles | stereoUniversalRequireSprites
  | stereoUniversalRequireFixedQ | stereoUniversalRequireFixedZ
  | stereoUniversalRequireConstantColor | stereoRejectBlendMix | stereoRejectPabe
  | stereoRejectDither | stereoRejectScanmask | stereoRejectRegionRect | stereoRejectNoColorOutput
  | stereoRejectHleShuffle | stereoRejectTCOffsetHack | stereoRejectPoints | stereoRejectLines
  | stereoRejectFlatShading | stereoRejectFst | stereoEnableOptions | stereoRemoveFixedSt
  | stereoRejectFixedQ | stereoRejectAa1 | stereoRejectNoZTest | stereoRejectNoZWrite
  | stereoRejectZTestAlways | stereoRejectZTestNever | stereoRejectAlphaTestOff
  | stereoRejectAlphaTestAlways | stereoRejectAlphaTestNever | stereoRejectTfxModulate
  | stereoRejectTfxDecal | stereoRejectTfxHighlight | stereoRejectTfxHighlight2
  | stereoRejectSmallDrawArea | stereoRejectWideDrawBand | stereoRejectTopDrawBand
  | stereoRejectRtSpriteNoDepth | stereoRejectRtSpriteAlphaBlend | stereoRequireProcessTexture
  | stereoRejectProcessTexture | stereoRequireSourceFromTarget | stereoRejectSourceFromTarget
  | stereoRequireDrawUsesTarget | stereoRejectDrawUsesTarget | stereoRequireTexIsRt
  | stereoRejectTexIsRt | stereoRequireInTargetDraw | stereoRejectInTargetDraw | stereoRequireTempZ
  | stereoRejectTempZ | stereoRequireOneBarrier | stereoRejectOneBarrier | stereoRequireFullBarrier
  | stereoRejectFullBarrier | stereoRequireSinglePass | stereoRejectSinglePass
  | stereoRequireFullscreenDrawArea | stereoRejectFullscreenDrawArea
  | stereoRequireFullscreenSprite | stereoRejectFullscreenSprite | stereoRequireTexturedSprite
  | stereoRejectTexturedSprite | stereoRequireRtOutput | stereoRejectRtOutput
  | stereoRequireDepthOutput | stereoRejectDepthOutput | stereoRequireDepthRead
  | stereoRejectDepthRead | stereoRequireDepthWrite | stereoRejectDepthWrite
  | stereoRequirePalettedTexture | stereoRejectPalettedTexture | stereoRequireDepthTexture
  | stereoRejectDepthTexture | stereoRequireMipmap | stereoRejectMipmap
  | stereoRequireLinearSampling | stereoRejectLinearSampling | stereoRequireFmvActive
  | stereoRejectFmvActive | stereoRequireFmvHeuristic | stereoRejectFmvHeuristic
  | stereoRequireFmvSprite | stereoRejectFmvSprite | stereoRequireFmvSingleSprite
  | stereoRejectFmvSingleSprite | stereoRequireFmvTextureMapping | stereoRejectFmvTextureMapping
  | stereoRequireFmvProcessTexture | stereoRejectFmvProcessTexture
  | stereoRequireFmvFullscreenDrawArea | stereoRejectFmvFullscreenDrawArea
  | stereoRequireFmvFullscreenScissor | stereoRejectFmvFullscreenScissor
  | stereoRequireFmvNoAlphaBlend | stereoRejectFmvNoAlphaBlend | stereoRequireFmvNoAlphaTest
  | stereoRejectFmvNoAlphaTest | stereoRequireFmvNoDepthTest | stereoRejectFmvNoDepthTest
  | stereoRequireFmvNoDepthWrite | stereoRejectFmvNoDepthWrite | stereoRequireFmvNoDepthOutput
  | stereoRejectFmvNoDepthOutput | stereoRequireFmvNoDepthRead | stereoRejectFmvNoDepthRead
  | stereoRequireFmvNoFbMask | stereoRejectFmvNoFbMask | stereoRequireFmvColorOutput
  | stereoRejectFmvColorOutput | stereoRequireFmvSourceNotFromTarget
  | stereoRejectFmvSourceNotFromTarget | stereoRequireFmvDrawMatchesTex
  | stereoRejectFmvDrawMatchesTex | stereoRequireFmvNoShuffle | stereoRejectFmvNoShuffle
  | stereoRequireFmvNoMipmap | stereoRejectFmvNoMipmap | stereoRequireFmvLinearSampling
  | stereoRejectFmvLinearSampling | stereoRequireFmvEeUpload | stereoRejectFmvEeUpload
  | stereoRequireFmvDisplayMatch | stereoRejectFmvDisplayMatch | stereoRequireFmvRecentEeUpload
  | stereoRejectFmvRecentEeUpload | stereoRequireFmvRecentTransferDraw
  | stereoRejectFmvRecentTransferDraw | upscaleMultiplier | stereoDominantEyeLabel
  | stereoSeparationLabel | stereoConvergenceLabel | stereoDepthFactorLabel | stereoUiDepthLabel
  | stereoUiDepthValue | stereoUiSecondLayerDepthLabel | stereoUiSecondLayerDepthValue
  deriving DecidableEq

/-- The OSD checkboxes gated by the two position selectors. -/
inductive OsdWidget where
  | warnAboutUnsafeSettings | showSpeedPercentages | showFPS | showVPS | showResolution
  | showGSStats | showUsageCPU | showUsageGPU | showStatusIndicators | showFrameTimes
  | showHardwareInfo | showVersion
  deriving DecidableEq

/-- The bindings of lines 118-458 of the constructor, in source order: each stereoscopy
control of the hardware Rendering tab with the section and key it is bound to. -/
def stereoBindings : List (HwWidget × String × String) := [
  (HwWidget.stereoscopicMode, "EmuCore/GS", "StereoMode"),
  (HwWidget.stereoDominantEye, "EmuCore/GS", "StereoDominantEye"),
  (HwWidget.stereoSeparation, "EmuCore/GS", "StereoSeparation"),
  (HwWidget.stereoConvergence, "EmuCore/GS", "StereoConvergence"),
  (HwWidget.stereoDepthFactor, "EmuCore/GS", "StereoDepthFactor"),
  (HwWidget.stereoUiDepth, "EmuCore/GS", "StereoUiDepth"),
  (HwWidget.stereoUiSecondLayerDepth, "EmuCore/GS", "StereoUiSecondLayerDepth"),
  (HwWidget.stereoSwapEyes, "EmuCore/GS", "StereoSwapEyes"),
  (HwWidget.stereoFlipRendering, "EmuCore/GS", "StereoFlipRendering"),
  (HwWidget.stereoDontRenderMonoObjects, "EmuCore/GS", "StereoDontRenderMonoObjects"),
  (HwWidget.stereoRejectNonPositiveZ, "EmuCore/GS", "StereoRejectNonPositiveZ"),
  (HwWidget.stereoRejectSmallZRange, "EmuCore/GS", "StereoRejectSmallZRange"),
  (HwWidget.stereoRejectSpriteBlit, "EmuCore/GS", "StereoRejectSpriteBlit"),
  (HwWidget.stereoRejectConstantColor, "EmuCore/GS", "StereoRejectConstantColor"),
  (HwWidget.stereoRejectScalingDraw, "EmuCore/GS", "StereoRejectScalingDraw"),
  (HwWidget.stereoRejectSbsInput, "EmuCore/GS", "StereoRejectSbsInput"),
  (HwWidget.stereoRejectTabInput, "EmuCore/GS", "StereoRejectTabInput"),
  (HwWidget.stereoRequireDisplayBuffer1, "EmuCore/GS", "StereoRequireDisplayBuffer1"),
  (HwWidget.stereoRequireDisplayBuffer2, "EmuCore/GS", "StereoRequireDisplayBuffer2"),
  (HwWidget.stereoFixStencilShadows, "EmuCore/GS", "StereoFixStencilShadows"),
  (HwWidget.stereoRequirePerspectiveUV, "EmuCore/GS", "StereoRequirePerspectiveUV"),
  (HwWidget.stereoRequireZVaries, "EmuCore/GS", "StereoRequireZVaries"),
  (HwWidget.stereoRequireDepthActive, "EmuCore/GS", "StereoRequireDepthActive"),
  (HwWidget.stereoRejectSprites, "EmuCore/GS", "StereoRejectSprites"),
  (HwWidget.stereoRejectUiLike, "EmuCore/GS", "StereoRejectUiLike"),
  (HwWidget.stereoUiSafeDetect, "EmuCore/GS", "StereoUiSafeDetect"),
  (HwWidget.stereoUiAdvancedDetect, "EmuCore/GS", "StereoUiAdvancedDetect"),
  (HwWidget.stereoUiBackgroundDepth, "EmuCore/GS", "StereoUiBackgroundDepth"),
  (HwWidget.stereoMasterFix, "EmuCore/GS", "StereoMasterFix"),
  (HwWidget.stereoMasterFix1, "EmuCore/GS", "StereoMasterFix1"),
  (HwWidget.stereoMasterFix2, "EmuCore/GS", "StereoMasterFix2"),
  (HwWidget.stereoMasterFix3, "EmuCore/GS", "StereoMasterFix3"),
  (HwWidget.stereoMasterFix4, "EmuCore/GS", "StereoMasterFix4"),
  (HwWidget.stereoMasterFix5, "EmuCore/GS", "StereoMasterFix5"),
  (HwWidget.stereoMasterFix6, "EmuCore/GS", "StereoMasterFix6"),
  (HwWidget.stereoMasterFix7, "EmuCore/GS", "StereoMasterFix7"),
  (HwWidget.stereoMasterFix8, "EmuCore/GS", "StereoMasterFix8"),
  (HwWidget.stereoMasterFix9, "EmuCore/GS", "StereoMasterFix9"),
  (HwWidget.stereoMasterFix10, "EmuCore/GS", "StereoMasterFix10"),
  (HwWidget.stereoMasterFixTest, "EmuCore/GS", "StereoMasterFixTest"),
  (HwWidget.stereoRequireTextureMapping, "EmuCore/GS", "StereoRequireTextureMapping"),
  (HwWidget.stereoRequireAlphaBlend, "EmuCore/GS", "StereoRequireAlphaBlend"),
  (HwWidget.stereoRequireAlphaTest, "EmuCore/GS", "StereoRequireAlphaTest"),
  (HwWidget.stereoRequireUvVaries, "EmuCore/GS", "StereoRequireUvVaries"),
  (HwWidget.stereoRequireColorVaries, "EmuCore/GS", "StereoRequireColorVaries"),
  (HwWidget.stereoRequireFog, "EmuCore/GS", "StereoRequireFog"),
  (HwWidget.stereoStencilRequireDate, "EmuCore/GS", "StereoStencilRequireDate"),
  (HwWidget.stereoStencilRequireDatm, "EmuCore/GS", "StereoStencilRequireDatm"),
  (HwWidget.stereoStencilRequireAte, "EmuCore/GS", "StereoStencilRequireAte"),
  (HwWidget.stereoStencilRequireAfailZbOnly, "EmuCore/GS", "StereoStencilRequireAfailZbOnly"),
  (HwWidget.stereoStencilRequireAfailNotKeep, "EmuCore/GS", "StereoStencilRequireAfailNotKeep"),
  (HwWidget.stereoStencilRequireZWrite, "EmuCore/GS", "StereoStencilRequireZWrite"),
  (HwWidget.stereoStencilRequireZTest, "EmuCore/GS", "StereoStencilRequireZTest"),
  (HwWidget.stereoStencilRequireZTestGequal, "EmuCore/GS", "StereoStencilRequireZTestGequal"),
  (HwWidget.stereoStencilRequireFbMask, "EmuCore/GS", "StereoStencilRequireFbMask"),
  (HwWidget.stereoStencilRequireFbMaskFull, "EmuCore/GS", "StereoStencilRequireFbMaskFull"),
  (HwWidget.stereoStencilRequireTexIsFb, "EmuCore/GS", "StereoStencilRequireTexIsFb"),
  (HwWidget.stereoRejectFullscreenDraw, "EmuCore/GS", "StereoRejectFullscreenDraw"),
  (HwWidget.stereoRejectFullscreenScissor, "EmuCore/GS", "StereoRejectFullscreenScissor"),
  (HwWidget.stereoRejectFullCover, "EmuCore/GS", "StereoRejectFullCover"),
  (HwWidget.stereoRejectSpriteNoGaps, "EmuCore/GS", "StereoRejectSpriteNoGaps"),
  (HwWidget.stereoRejectTexIsFb, "EmuCore/GS", "StereoRejectTexIsFb"),
  (HwWidget.stereoRejectChannelShuffle, "EmuCore/GS", "StereoRejectChannelShuffle"),
  (HwWidget.stereoRejectTextureShuffle, "EmuCore/GS", "StereoRejectTextureShuffle"),
  (HwWidget.stereoRejectFullscreenShuffle, "EmuCore/GS", "StereoRejectFullscreenShuffle"),
  (HwWidget.stereoRejectShaderShuffle, "EmuCore/GS", "StereoRejectShaderShuffle"),
  (HwWidget.stereoRejectShuffleAcross, "EmuCore/GS", "StereoRejectShuffleAcross"),
  (HwWidget.stereoRejectShuffleSame, "EmuCore/GS", "StereoRejectShuffleSame"),
  (HwWidget.stereoRejectChannelFetch, "EmuCore/GS", "StereoRejectChannelFetch"),
  (HwWidget.stereoRejectChannelFetchFb, "EmuCore/GS", "StereoRejectChannelFetchFb"),
  (HwWidget.stereoRejectFeedbackLoop, "EmuCore/GS", "StereoRejectFeedbackLoop"),
  (HwWidget.stereoRejectColclip, "EmuCore/GS", "StereoRejectColclip"),
  (HwWidget.stereoRejectRtaCorrection, "EmuCore/GS", "StereoRejectRtaCorrection"),
  (HwWidget.stereoUniversalRejectRtaSourceCorrection, "EmuCore/GS", "StereoUniversalRejectRtaSourceCorrection"),
  (HwWidget.stereoUniversalRejectColclipHw, "EmuCore/GS", "StereoUniversalRejectColclipHw"),
  (HwWidget.stereoUniversalRejectColclip, "EmuCore/GS", "StereoUniversalRejectColclip"),
  (HwWidget.stereoUniversalRejectBlendMix, "EmuCore/GS", "StereoUniversalRejectBlendMix"),
  (HwWidget.stereoUniversalRejectPabe, "EmuCore/GS", "StereoUniversalRejectPabe"),
  (HwWidget.stereoUniversalRejectFbMask, "EmuCore/GS", "StereoUniversalRejectFbMask"),
  (HwWidget.stereoUniversalRejectTexIsFb, "EmuCore/GS", "StereoUniversalRejectTexIsFb"),
  (HwWidget.stereoUniversalRejectNoColor, "EmuCore/GS", "StereoUniversalRejectNoColor"),
  (HwWidget.stereoUniversalRejectNoColor1, "EmuCore/GS", "StereoUniversalRejectNoColor1"),
  (HwWidget.stereoUniversalRejectAemFmt, "EmuCore/GS", "StereoUniversalRejectAemFmt"),
  (HwWidget.stereoUniversalRejectPalFmt, "EmuCore/GS", "StereoUniversalRejectPalFmt"),
  (HwWidget.stereoUniversalRejectDstFmt, "EmuCore/GS", "StereoUniversalRejectDstFmt"),
  (HwWidget.stereoUniversalRejectDepthFmt, "EmuCore/GS", "StereoUniversalRejectDepthFmt"),
  (HwWidget.stereoUniversalRejectAem, "EmuCore/GS", "StereoUniversalRejectAem"),
  (HwWidget.stereoUniversalRejectFba, "EmuCore/GS", "StereoUniversalRejectFba"),
  (HwWidget.stereoUniversalRejectFog, "EmuCore/GS", "StereoUniversalRejectFog"),
  (HwWidget.stereoUniversalRejectIip, "EmuCore/GS", "StereoUniversalRejectIip"),
  (HwWidget.stereoUniversalRejectDate, "EmuCore/GS", "StereoUniversalRejectDate"),
  (HwWidget.stereoUniversalRejectAtst, "EmuCore/GS", "StereoUniversalRejectAtst"),
  (HwWidget.stereoUniversalRejectAfail, "EmuCore/GS", "StereoUniversalRejectAfail"),
  (HwWidget.stereoUniversalRejectFst, "EmuCore/GS", "StereoUniversalRejectFst"),
  (HwWidget.stereoUniversalRejectTfx, "EmuCore/GS", "StereoUniversalRejectTfx"),
  (HwWidget.stereoUniversalRejectTcc, "EmuCore/GS", "StereoUniversalRejectTcc"),
  (HwWidget.stereoUniversalRejectWms, "EmuCore/GS", "StereoUniversalRejectWms"),
  (HwWidget.stereoUniversalRejectWmt, "EmuCore/GS", "StereoUniversalRejectWmt"),
  (HwWidget.stereoUniversalRejectAdjs, "EmuCore/GS", "StereoUniversalRejectAdjs"),
  (HwWidget.stereoUniversalRejectAdjt, "EmuCore/GS", "StereoUniversalRejectAdjt"),
  (HwWidget.stereoUniversalRejectLtf, "EmuCore/GS", "StereoUniversalRejectLtf"),
  (HwWidget.stereoUniversalRejectShuffle, "EmuCore/GS", "StereoUniversalRejectShuffle"),
  (HwWidget.stereoUniversalRejectShuffleSame, "EmuCore/GS", "StereoUniversalRejectShuffleSame"),
  (HwWidget.stereoUniversalRejectReal16Src, "EmuCore/GS", "StereoUniversalRejectReal16Src"),
  (HwWidget.stereoUniversalRejectProcessBa, "EmuCore/GS", "StereoUniversalRejectProcessBa"),
  (HwWidget.stereoUniversalRejectProcessRg, "EmuCore/GS", "StereoUniversalRejectProcessRg"),
  (HwWidget.stereoUniversalRejectShuffleAcross, "EmuCore/GS", "StereoUniversalRejectShuffleAcross"),
  (HwWidget.stereoUniversalRejectWriteRg, "EmuCore/GS", "StereoUniversalRejectWriteRg"),
  (HwWidget.stereoUniversalRejectBlendA, "EmuCore/GS", "StereoUniversalRejectBlendA"),
  (HwWidget.stereoUniversalRejectBlendB, "EmuCore/GS", "StereoUniversalRejectBlendB"),
  (HwWidget.stereoUniversalRejectBlendC, "EmuCore/GS", "StereoUniversalRejectBlendC"),
  (HwWidget.stereoUniversalRejectBlendD, "EmuCore/GS", "StereoUniversalRejectBlendD"),
  (HwWidget.stereoUniversalRejectFixedOneA, "EmuCore/GS", "StereoUniversalRejectFixedOneA"),
  (HwWidget.stereoUniversalRejectBlendHw, "EmuCore/GS", "StereoUniversalRejectBlendHw"),
  (HwWidget.stereoUniversalRejectAMasked, "EmuCore/GS", "StereoUniversalRejectAMasked"),
  (HwWidget.stereoUniversalRejectRoundInv, "EmuCore/GS", "StereoUniversalRejectRoundInv"),
  (HwWidget.stereoUniversalRejectChannel, "EmuCore/GS", "StereoUniversalRejectChannel"),
  (HwWidget.stereoUniversalRejectChannelFb, "EmuCore/GS", "StereoUniversalRejectChannelFb"),
  (HwWidget.stereoUniversalRejectDither, "EmuCore/GS", "StereoUniversalRejectDither"),
  (HwWidget.stereoUniversalRejectDitherAdjust, "EmuCore/GS", "StereoUniversalRejectDitherAdjust"),
  (HwWidget.stereoUniversalRejectZClamp, "EmuCore/GS", "StereoUniversalRejectZClamp"),
  (HwWidget.stereoUniversalRejectZFloor, "EmuCore/GS", "StereoUniversalRejectZFloor"),
  (HwWidget.stereoUniversalRejectTCOffsetHack, "EmuCore/GS", "StereoUniversalRejectTCOffsetHack"),
  (HwWidget.stereoUniversalRejectUrbanChaosHle, "EmuCore/GS", "StereoUniversalRejectUrbanChaosHle"),
  (HwWidget.stereoUniversalRejectTalesOfAbyssHle, "EmuCore/GS", "StereoUniversalRejectTalesOfAbyssHle"),
  (HwWidget.stereoUniversalRejectAutomaticLod, "EmuCore/GS", "StereoUniversalRejectAutomaticLod"),
  (HwWidget.stereoUniversalRejectManualLod, "EmuCore/GS", "StereoUniversalRejectManualLod"),
  (HwWidget.stereoUniversalRejectPointSampler, "EmuCore/GS", "StereoUniversalRejectPointSampler"),
  (HwWidget.stereoUniversalRejectRegionRect, "EmuCore/GS", "StereoUniversalRejectRegionRect"),
  (HwWidget.stereoUniversalRejectScanmask, "EmuCore/GS", "StereoUniversalRejectScanmask"),
  (HwWidget.stereoUniversalRequireRtaCorrection, "EmuCore/GS", "StereoUniversalRequireRtaCorrection"),
  (HwWidget.stereoUniversalRequireRtaSourceCorrection, "EmuCore/GS", "StereoUniversalRequireRtaSourceCorrection"),
  (HwWidget.stereoUniversalRequireColclipHw, "EmuCore/GS", "StereoUniversalRequireColclipHw"),
  (HwWidget.stereoUniversalRequireColclip, "EmuCore/GS", "StereoUniversalRequireColclip"),
  (HwWidget.stereoUniversalRequireBlendMix, "EmuCore/GS", "StereoUniversalRequireBlendMix"),
  (HwWidget.stereoUniversalRequirePabe, "EmuCore/GS", "StereoUniversalRequirePabe"),
  (HwWidget.stereoUniversalRequireFbMask, "EmuCore/GS", "StereoUniversalRequireFbMask"),
  (HwWidget.stereoUniversalRequireTexIsFb, "EmuCore/GS", "StereoUniversalRequireTexIsFb"),
  (HwWidget.stereoUniversalRequireNoColor, "EmuCore/GS", "StereoUniversalRequireNoColor"),
  (HwWidget.stereoUniversalRequireNoColor1, "EmuCore/GS", "StereoUniversalRequireNoColor1"),
  (HwWidget.stereoUniversalRequireAemFmt, "EmuCore/GS", "StereoUniversalRequireAemFmt"),
  (HwWidget.stereoUniversalRequirePalFmt, "EmuCore/GS", "StereoUniversalRequirePalFmt"),
  (HwWidget.stereoUniversalRequireDstFmt, "EmuCore/GS", "StereoUniversalRequireDstFmt"),
  (HwWidget.stereoUniversalRequireDepthFmt, "EmuCore/GS", "StereoUniversalRequireDepthFmt"),
  (HwWidget.stereoUniversalRequireAem, "EmuCore/GS", "StereoUniversalRequireAem"),
  (HwWidget.stereoUniversalRequireFba, "EmuCore/GS", "StereoUniversalRequireFba"),
  (HwWidget.stereoUniversalRequireFog, "EmuCore/GS", "StereoUniversalRequireFog"),
  (HwWidget.stereoUniversalRequireIip, "EmuCore/GS", "StereoUniversalRequireIip"),
  (HwWidget.stereoUniversalRequireDate, "EmuCore/GS", "StereoUniversalRequireDate"),
  (HwWidget.stereoUniversalRequireAtst, "EmuCore/GS", "StereoUniversalRequireAtst"),
  (HwWidget.stereoUniversalRequireAfail, "EmuCore/GS", "StereoUniversalRequireAfail"),
  (HwWidget.stereoUniversalRequireFst, "EmuCore/GS", "StereoUniversalRequireFst"),
  (HwWidget.stereoUniversalRequireTfx, "EmuCore/GS", "StereoUniversalRequireTfx"),
  (HwWidget.stereoUniversalRequireTcc, "EmuCore/GS", "StereoUniversalRequireTcc"),
  (HwWidget.stereoUniversalRequireWms, "EmuCore/GS", "StereoUniversalRequireWms"),
  (HwWidget.stereoUniversalRequireWmt, "EmuCore/GS", "StereoUniversalRequireWmt"),
  (HwWidget.stereoUniversalRequireAdjs, "EmuCore/GS", "StereoUniversalRequireAdjs"),
  (HwWidget.stereoUniversalRequireAdjt, "EmuCore/GS", "StereoUniversalRequireAdjt"),
  (HwWidget.stereoUniversalRequireLtf, "EmuCore/GS", "StereoUniversalRequireLtf"),
  (HwWidget.stereoUniversalRequireShuffle, "EmuCore/GS", "StereoUniversalRequireShuffle"),
  (HwWidget.stereoUniversalRequireShuffleSame, "EmuCore/GS", "StereoUniversalRequireShuffleSame"),
  (HwWidget.stereoUniversalRequireReal16Src, "EmuCore/GS", "StereoUniversalRequireReal16Src"),
  (HwWidget.stereoUniversalRequireProcessBa, "EmuCore/GS", "StereoUniversalRequireProcessBa"),
  (HwWidget.stereoUniversalRequireProcessRg, "EmuCore/GS", "StereoUniversalRequireProcessRg"),
  (HwWidget.stereoUniversalRequireShuffleAcross, "EmuCore/GS", "StereoUniversalRequireShuffleAcross"),
  (HwWidget.stereoUniversalRequireWriteRg, "EmuCore/GS", "StereoUniversalRequireWriteRg"),
  (HwWidget.stereoUniversalRequireBlendA, "EmuCore/GS", "StereoUniversalRequireBlendA"),
  (HwWidget.stereoUniversalRequireBlendB, "EmuCore/GS", "StereoUniversalRequireBlendB"),
  (HwWidget.stereoUniversalRequireBlendC, "EmuCore/GS", "StereoUniversalRequireBlendC"),
  (HwWidget.stereoUniversalRequireBlendD, "EmuCore/GS", "StereoUniversalRequireBlendD"),
  (HwWidget.stereoUniversalRequireFixedOneA, "EmuCore/GS", "StereoUniversalRequireFixedOneA"),
  (HwWidget.stereoUniversalRequireBlendHw, "EmuCore/GS", "StereoUniversalRequireBlendHw"),
  (HwWidget.stereoUniversalRequireAMasked, "EmuCore/GS", "StereoUniversalRequireAMasked"),
  (HwWidget.stereoUniversalRequireRoundInv, "EmuCore/GS", "StereoUniversalRequireRoundInv"),
  (HwWidget.stereoUniversalRequireChannel, "EmuCore/GS", "StereoUniversalRequireChannel"),
  (HwWidget.stereoUniversalRequireChannelFb, "EmuCore/GS", "StereoUniversalRequireChannelFb"),
  (HwWidget.stereoUniversalRequireDither, "EmuCore/GS", "StereoUniversalRequireDither"),
  (HwWidget.stereoUniversalRequireDitherAdjust, "EmuCore/GS", "StereoUniversalRequireDitherAdjust"),
  (HwWidget.stereoUniversalRequireZClamp, "EmuCore/GS", "StereoUniversalRequireZClamp"),
  (HwWidget.stereoUniversalRequireZFloor, "EmuCore/GS", "StereoUniversalRequireZFloor"),
  (HwWidget.stereoUniversalRequireTCOffsetHack, "EmuCore/GS", "StereoUniversalRequireTCOffsetHack"),
  (HwWidget.stereoUniversalRequireUrbanChaosHle, "EmuCore/GS", "StereoUniversalRequireUrbanChaosHle"),
  (HwWidget.stereoUniversalRequireTalesOfAbyssHle, "EmuCore/GS", "StereoUniversalRequireTalesOfAbyssHle"),
  (HwWidget.stereoUniversalRequireAutomaticLod, "EmuCore/GS", "StereoUniversalRequireAutomaticLod"),
  (HwWidget.stereoUniversalRequireManualLod, "EmuCore/GS", "StereoUniversalRequireManualLod"),
  (HwWidget.stereoUniversalRequirePointSampler, "EmuCore/GS", "StereoUniversalRequirePointSampler"),
  (HwWidget.stereoUniversalRequireRegionRect, "EmuCore/GS", "StereoUniversalRequireRegionRect"),
  (HwWidget.stereoUniversalRequireScanmask, "EmuCore/GS", "StereoUniversalRequireScanmask"),
  (HwWidget.stereoUniversalRequireAlphaBlend, "EmuCore/GS", "StereoUniversalRequireAlphaBlend"),
  (HwWidget.stereoUniversalRequireAlphaTest, "EmuCore/GS", "StereoUniversalRequireAlphaTest"),
  (HwWidget.stereoUniversalRequireDatm, "EmuCore/GS", "StereoUniversalRequireDatm"),
  (HwWidget.stereoUniversalRequireZTest, "EmuCore/GS", "StereoUniversalRequireZTest"),
  (HwWidget.stereoUniversalRequireZWrite, "EmuCore/GS", "StereoUniversalRequireZWrite"),
  (HwWidget.stereoUniversalRequireZTestAlways, "EmuCore/GS", "StereoUniversalRequireZTestAlways"),
  (HwWidget.stereoUniversalRequireZTestNever, "EmuCore/GS", "StereoUniversalRequireZTestNever"),
  (HwWidget.stereoUniversalRequireAa1, "EmuCore/GS", "StereoUniversalRequireAa1"),
  (HwWidget.stereoUniversalRequireChannelShuffle, "EmuCore/GS", "StereoUniversalRequireChannelShuffle"),
  (HwWidget.stereoUniversalRequireTextureShuffle, "EmuCore/GS", "StereoUniversalRequireTextureShuffle"),
  (HwWidget.stereoUniversalRequireFullscreenShuffle, "EmuCore/GS", "StereoUniversalRequireFullscreenShuffle"),
  (HwWidget.stereoUniversalRequirePoints, "EmuCore/GS", "StereoUniversalRequirePoints"),
  (HwWidget.stereoUniversalRequireLines, "EmuCore/GS", "StereoUniversalRequireLines"),
  (HwWidget.stereoUniversalRequireTriangles, "EmuCore/GS", "StereoUniversalRequireTriangles"),
  (HwWidget.stereoUniversalRequireSprites, "EmuCore/GS", "StereoUniversalRequireSprites"),
  (HwWidget.stereoUniversalRequireFixedQ, "EmuCore/GS", "StereoUniversalRequireFixedQ"),
  (HwWidget.stereoUniversalRequireFixedZ, "EmuCore/GS", "StereoUniversalRequireFixedZ"),
  (HwWidget.stereoUniversalRequireConstantColor, "EmuCore/GS", "StereoUniversalRequireConstantColor"),
  (HwWidget.stereoRejectBlendMix, "EmuCore/GS", "StereoRejectBlendMix"),
  (HwWidget.stereoRejectPabe, "EmuCore/GS", "StereoRejectPabe"),
  (HwWidget.stereoRejectDither, "EmuCore/GS", "StereoRejectDither"),
  (HwWidget.stereoRejectScanmask, "EmuCore/GS", "StereoRejectScanmask"),
  (HwWidget.stereoRejectRegionRect, "EmuCore/GS", "StereoRejectRegionRect"),
  (HwWidget.stereoRejectNoColorOutput, "EmuCore/GS", "StereoRejectNoColorOutput"),
  (HwWidget.stereoRejectHleShuffle, "EmuCore/GS", "StereoRejectHleShuffle"),
  (HwWidget.stereoRejectTCOffsetHack, "EmuCore/GS", "StereoRejectTCOffsetHack"),
  (HwWidget.stereoRejectPoints, "EmuCore/GS", "StereoRejectPoints"),
  (HwWidget.stereoRejectLines, "EmuCore/GS", "StereoRejectLines"),
  (HwWidget.stereoRejectFlatShading, "EmuCore/GS", "StereoRejectFlatShading"),
  (HwWidget.stereoRejectFst, "EmuCore/GS", "StereoRejectFst"),
  (HwWidget.stereoEnableOptions, "EmuCore/GS", "StereoEnableOptions"),
  (HwWidget.stereoRemoveFixedSt, "EmuCore/GS", "StereoRemoveFixedSt"),
  (HwWidget.stereoRejectFixedQ, "EmuCore/GS", "StereoRejectFixedQ"),
  (HwWidget.stereoRejectAa1, "EmuCore/GS", "StereoRejectAa1"),
  (HwWidget.stereoRejectNoZTest, "EmuCore/GS", "StereoRejectNoZTest"),
  (HwWidget.stereoRejectNoZWrite, "EmuCore/GS", "StereoRejectNoZWrite"),
  (HwWidget.stereoRejectZTestAlways, "EmuCore/GS", "StereoRejectZTestAlways"),
  (HwWidget.stereoRejectZTestNever, "EmuCore/GS", "StereoRejectZTestNever"),
  (HwWidget.stereoRejectAlphaTestOff, "EmuCore/GS", "StereoRejectAlphaTestOff"),
  (HwWidget.stereoRejectAlphaTestAlways, "EmuCore/GS", "StereoRejectAlphaTestAlways"),
  (HwWidget.stereoRejectAlphaTestNever, "EmuCore/GS", "StereoRejectAlphaTestNever"),
  (HwWidget.stereoRejectTfxModulate, "EmuCore/GS", "StereoRejectTfxModulate"),
  (HwWidget.stereoRejectTfxDecal, "EmuCore/GS", "StereoRejectTfxDecal"),
  (HwWidget.stereoRejectTfxHighlight, "EmuCore/GS", "StereoRejectTfxHighlight"),
  (HwWidget.stereoRejectTfxHighlight2, "EmuCore/GS", "StereoRejectTfxHighlight2"),
  (HwWidget.stereoRejectSmallDrawArea, "EmuCore/GS", "StereoRejectSmallDrawArea"),
  (HwWidget.stereoRejectWideDrawBand, "EmuCore/GS", "StereoRejectWideDrawBand"),
  (HwWidget.stereoRejectTopDrawBand, "EmuCore/GS", "StereoRejectTopDrawBand"),
  (HwWidget.stereoRejectRtSpriteNoDepth, "EmuCore/GS", "StereoRejectRtSpriteNoDepth"),
  (HwWidget.stereoRejectRtSpriteAlphaBlend, "EmuCore/GS", "StereoRejectRtSpriteAlphaBlend"),
  (HwWidget.stereoRequireProcessTexture, "EmuCore/GS", "StereoRequireProcessTexture"),
  (HwWidget.stereoRejectProcessTexture, "EmuCore/GS", "StereoRejectProcessTexture"),
  (HwWidget.stereoRequireSourceFromTarget, "EmuCore/GS", "StereoRequireSourceFromTarget"),
  (HwWidget.stereoRejectSourceFromTarget, "EmuCore/GS", "StereoRejectSourceFromTarget"),
  (HwWidget.stereoRequireDrawUsesTarget, "EmuCore/GS", "StereoRequireDrawUsesTarget"),
  (HwWidget.stereoRejectDrawUsesTarget, "EmuCore/GS", "StereoRejectDrawUsesTarget"),
  (HwWidget.stereoRequireTexIsRt, "EmuCore/GS", "StereoRequireTexIsRt"),
  (HwWidget.stereoRejectTexIsRt, "EmuCore/GS", "StereoRejectTexIsRt"),
  (HwWidget.stereoRequireInTargetDraw, "EmuCore/GS", "StereoRequireInTargetDraw"),
  (HwWidget.stereoRejectInTargetDraw, "EmuCore/GS", "StereoRejectInTargetDraw"),
  (HwWidget.stereoRequireTempZ, "EmuCore/GS", "StereoRequireTempZ"),
  (HwWidget.stereoRejectTempZ, "EmuCore/GS", "StereoRejectTempZ"),
  (HwWidget.stereoRequireOneBarrier, "EmuCore/GS", "StereoRequireOneBarrier"),
  (HwWidget.stereoRejectOneBarrier, "EmuCore/GS", "StereoRejectOneBarrier"),
  (HwWidget.stereoRequireFullBarrier, "EmuCore/GS", "StereoRequireFullBarrier"),
  (HwWidget.stereoRejectFullBarrier, "EmuCore/GS", "StereoRejectFullBarrier"),
  (HwWidget.stereoRequireSinglePass, "EmuCore/GS", "StereoRequireSinglePass"),
  (HwWidget.stereoRejectSinglePass, "EmuCore/GS", "StereoRejectSinglePass"),
  (HwWidget.stereoRequireFullscreenDrawArea, "EmuCore/GS", "StereoRequireFullscreenDrawArea"),
  (HwWidget.stereoRejectFullscreenDrawArea, "EmuCore/GS", "StereoRejectFullscreenDrawArea"),
  (HwWidget.stereoRequireFullscreenSprite, "EmuCore/GS", "StereoRequireFullscreenSprite"),
  (HwWidget.stereoRejectFullscreenSprite, "EmuCore/GS", "StereoRejectFullscreenSprite"),
  (HwWidget.stereoRequireTexturedSprite, "EmuCore/GS", "StereoRequireTexturedSprite"),
  (HwWidget.stereoRejectTexturedSprite, "EmuCore/GS", "StereoRejectTexturedSprite"),
  (HwWidget.stereoRequireRtOutput, "EmuCore/GS", "StereoRequireRtOutput"),
  (HwWidget.stereoRejectRtOutput, "EmuCore/GS", "StereoRejectRtOutput"),
  (HwWidget.stereoRequireDepthOutput, "EmuCore/GS", "StereoRequireDepthOutput"),
  (HwWidget.stereoRejectDepthOutput, "EmuCore/GS", "StereoRejectDepthOutput"),
  (HwWidget.stereoRequireDepthRead, "EmuCore/GS", "StereoRequireDepthRead"),
  (HwWidget.stereoRejectDepthRead, "EmuCore/GS", "StereoRejectDepthRead"),
  (HwWidget.stereoRequireDepthWrite, "EmuCore/GS", "StereoRequireDepthWrite"),
  (HwWidget.stereoRejectDepthWrite, "EmuCore/GS", "StereoRejectDepthWrite"),
  (HwWidget.stereoRequirePalettedTexture, "EmuCore/GS", "StereoRequirePalettedTexture"),
  (HwWidget.stereoRejectPalettedTexture, "EmuCore/GS", "StereoRejectPalettedTexture"),
  (HwWidget.stereoRequireDepthTexture, "EmuCore/GS", "StereoRequireDepthTexture"),
  (HwWidget.stereoRejectDepthTexture, "EmuCore/GS", "StereoRejectDepthTexture"),
  (HwWidget.stereoRequireMipmap, "EmuCore/GS", "StereoRequireMipmap"),
  (HwWidget.stereoRejectMipmap, "EmuCore/GS", "StereoRejectMipmap"),
  (HwWidget.stereoRequireLinearSampling, "EmuCore/GS", "StereoRequireLinearSampling"),
  (HwWidget.stereoRejectLinearSampling, "EmuCore/GS", "StereoRejectLinearSampling"),
  (HwWidget.stereoRequireFmvActive, "EmuCore/GS", "StereoRequireFmvActive"),
  (HwWidget.stereoRejectFmvActive, "EmuCore/GS", "StereoRejectFmvActive"),
  (HwWidget.stereoRequireFmvHeuristic, "EmuCore/GS", "StereoRequireFmvHeuristic"),
  (HwWidget.stereoRejectFmvHeuristic, "EmuCore/GS", "StereoRejectFmvHeuristic"),
  (HwWidget.stereoRequireFmvSprite, "EmuCore/GS", "StereoRequireFmvSprite"),
  (HwWidget.stereoRejectFmvSprite, "EmuCore/GS", "StereoRejectFmvSprite"),
  (HwWidget.stereoRequireFmvSingleSprite, "EmuCore/GS", "StereoRequireFmvSingleSprite"),
  (HwWidget.stereoRejectFmvSingleSprite, "EmuCore/GS", "StereoRejectFmvSingleSprite"),
  (HwWidget.stereoRequireFmvTextureMapping, "EmuCore/GS", "StereoRequireFmvTextureMapping"),
  (HwWidget.stereoRejectFmvTextureMapping, "EmuCore/GS", "StereoRejectFmvTextureMapping"),
  (HwWidget.stereoRequireFmvProcessTexture, "EmuCore/GS", "StereoRequireFmvProcessTexture"),
  (HwWidget.stereoRejectFmvProcessTexture, "EmuCore/GS", "StereoRejectFmvProcessTexture"),
  (HwWidget.stereoRequireFmvFullscreenDrawArea, "EmuCore/GS", "StereoRequireFmvFullscreenDrawArea"),
  (HwWidget.stereoRejectFmvFullscreenDrawArea, "EmuCore/GS", "StereoRejectFmvFullscreenDrawArea"),
  (HwWidget.stereoRequireFmvFullscreenScissor, "EmuCore/GS", "StereoRequireFmvFullscreenScissor"),
  (HwWidget.stereoRejectFmvFullscreenScissor, "EmuCore/GS", "StereoRejectFmvFullscreenScissor"),
  (HwWidget.stereoRequireFmvNoAlphaBlend, "EmuCore/GS", "StereoRequireFmvNoAlphaBlend"),
  (HwWidget.stereoRejectFmvNoAlphaBlend, "EmuCore/GS", "StereoRejectFmvNoAlphaBlend"),
  (HwWidget.stereoRequireFmvNoAlphaTest, "EmuCore/GS", "StereoRequireFmvNoAlphaTest"),
  (HwWidget.stereoRejectFmvNoAlphaTest, "EmuCore/GS", "StereoRejectFmvNoAlphaTest"),
  (HwWidget.stereoRequireFmvNoDepthTest, "EmuCore/GS", "StereoRequireFmvNoDepthTest"),
  (HwWidget.stereoRejectFmvNoDepthTest, "EmuCore/GS", "StereoRejectFmvNoDepthTest"),
  (HwWidget.stereoRequireFmvNoDepthWrite, "EmuCore/GS", "StereoRequireFmvNoDepthWrite"),
  (HwWidget.stereoRejectFmvNoDepthWrite, "EmuCore/GS", "StereoRejectFmvNoDepthWrite"),
  (HwWidget.stereoRequireFmvNoDepthOutput, "EmuCore/GS", "StereoRequireFmvNoDepthOutput"),
  (HwWidget.stereoRejectFmvNoDepthOutput, "EmuCore/GS", "StereoRejectFmvNoDepthOutput"),
  (HwWidget.stereoRequireFmvNoDepthRead, "EmuCore/GS", "StereoRequireFmvNoDepthRead"),
  (HwWidget.stereoRejectFmvNoDepthRead, "EmuCore/GS", "StereoRejectFmvNoDepthRead"),
  (HwWidget.stereoRequireFmvNoFbMask, "EmuCore/GS", "StereoRequireFmvNoFbMask"),
  (HwWidget.stereoRejectFmvNoFbMask, "EmuCore/GS", "StereoRejectFmvNoFbMask"),
  (HwWidget.stereoRequireFmvColorOutput, "EmuCore/GS", "StereoRequireFmvColorOutput"),
  (HwWidget.stereoRejectFmvColorOutput, "EmuCore/GS", "StereoRejectFmvColorOutput"),
  (HwWidget.stereoRequireFmvSourceNotFromTarget, "EmuCore/GS", "StereoRequireFmvSourceNotFromTarget"),
  (HwWidget.stereoRejectFmvSourceNotFromTarget, "EmuCore/GS", "StereoRejectFmvSourceNotFromTarget"),
  (HwWidget.stereoRequireFmvDrawMatchesTex, "EmuCore/GS", "StereoRequireFmvDrawMatchesTex"),
  (HwWidget.stereoRejectFmvDrawMatchesTex, "EmuCore/GS", "StereoRejectFmvDrawMatchesTex"),
  (HwWidget.stereoRequireFmvNoShuffle, "EmuCore/GS", "StereoRequireFmvNoShuffle"),
  (HwWidget.stereoRejectFmvNoShuffle, "EmuCore/GS", "StereoRejectFmvNoShuffle"),
  (HwWidget.stereoRequireFmvNoMipmap, "EmuCore/GS", "StereoRequireFmvNoMipmap"),
  (HwWidget.stereoRejectFmvNoMipmap, "EmuCore/GS", "StereoRejectFmvNoMipmap"),
  (HwWidget.stereoRequireFmvLinearSampling, "EmuCore/GS", "StereoRequireFmvLinearSampling"),
  (HwWidget.stereoRejectFmvLinearSampling, "EmuCore/GS", "StereoRejectFmvLinearSampling"),
  (HwWidget.stereoRequireFmvEeUpload, "EmuCore/GS", "StereoRequireFmvEeUpload"),
  (HwWidget.stereoRejectFmvEeUpload, "EmuCore/GS", "StereoRejectFmvEeUpload"),
  (HwWidget.stereoRequireFmvDisplayMatch, "EmuCore/GS", "StereoRequireFmvDisplayMatch"),
  (HwWidget.stereoRejectFmvDisplayMatch, "EmuCore/GS", "StereoRejectFmvDisplayMatch"),
  (HwWidget.stereoRequireFmvRecentEeUpload, "EmuCore/GS", "StereoRequireFmvRecentEeUpload"),
  (HwWidget.stereoRejectFmvRecentEeUpload, "EmuCore/GS", "StereoRejectFmvRecentEeUpload"),
  (HwWidget.stereoRequireFmvRecentTransferDraw, "EmuCore/GS", "StereoRequireFmvRecentTransferDraw"),
  (HwWidget.stereoRejectFmvRecentTransferDraw, "EmuCore/GS", "StereoRejectFmvRecentTransferDraw")]

/-- The controls `onStereoscopicModeChanged` passes to `setEnabled(stereo_enabled)`,
in source order. -/
def stereoGated : List HwWidget := [
  HwWidget.stereoDominantEyeLabel, HwWidget.stereoDominantEye, HwWidget.stereoSeparationLabel, HwWidget.stereoSeparation,
  HwWidget.stereoConvergenceLabel, HwWidget.stereoConvergence, HwWidget.stereoDepthFactorLabel, HwWidget.stereoDepthFactor,
  HwWidget.stereoUiDepth, HwWidget.stereoUiDepthLabel, HwWidget.stereoUiDepthValue, HwWidget.stereoUiSecondLayerDepth,
  HwWidget.stereoUiSecondLayerDepthLabel, HwWidget.stereoUiSecondLayerDepthValue, HwWidget.stereoSwapEyes,
  HwWidget.stereoFlipRendering, HwWidget.stereoDontRenderMonoObjects, HwWidget.stereoRejectNonPositiveZ,
  HwWidget.stereoRejectSmallZRange, HwWidget.stereoRejectSpriteBlit, HwWidget.stereoRejectConstantColor,
  HwWidget.stereoRejectScalingDraw, HwWidget.stereoRejectSbsInput, HwWidget.stereoRejectTabInput,
  HwWidget.stereoRequireDisplayBuffer1, HwWidget.stereoRequireDisplayBuffer2, HwWidget.stereoFixStencilShadows,
  HwWidget.stereoRequirePerspectiveUV, HwWidget.stereoRequireZVaries, HwWidget.stereoRequireDepthActive,
  HwWidget.stereoRejectSprites, HwWidget.stereoRejectUiLike, HwWidget.stereoUiSafeDetect, HwWidget.stereoUiAdvancedDetect,
  HwWidget.stereoUiBackgroundDepth, HwWidget.stereoMasterFix, HwWidget.stereoMasterFixTest, HwWidget.stereoMasterFix1,
  HwWidget.stereoMasterFix2, HwWidget.stereoMasterFix3, HwWidget.stereoMasterFix4, HwWidget.stereoMasterFix5, HwWidget.stereoMasterFix6,
  HwWidget.stereoMasterFix7, HwWidget.stereoMasterFix8, HwWidget.stereoMasterFix9, HwWidget.stereoMasterFix10,
  HwWidget.stereoRequireTextureMapping, HwWidget.stereoRequireAlphaBlend, HwWidget.stereoRequireAlphaTest,
  HwWidget.stereoRequireUvVaries, HwWidget.stereoRequireColorVaries, HwWidget.stereoRequireFog, HwWidget.stereoStencilRequireDate,
  HwWidget.stereoStencilRequireDatm, HwWidget.stereoStencilRequireAte, HwWidget.stereoStencilRequireAfailZbOnly,
  HwWidget.stereoStencilRequireAfailNotKeep, HwWidget.stereoStencilRequireZWrite, HwWidget.stereoStencilRequireZTest,
  HwWidget.stereoStencilRequireZTestGequal, HwWidget.stereoStencilRequireFbMask, HwWidget.stereoStencilRequireFbMaskFull,
  HwWidget.stereoStencilRequireTexIsFb, HwWidget.stereoRejectFullscreenDraw, HwWidget.stereoRejectFullscreenScissor,
  HwWidget.stereoRejectFullCover, HwWidget.stereoRejectSpriteNoGaps, HwWidget.stereoRejectTexIsFb,
  HwWidget.stereoRejectChannelShuffle, HwWidget.stereoRejectTextureShuffle, HwWidget.stereoRejectFullscreenShuffle,
  HwWidget.stereoRejectShaderShuffle, HwWidget.stereoRejectShuffleAcross, HwWidget.stereoRejectShuffleSame,
  HwWidget.stereoRejectChannelFetch, HwWidget.stereoRejectChannelFetchFb, HwWidget.stereoRejectFeedbackLoop,
  HwWidget.stereoRejectColclip, HwWidget.stereoRejectRtaCorrection, HwWidget.stereoUniversalRejectRtaSourceCorrection,
  HwWidget.stereoUniversalRejectColclipHw, HwWidget.stereoUniversalRejectColclip, HwWidget.stereoUniversalRejectBlendMix,
  HwWidget.stereoUniversalRejectPabe, HwWidget.stereoUniversalRejectFbMask, HwWidget.stereoUniversalRejectTexIsFb,
  HwWidget.stereoUniversalRejectNoColor, HwWidget.stereoUniversalRejectNoColor1, HwWidget.stereoUniversalRejectAemFmt,
  HwWidget.stereoUniversalRejectPalFmt, HwWidget.stereoUniversalRejectDstFmt, HwWidget.stereoUniversalRejectDepthFmt,
  HwWidget.stereoUniversalRejectAem, HwWidget.stereoUniversalRejectFba, HwWidget.stereoUniversalRejectFog,
  HwWidget.stereoUniversalRejectIip, HwWidget.stereoUniversalRejectDate, HwWidget.stereoUniversalRejectAtst,
  HwWidget.stereoUniversalRejectAfail, HwWidget.stereoUniversalRejectFst, HwWidget.stereoUniversalRejectTfx,
  HwWidget.stereoUniversalRejectTcc, HwWidget.stereoUniversalRejectWms, HwWidget.stereoUniversalRejectWmt,
  HwWidget.stereoUniversalRejectAdjs, HwWidget.stereoUniversalRejectAdjt, HwWidget.stereoUniversalRejectLtf,
  HwWidget.stereoUniversalRejectShuffle, HwWidget.stereoUniversalRejectShuffleSame,
  HwWidget.stereoUniversalRejectReal16Src, HwWidget.stereoUniversalRejectProcessBa,
  HwWidget.stereoUniversalRejectProcessRg, HwWidget.stereoUniversalRejectShuffleAcross,
  HwWidget.stereoUniversalRejectWriteRg, HwWidget.stereoUniversalRejectBlendA, HwWidget.stereoUniversalRejectBlendB,
  HwWidget.stereoUniversalRejectBlendC, HwWidget.stereoUniversalRejectBlendD, HwWidget.stereoUniversalRejectFixedOneA,
  HwWidget.stereoUniversalRejectBlendHw, HwWidget.stereoUniversalRejectAMasked, HwWidget.stereoUniversalRejectRoundInv,
  HwWidget.stereoUniversalRejectChannel, HwWidget.stereoUniversalRejectChannelFb, HwWidget.stereoUniversalRejectDither,
  HwWidget.stereoUniversalRejectDitherAdjust, HwWidget.stereoUniversalRejectZClamp, HwWidget.stereoUniversalRejectZFloor,
  HwWidget.stereoUniversalRejectTCOffsetHack, HwWidget.stereoUniversalRejectUrbanChaosHle,
  HwWidget.stereoUniversalRejectTalesOfAbyssHle, HwWidget.stereoUniversalRejectAutomaticLod,
  HwWidget.stereoUniversalRejectManualLod, HwWidget.stereoUniversalRejectPointSampler,
  HwWidget.stereoUniversalRejectRegionRect, HwWidget.stereoUniversalRejectScanmask,
  HwWidget.stereoUniversalRequireRtaCorrection, HwWidget.stereoUniversalRequireRtaSourceCorrection,
  HwWidget.stereoUniversalRequireColclipHw, HwWidget.stereoUniversalRequireColclip,
  HwWidget.stereoUniversalRequireBlendMix, HwWidget.stereoUniversalRequirePabe, HwWidget.stereoUniversalRequireFbMask,
  HwWidget.stereoUniversalRequireTexIsFb, HwWidget.stereoUniversalRequireNoColor, HwWidget.stereoUniversalRequireNoColor1,
  HwWidget.stereoUniversalRequireAemFmt, HwWidget.stereoUniversalRequirePalFmt, HwWidget.stereoUniversalRequireDstFmt,
  HwWidget.stereoUniversalRequireDepthFmt, HwWidget.stereoUniversalRequireAem, HwWidget.stereoUniversalRequireFba,
  HwWidget.stereoUniversalRequireFog, HwWidget.stereoUniversalRequireIip, HwWidget.stereoUniversalRequireDate,
  HwWidget.stereoUniversalRequireAtst, HwWidget.stereoUniversalRequireAfail, HwWidget.stereoUniversalRequireFst,
  HwWidget.stereoUniversalRequireTfx, HwWidget.stereoUniversalRequireTcc, HwWidget.stereoUniversalRequireWms,
  HwWidget.stereoUniversalRequireWmt, HwWidget.stereoUniversalRequireAdjs, HwWidget.stereoUniversalRequireAdjt,
  HwWidget.stereoUniversalRequireLtf, HwWidget.stereoUniversalRequireShuffle, HwWidget.stereoUniversalRequireShuffleSame,
  HwWidget.stereoUniversalRequireReal16Src, HwWidget.stereoUniversalRequireProcessBa,
  HwWidget.stereoUniversalRequireProcessRg, HwWidget.stereoUniversalRequireShuffleAcross,
  HwWidget.stereoUniversalRequireWriteRg, HwWidget.stereoUniversalRequireBlendA, HwWidget.stereoUniversalRequireBlendB,
  HwWidget.stereoUniversalRequireBlendC, HwWidget.stereoUniversalRequireBlendD, HwWidget.stereoUniversalRequireFixedOneA,
  HwWidget.stereoUniversalRequireBlendHw, HwWidget.stereoUniversalRequireAMasked, HwWidget.stereoUniversalRequireRoundInv,
  HwWidget.stereoUniversalRequireChannel, HwWidget.stereoUniversalRequireChannelFb, HwWidget.stereoUniversalRequireDither,
  HwWidget.stereoUniversalRequireDitherAdjust, HwWidget.stereoUniversalRequireZClamp,
  HwWidget.stereoUniversalRequireZFloor, HwWidget.stereoUniversalRequireTCOffsetHack,
  HwWidget.stereoUniversalRequireUrbanChaosHle, HwWidget.stereoUniversalRequireTalesOfAbyssHle,
  HwWidget.stereoUniversalRequireAutomaticLod, HwWidget.stereoUniversalRequireManualLod,
  HwWidget.stereoUniversalRequirePointSampler, HwWidget.stereoUniversalRequireRegionRect,
  HwWidget.stereoUniversalRequireScanmask, HwWidget.stereoUniversalRequireAlphaBlend,
  HwWidget.stereoUniversalRequireAlphaTest, HwWidget.stereoUniversalRequireDatm, HwWidget.stereoUniversalRequireZTest,
  HwWidget.stereoUniversalRequireZWrite, HwWidget.stereoUniversalRequireZTestAlways,
  HwWidget.stereoUniversalRequireZTestNever, HwWidget.stereoUniversalRequireAa1,
  HwWidget.stereoUniversalRequireChannelShuffle, HwWidget.stereoUniversalRequireTextureShuffle,
  HwWidget.stereoUniversalRequireFullscreenShuffle, HwWidget.stereoUniversalRequirePoints,
  HwWidget.stereoUniversalRequireLines, HwWidget.stereoUniversalRequireTriangles, HwWidget.stereoUniversalRequireSprites,
  HwWidget.stereoUniversalRequireFixedQ, HwWidget.stereoUniversalRequireFixedZ,
  HwWidget.stereoUniversalRequireConstantColor, HwWidget.stereoRejectBlendMix, HwWidget.stereoRejectPabe,
  HwWidget.stereoRejectDither, HwWidget.stereoRejectScanmask, HwWidget.stereoRejectRegionRect, HwWidget.stereoRejectNoColorOutput,
  HwWidget.stereoRejectHleShuffle, HwWidget.stereoRejectTCOffsetHack, HwWidget.stereoRejectPoints, HwWidget.stereoRejectLines,
  HwWidget.stereoRejectFlatShading, HwWidget.stereoRejectFst, HwWidget.stereoEnableOptions, HwWidget.stereoRemoveFixedSt,
  HwWidget.stereoRejectFixedQ, HwWidget.stereoRejectAa1, HwWidget.stereoRejectNoZTest, HwWidget.stereoRejectNoZWrite,
  HwWidget.stereoRejectZTestAlways, HwWidget.stereoRejectZTestNever, HwWidget.stereoRejectAlphaTestOff,
  HwWidget.stereoRejectAlphaTestAlways, HwWidget.stereoRejectAlphaTestNever, HwWidget.stereoRejectTfxModulate,
  HwWidget.stereoRejectTfxDecal, HwWidget.stereoRejectTfxHighlight, HwWidget.stereoRejectTfxHighlight2,
  HwWidget.stereoRejectSmallDrawArea, HwWidget.stereoRejectWideDrawBand, HwWidget.stereoRejectTopDrawBand,
  HwWidget.stereoRejectRtSpriteNoDepth, HwWidget.stereoRejectRtSpriteAlphaBlend, HwWidget.stereoRequireProcessTexture,
  HwWidget.stereoRejectProcessTexture, HwWidget.stereoRequireSourceFromTarget, HwWidget.stereoRejectSourceFromTarget,
  HwWidget.stereoRequireDrawUsesTarget, HwWidget.stereoRejectDrawUsesTarget, HwWidget.stereoRequireTexIsRt,
  HwWidget.stereoRejectTexIsRt, HwWidget.stereoRequireInTargetDraw, HwWidget.stereoRejectInTargetDraw, HwWidget.stereoRequireTempZ,
  HwWidget.stereoRejectTempZ, HwWidget.stereoRequireOneBarrier, HwWidget.stereoRejectOneBarrier, HwWidget.stereoRequireFullBarrier,
  HwWidget.stereoRejectFullBarrier, HwWidget.stereoRequireSinglePass, HwWidget.stereoRejectSinglePass,
  HwWidget.stereoRequireFullscreenDrawArea, HwWidget.stereoRejectFullscreenDrawArea,
  HwWidget.stereoRequireFullscreenSprite, HwWidget.stereoRejectFullscreenSprite, HwWidget.stereoRequireTexturedSprite,
  HwWidget.stereoRejectTexturedSprite, HwWidget.stereoRequireRtOutput, HwWidget.stereoRejectRtOutput,
  HwWidget.stereoRequireDepthOutput, HwWidget.stereoRejectDepthOutput, HwWidget.stereoRequireDepthRead,
  HwWidget.stereoRejectDepthRead, HwWidget.stereoRequireDepthWrite, HwWidget.stereoRejectDepthWrite,
  HwWidget.stereoRequirePalettedTexture, HwWidget.stereoRejectPalettedTexture, HwWidget.stereoRequireDepthTexture,
  HwWidget.stereoRejectDepthTexture, HwWidget.stereoRequireMipmap, HwWidget.stereoRejectMipmap,
  HwWidget.stereoRequireLinearSampling, HwWidget.stereoRejectLinearSampling, HwWidget.stereoRequireFmvActive,
  HwWidget.stereoRejectFmvActive, HwWidget.stereoRequireFmvHeuristic, HwWidget.stereoRejectFmvHeuristic,
  HwWidget.stereoRequireFmvSprite, HwWidget.stereoRejectFmvSprite, HwWidget.stereoRequireFmvSingleSprite,
  HwWidget.stereoRejectFmvSingleSprite, HwWidget.stereoRequireFmvTextureMapping, HwWidget.stereoRejectFmvTextureMapping,
  HwWidget.stereoRequireFmvProcessTexture, HwWidget.stereoRejectFmvProcessTexture,
  HwWidget.stereoRequireFmvFullscreenDrawArea, HwWidget.stereoRejectFmvFullscreenDrawArea,
  HwWidget.stereoRequireFmvFullscreenScissor, HwWidget.stereoRejectFmvFullscreenScissor,
  HwWidget.stereoRequireFmvNoAlphaBlend, HwWidget.stereoRejectFmvNoAlphaBlend, HwWidget.stereoRequireFmvNoAlphaTest,
  HwWidget.stereoRejectFmvNoAlphaTest, HwWidget.stereoRequireFmvNoDepthTest, HwWidget.stereoRejectFmvNoDepthTest,
  HwWidget.stereoRequireFmvNoDepthWrite, HwWidget.stereoRejectFmvNoDepthWrite, HwWidget.stereoRequireFmvNoDepthOutput,
  HwWidget.stereoRejectFmvNoDepthOutput, HwWidget.stereoRequireFmvNoDepthRead, HwWidget.stereoRejectFmvNoDepthRead,
  HwWidget.stereoRequireFmvNoFbMask, HwWidget.stereoRejectFmvNoFbMask, HwWidget.stereoRequireFmvColorOutput,
  HwWidget.stereoRejectFmvColorOutput, HwWidget.stereoRequireFmvSourceNotFromTarget,
  HwWidget.stereoRejectFmvSourceNotFromTarget, HwWidget.stereoRequireFmvDrawMatchesTex,
  HwWidget.stereoRejectFmvDrawMatchesTex, HwWidget.stereoRequireFmvNoShuffle, HwWidget.stereoRejectFmvNoShuffle,
  HwWidget.stereoRequireFmvNoMipmap, HwWidget.stereoRejectFmvNoMipmap, HwWidget.stereoRequireFmvLinearSampling,
  HwWidget.stereoRejectFmvLinearSampling, HwWidget.stereoRequireFmvEeUpload, HwWidget.stereoRejectFmvEeUpload,
  HwWidget.stereoRequireFmvDisplayMatch, HwWidget.stereoRejectFmvDisplayMatch, HwWidget.stereoRequireFmvRecentEeUpload,
  HwWidget.stereoRejectFmvRecentEeUpload, HwWidget.stereoRequireFmvRecentTransferDraw,
  HwWidget.stereoRejectFmvRecentTransferDraw]

/-- The state of the panel: the dialog with its settings layers, and the part of
the widget tree the handlers below read or write.  A control held through a
pointer that the file may set to `nullptr` is an `Option`; for the advanced
controls the value is the enabled flag.  `diverged` records that a call made on
the panel has entered a loop that never ends: the call does not return, and from
then on the other fields describe no state the program reaches. -/
structure Panel where
  dialog : SettingsWindow
  tabVisible : Tab → Bool
  currentTab : Tab
  rendererDropdown : QComboBox
  adapterDropdown : QComboBox
  fullscreenModes : QComboBox
  upscaleMultiplier : QComboBox
  textureFiltering : QComboBox
  swTextureFiltering : QComboBox
  messagesPos : QComboBox
  performancePos : QComboBox
  enableHWFixes : Option CheckState
  extendedUpscales : Option CheckState
  hwEnabled : HwWidget → Bool
  osdEnabled : OsdWidget → Bool
  useBlitSwapChain : Option Bool
  overrideTextureBarriers : Option Bool
  disableFramebufferFetch : Option Bool
  exclusiveFullscreenControl : Option Bool
  gsDownloadMode : Option Bool
  diverged : Bool

namespace Panel

/-- Modelled from the spec: `setTabVisible(tab, is_visible, switch_to)` of the tab
host ("Tabs may be hidden/shown dynamically; one is current"): the tab is shown
or hidden, and hiding the current tab makes `switch_to`, when given, current. -/
def setTabVisible (p : Panel) (tab : Tab) (is_visible : Bool) (switch_to : Option Tab) : Panel :=
  { p with
    tabVisible := fun t => if t = tab then is_visible else p.tabVisible t
    currentTab :=
      match switch_to with
      | some s => if !is_visible && decide (p.currentTab = tab) then s else p.currentTab
      | none => p.currentTab }

/-- `m_hw.<control>->setEnabled(b)`. -/
def setHwEnabled (p : Panel) (w : HwWidget) (b : Bool) : Panel :=
  { p with hwEnabled := fun x => if x = w then b else p.hwEnabled x }

/-- `m_osd.<control>->setEnabled(b)`. -/
def setOsdEnabled (p : Panel) (w : OsdWidget) (b : Bool) : Panel :=
  { p with osdEnabled := fun x => if x = w then b else p.osdEnabled x }

end Panel


/-! ## Collaborator operations used by the handlers -/

namespace SettingsInterface

/-- `DeleteValue(section, key)`. -/
def DeleteValue (s : SettingsInterface) (section_ key : String) : SettingsInterface :=
  s.put section_ key none

/-- `GetBoolValue(section, key)` without out-parameter: the stored boolean, `false`
when the key holds none. -/
def GetBoolValueD (s : SettingsInterface) (section_ key : String) : Bool :=
  (s.GetBoolValue section_ key).getD false

/-- `GetStringList(section, key)`: the entries of a list-valued key, none when the
key holds no list. -/
def GetStringList (s : SettingsInterface) (section_ key : String) : List String :=
  match s section_ key with
  | some (.list l) => l
  | _ => []

/-- `AddToStringList(section, key, item)`: the item is appended unless present. -/
def AddToStringList (s : SettingsInterface) (section_ key item : String) : SettingsInterface :=
  if item ∈ s.GetStringList section_ key then s
  else s.put section_ key (some (.list (s.GetStringList section_ key ++ [item])))

/-- `RemoveFromStringList(section, key, item)`: every occurrence of the item is
removed; a key that does not hold the item is left as it is. -/
def RemoveFromStringList (s : SettingsInterface) (section_ key item : String) :
    SettingsInterface :=
  if item ∈ s.GetStringList section_ key then
    s.put section_ key (some (.list ((s.GetStringList section_ key).filter (fun x => x != item))))
  else s

end SettingsInterface

namespace SettingsWindow

/-- Modelled from the spec: `getFloatValue(section, key, std::nullopt)` in per-game
mode is the override when there is one; in global mode it is the global value. -/
def getFloatValue (d : SettingsWindow) (section_ key : String) : Option ℚ :=
  match d.sif with
  | some s => s.GetFloatValue section_ key
  | none => d.base.GetFloatValue section_ key

/-- Modelled from the spec: `saveAndReloadGameSettings` writes the overlay out and
reads it back; the layers keep their content and the call is counted. -/
def saveAndReloadGameSettings (d : SettingsWindow) : SettingsWindow :=
  { d with saves := d.saves + 1 }

end SettingsWindow

/-! ## Single-precision values of unsigned integers -/

/-- The number of low bits a `u32` loses when stored in a 24-bit significand. -/
def floatExponent (n : Nat) : Nat :=
  ((List.range 9).find? (fun e => decide (n < 2 ^ (24 + e)))).getD 9

/-- `static_cast<float>(n)` for a `u32`: exact below `2^24`, otherwise rounded to a
24-bit significand, ties to even. -/
def u32ToFloat (n : Nat) : ℚ :=
  if n < 2 ^ 24 then (n : ℚ)
  else
    let e := floatExponent n
    let q := n / 2 ^ e
    let r := n % 2 ^ e
    let up : Bool := decide (2 ^ e < 2 * r) || (decide (2 * r = 2 ^ e) && decide (q % 2 = 1))
    (((if up then q + 1 else q) * 2 ^ e : Nat) : ℚ)

/-! ## Internal resolution dropdown -/

/-- The `templates` table of `populateUpscaleMultipliers`: name and multiplier. -/
def templates : List (String × Nat) :=
  [("Native (PS2) (Default)", 1), ("2x Native (~720px/HD)", 2), ("3x Native (~1080px/FHD)", 3),
   ("4x Native (~1440px/QHD)", 4), ("5x Native (~1800px/QHD+)", 5),
   ("6x Native (~2160px/4K UHD)", 6), ("7x Native (~2520px)", 7),
   ("8x Native (~2880px/5K UHD)", 8), ("9x Native (~3240px)", 9),
   ("10x Native (~3600px/6K UHD)", 10), ("11x Native (~3960px)", 11),
   ("12x Native (~4320px/8K UHD)", 12), ("13x Native (~4680px)", 13),
   ("14x Native (~5040px)", 14), ("15x Native (~5400px)", 15), ("16x Native (~5760px)", 16),
   ("17x Native (~6120px)", 17), ("18x Native (~6480px/12K UHD)", 18),
   ("19x Native (~6840px)", 19), ("20x Native (~7200px)", 20), ("21x Native (~7560px)", 21),
   ("22x Native (~7920px)", 22), ("23x Native (~8280px)", 23),
   ("24x Native (~8640px/16K UHD)", 24), ("25x Native (~9000px)", 25)]

/-- The constant `max_template_multiplier`. -/
def max_template_multiplier : Nat := 25

/-- The constant `max_non_advanced_multiplier`. -/
def max_non_advanced_multiplier : Nat := 12

/-- The bound `max_shown_multiplier` computed by `populateUpscaleMultipliers`. -/
def max_shown_multiplier (p : Panel) (max_upscale_multiplier : Nat) : Nat :=
  if p.extendedUpscales = some CheckState.Checked then max_upscale_multiplier
  else min max_upscale_multiplier max_non_advanced_multiplier

/-- The entries the first loop adds: the templates up to the first one whose
multiplier exceeds the bound. -/
def shownTemplates (m : Nat) : List (String × QVariant) :=
  (templates.takeWhile (fun t => !decide (u32ToFloat m < (t.2 : ℚ)))).map
    (fun t => (t.1, QVariant.float (t.2 : ℚ)))

/-- The second loop, `for (u32 i = max_template_multiplier + 1; i <=
max_shown_multiplier; i++) addItem(...)`, started with counter `i` and run for at
most `fuel` tests of its condition: the entries added once the condition has
failed, `none` while it has not.  The counter is a `u32`, so the increment wraps
at `2^32`. -/
def generatedLoop (m : Nat) :
    Nat → Nat → List (String × QVariant) → Option (List (String × QVariant))
  | 0, _, _ => none
  | fuel + 1, i, acc =>
    if i ≤ m then
      generatedLoop m fuel ((i + 1) % 2 ^ 32)
        (acc ++ [(toString i ++ "x Native", QVariant.float (u32ToFloat i))])
    else some acc

/-- Whether the second loop comes to an end.  No `u32` counter exceeds `2^32 - 1`,
so for that bound the condition `i <= max_shown_multiplier` never fails
(`generatedLoop_never_ends`); for every smaller bound it fails once the counter
has passed the bound (`generatedLoop_ends`). -/
def generatedLoopEnds (m : Nat) : Bool := decide (m < 2 ^ 32 - 1)

/-- The entries the second loop adds when it ends, for `i` from 26 to the bound
(`generatedLoop_ends`). -/
def generatedEntries (m : Nat) : List (String × QVariant) :=
  (List.range' (max_template_multiplier + 1) (m - max_template_multiplier)).map
    (fun i => (toString i ++ "x Native", QVariant.float (u32ToFloat i)))

/-- Appends entries to a combo box with `addItem`, one after the other. -/
def addItems (c : QComboBox) (l : List (String × QVariant)) : QComboBox :=
  l.foldl (fun c e => c.addItem e.1 e.2) c

namespace Panel

/-- The handler-free body of `populateUpscaleMultipliers(max_upscale_multiplier)`.
When the second loop does not end the call never returns, which the result
records in `diverged`. -/
def populateUpscaleMultipliers (p : Panel) (max_upscale_multiplier : Nat) : Panel :=
  let m := max_shown_multiplier p max_upscale_multiplier
  let c := addItems (addItems p.upscaleMultiplier.clear (shownTemplates m)) (generatedEntries m)
  let diverged := p.diverged || !generatedLoopEnds m
  let global_value := p.dialog.GetBaseFloatSettingValue "EmuCore/GS" "upscale_multiplier" 1
  if p.dialog.isPerGameSettings then
    let name_idx := c.findData (QVariant.float global_value)
    let global_name := if 0 ≤ name_idx then c.itemText name_idx else "%1x Native"
    let c1 := c.insertItem 0 ("Use Global Setting [" ++ global_name ++ "]") QVariant.invalid
    match p.dialog.getFloatValue "EmuCore/GS" "upscale_multiplier" with
    | some v =>
      let index := c1.findData (QVariant.float v)
      { p with
        upscaleMultiplier := if 0 < index then c1.setCurrentIndex index else c1
        diverged := diverged }
    | none => { p with upscaleMultiplier := c1.setCurrentIndex 0, diverged := diverged }
  else
    let index := c.findData (QVariant.float global_value)
    { p with
      upscaleMultiplier := if 0 < index then c.setCurrentIndex index else c
      diverged := diverged }

/-- `onUpscaleMultiplierChanged()`: the data of the current entry is written, an
invalid one removes the key. -/
def onUpscaleMultiplierChanged (p : Panel) : Panel :=
  let data := p.upscaleMultiplier.currentData
  let value : Option ℚ := if data.isValid then some data.toFloat else none
  { p with dialog := p.dialog.setFloatSettingValue "EmuCore/GS" "upscale_multiplier" value }

end Panel


/-! ## Renderer-dependent options -/

/-- Qt's `arg` applied to the text "Use Global Setting [%1]". -/
def useGlobalSetting (name : String) : String := "Use Global Setting [" ++ name ++ "]"

/-- `Qt::CheckState` as the integer the `checkStateChanged` signal carries. -/
def CheckState.toInt : CheckState → Int
  | CheckState.Unchecked => 0
  | CheckState.PartiallyChecked => 1
  | CheckState.Checked => 2

/-- The loop shape shared by the renderer, adapter and fullscreen-mode dropdowns:
one entry is added per element, and each element that matches makes the entry
just added current (`setCurrentIndex(count() - 1)`). -/
def addAndSelect {α : Type} (hit : α → Bool) (text : α → String) (l : List α)
    (c : QComboBox) : QComboBox :=
  l.foldl
    (fun c a =>
      let c1 := c.addItem (text a) QVariant.invalid
      if hit a then c1.setCurrentIndex (c1.count - 1) else c1)
    c

namespace Panel

/-- `getEffectiveRenderer()`, as the integer value of the renderer type. -/
def getEffectiveRenderer (h : Host) (p : Panel) : Int :=
  let type := p.dialog.getEffectiveIntValue "EmuCore/GS" "Renderer"
    (h.rendererValue GSRendererType.Auto)
  if type = h.rendererValue GSRendererType.Auto then h.rendererValue h.GetPreferredRenderer
  else type

/-- The flag `is_hardware` of `updateRendererDependentOptions`. -/
def is_hardware (h : Host) (type : Int) : Bool :=
  decide (type = h.rendererValue GSRendererType.DX11) ||
  decide (type = h.rendererValue GSRendererType.DX12) ||
  decide (type = h.rendererValue GSRendererType.OGL) ||
  decide (type = h.rendererValue GSRendererType.VK) ||
  decide (type = h.rendererValue GSRendererType.Metal)

/-- The flag `is_software` of `updateRendererDependentOptions`. -/
def is_software (h : Host) (type : Int) : Bool :=
  decide (type = h.rendererValue GSRendererType.SW)

/-- The flag `hw_fixes` of `updateRendererDependentOptions`. -/
def hw_fixes (h : Host) (p : Panel) (type : Int) : Bool :=
  is_hardware h type && decide (p.enableHWFixes = some CheckState.Checked)

/-- Lines 2441-2466 of `updateRendererDependentOptions`: the tabs. -/
def updateTabs (h : Host) (p : Panel) (type : Int) : Panel :=
  let r : Panel × Tab :=
    if is_hardware h type then
      (((p.setTabVisible Tab.hardware_rendering true none).setTabVisible
          Tab.software_rendering false (some Tab.hardware_rendering)),
        Tab.hardware_rendering)
    else if is_software h type then
      (((p.setTabVisible Tab.software_rendering true none).setTabVisible
          Tab.hardware_rendering false (some Tab.software_rendering)),
        Tab.software_rendering)
    else
      (((p.setTabVisible Tab.hardware_rendering false (some Tab.display)).setTabVisible
          Tab.software_rendering false (some Tab.display)),
        Tab.display)
  ((r.1.setTabVisible Tab.hardware_fixes (hw_fixes h p type) (some r.2)).setTabVisible
      Tab.upscaling_fixes (hw_fixes h p type) (some r.2)).setTabVisible
    Tab.texture_replacement (is_hardware h type) (some r.2)

/-- Lines 2468-2478 of `updateRendererDependentOptions`: the advanced controls
that still exist are enabled or disabled. -/
def updateAdvanced (h : Host) (p : Panel) (type : Int) : Panel :=
  let is_dx11 : Bool := h.build.win32 &&
    (decide (type = h.rendererValue GSRendererType.DX11) ||
     decide (type = h.rendererValue GSRendererType.SW))
  let is_sw_dx : Bool := h.build.win32 &&
    (decide (type = h.rendererValue GSRendererType.DX11) ||
     decide (type = h.rendererValue GSRendererType.DX12) ||
     decide (type = h.rendererValue GSRendererType.SW))
  let is_auto : Bool := decide (type = h.rendererValue GSRendererType.Auto)
  let is_vk : Bool := decide (type = h.rendererValue GSRendererType.VK)
  let is_disable_barriers : Bool :=
    decide (type = h.rendererValue GSRendererType.Metal) ||
    decide (type = h.rendererValue GSRendererType.SW)
  { p with
    useBlitSwapChain := p.useBlitSwapChain.map (fun _ => is_dx11)
    overrideTextureBarriers := p.overrideTextureBarriers.map (fun _ => !is_disable_barriers)
    disableFramebufferFetch := p.disableFramebufferFetch.map (fun _ => !is_sw_dx)
    exclusiveFullscreenControl := p.exclusiveFullscreenControl.map (fun _ => is_auto || is_vk) }

/-- Lines 2484-2521 of `updateRendererDependentOptions`: the adapter dropdown is
refilled and the stored adapter selected; the second component is
`current_adapter_info`, the last adapter of that name and otherwise the first
adapter. -/
def updateAdapters (h : Host) (p : Panel) (adapters : List GSAdapterInfo) :
    QComboBox × Option GSAdapterInfo :=
  let global_adapter := p.dialog.GetBaseStringSettingValue "EmuCore/GS" "Adapter" ""
  let c0 := (((p.adapterDropdown.clear).setEnabled (!adapters.isEmpty)).addItem
    "(Default)" QVariant.invalid).setCurrentIndex 0
  let current_adapter := if global_adapter = h.GetDefaultAdapter then "" else global_adapter
  let r : QComboBox × String :=
    match p.dialog.sif with
    | some s =>
      let c1 := c0.insertItem 0
        (useGlobalSetting (if current_adapter = "" then "(Default)" else current_adapter))
        QVariant.invalid
      match s.GetStringValue "EmuCore/GS" "Adapter" with
      | some v => (c1, v)
      | none => (c1.setCurrentIndex 0, "")
    | none => (c0, current_adapter)
  let hit : GSAdapterInfo → Bool := fun a => decide (r.2 = a.name)
  (addAndSelect hit (fun a => a.name) adapters r.1,
    match (adapters.filter hit).getLast? with
    | some a => some a
    | none => adapters.head?)

/-- Lines 2523-2552 of `updateRendererDependentOptions`: the fullscreen modes of
the current adapter. -/
def updateFullscreenModes (p : Panel) (current_adapter_info : Option GSAdapterInfo) :
    QComboBox :=
  let global_mode := p.dialog.GetBaseStringSettingValue "EmuCore/GS" "FullscreenMode" ""
  let c0 := ((p.fullscreenModes.clear).addItem "Borderless Fullscreen"
    QVariant.invalid).setCurrentIndex 0
  let r : QComboBox × String :=
    match p.dialog.sif with
    | some s =>
      let c1 := c0.insertItem 0
        (useGlobalSetting (if global_mode = "" then "Borderless Fullscreen" else global_mode))
        QVariant.invalid
      match s.GetStringValue "EmuCore/GS" "FullscreenMode" with
      | some v => (c1, v)
      | none => (c1.setCurrentIndex 0, "")
    | none => (c0, global_mode)
  match current_adapter_info with
  | some a => addAndSelect (fun m => decide (r.2 = m)) (fun m => m) a.fullscreen_modes r.1
  | none => r.1

/-- The argument `updateRendererDependentOptions` passes to
`populateUpscaleMultipliers`: `std::max(adapter maximum or 0, 10)`. -/
def max_upscale_multiplier (current_adapter_info : Option GSAdapterInfo) : Nat :=
  max (match current_adapter_info with
       | some a => a.max_upscale_multiplier
       | none => 0) 10

/-- `updateRendererDependentOptions()`. -/
def updateRendererDependentOptions (h : Host) (p : Panel) : Panel :=
  let type := p.getEffectiveRenderer h
  let p1 := updateAdvanced h (updateTabs h p type) type
  let a := updateAdapters h p1 (h.GSGetAdapterInfo type)
  let p2 := { p1 with adapterDropdown := a.1 }
  let p3 := { p2 with fullscreenModes := updateFullscreenModes p2 a.2 }
  p3.populateUpscaleMultipliers (max_upscale_multiplier a.2)

/-! ## Handlers -/

/-- `onRendererChanged(index)`.  Indexing the renderer table outside its entries
has no defined result, which is `none` here. -/
def onRendererChanged (h : Host) (p : Panel) (index : Int) : Option Panel :=
  let value : Option (Option Int) :=
    if p.dialog.isPerGameSettings then
      if 0 < index then
        ((s_renderer_info h.build).get? (index - 1).toNat).map
          (fun ri => some (h.rendererValue ri.type))
      else some none
    else if 0 ≤ index then
      ((s_renderer_info h.build).get? index.toNat).map (fun ri => some (h.rendererValue ri.type))
    else none
  value.map (fun v =>
    updateRendererDependentOptions h
      { p with dialog := p.dialog.setIntSettingValue "EmuCore/GS" "Renderer" v })

/-- The value `onAdapterChanged` and `onFullscreenModeChanged` write for an index,
given the text of the current entry: `none` removes the key. -/
def indexedStringValue (per_game : Bool) (index : Int) (currentText : String) : Option String :=
  let first : Int := if per_game then 2 else 1
  if first ≤ index then some currentText
  else if 0 < index ∧ per_game then some ""
  else none

/-- `onAdapterChanged(index)`. -/
def onAdapterChanged (p : Panel) (index : Int) : Panel :=
  let value := indexedStringValue p.dialog.isPerGameSettings index p.adapterDropdown.currentText
  { p with dialog := p.dialog.setStringSettingValue "EmuCore/GS" "Adapter" value }

/-- `onFullscreenModeChanged(index)`. -/
def onFullscreenModeChanged (p : Panel) (index : Int) : Panel :=
  let value := indexedStringValue p.dialog.isPerGameSettings index p.fullscreenModes.currentText
  { p with dialog := p.dialog.setStringSettingValue "EmuCore/GS" "FullscreenMode" value }

/-- `onTrilinearFilteringChanged()`. -/
def onTrilinearFilteringChanged (h : Host) (p : Panel) : Panel :=
  let forced_bilinear : Bool := decide (h.TriFiltering_Forced ≤
    p.dialog.getEffectiveIntValue "EmuCore/GS" "TriFilter" h.TriFiltering_Automatic)
  p.setHwEnabled HwWidget.textureFiltering (!forced_bilinear)

/-- `onStereoscopicModeChanged()`. -/
def onStereoscopicModeChanged (p : Panel) : Panel :=
  let effective_mode := p.dialog.getEffectiveStringValue "EmuCore/GS" "StereoMode" "Off"
  let stereo_enabled : Bool := decide (effective_mode ≠ "Off")
  stereoGated.foldl (fun q w => q.setHwEnabled w stereo_enabled) p

/-- `onGpuPaletteConversionChanged(state)`. -/
def onGpuPaletteConversionChanged (p : Panel) (state : Int) : Panel :=
  let disabled : Bool :=
    if state = CheckState.PartiallyChecked.toInt then
      p.dialog.GetBaseBoolSettingValue "EmuCore/GS" "paltex" false
    else decide (state ≠ 0)
  p.setHwEnabled HwWidget.anisotropicFiltering (!disabled)

/-- `onTextureFilteringChange()`: with the signals of the software control
blocked, no further handler runs. -/
def onTextureFilteringChange (p : Panel) : Panel :=
  { p with swTextureFiltering :=
      p.swTextureFiltering.setCurrentIndex p.textureFiltering.currentIndex }

/-- `onSWTextureFilteringChange()`: with the signals of the hardware control
blocked, no further handler runs. -/
def onSWTextureFilteringChange (p : Panel) : Panel :=
  { p with textureFiltering :=
      p.textureFiltering.setCurrentIndex p.swTextureFiltering.currentIndex }

/-- `onMessagesPosChanged()`. -/
def onMessagesPosChanged (p : Panel) : Panel :=
  let enabled : Bool :=
    decide (p.messagesPos.currentIndex ≠ (if p.dialog.isPerGameSettings then 1 else 0))
  p.setOsdEnabled OsdWidget.warnAboutUnsafeSettings enabled

/-- The checkboxes `onPerformancePosChanged` enables or disables, in source order. -/
def performanceGated : List OsdWidget :=
  [OsdWidget.showSpeedPercentages, OsdWidget.showFPS, OsdWidget.showVPS,
   OsdWidget.showResolution, OsdWidget.showGSStats, OsdWidget.showUsageCPU,
   OsdWidget.showUsageGPU, OsdWidget.showStatusIndicators, OsdWidget.showFrameTimes,
   OsdWidget.showHardwareInfo, OsdWidget.showVersion]

/-- `onPerformancePosChanged()`. -/
def onPerformancePosChanged (p : Panel) : Panel :=
  let enabled : Bool :=
    decide (p.performancePos.currentIndex ≠ (if p.dialog.isPerGameSettings then 1 else 0))
  performanceGated.foldl (fun q w => q.setOsdEnabled w enabled) p

end Panel


/-! ## Constructor -/

/-- Modelled from the spec: how `SettingWidgetBinder::BindWidgetToBoolSetting`
leaves a checkbox ("each bound control's displayed value equals the effective
value of its configuration key"; "in per-game mode, controls display a tri-state
inherit from global option"): in global mode checked iff the global value is set,
in per-game mode partially checked without an override and otherwise as the
override says. -/
def BindWidgetToBoolSetting (d : SettingsWindow) (section_ key : String) (dflt : Bool) :
    CheckState :=
  match d.sif with
  | some s =>
    match s.GetBoolValue section_ key with
    | some true => CheckState.Checked
    | some false => CheckState.Unchecked
    | none => CheckState.PartiallyChecked
  | none =>
    if d.GetBaseBoolSettingValue section_ key dflt then CheckState.Checked
    else CheckState.Unchecked

/-- Lines 612-617 of the constructor: one entry per renderer of the table, the
entry of the effective renderer made current. -/
def fillRenderers (h : Host) (renderer : Int) (l : List RendererInfo) (c : QComboBox) :
    QComboBox :=
  addAndSelect (fun ri => decide (renderer = h.rendererValue ri.type)) (fun ri => ri.name) l c

/-- Lines 623-628 of the constructor: the name of the last table entry whose type
is the global renderer, empty when there is none. -/
def globalRendererName (h : Host) (global_renderer : Int) (l : List RendererInfo) : String :=
  l.foldl (fun name ri => if global_renderer = h.rendererValue ri.type then ri.name else name) ""

/-- Lines 611-635 of the constructor: the renderer dropdown. -/
def setupRendererDropdown (h : Host) (d : SettingsWindow) : QComboBox :=
  let renderer := d.getEffectiveIntValue "EmuCore/GS" "Renderer"
    (h.rendererValue GSRendererType.Auto)
  let c := fillRenderers h renderer (s_renderer_info h.build) QComboBox.new
  match d.sif with
  | some s =>
    let global_renderer := d.GetBaseIntSettingValue "EmuCore/GS" "Renderer"
      (h.rendererValue GSRendererType.Auto)
    let c1 := c.insertItem 0
      (useGlobalSetting (globalRendererName h global_renderer (s_renderer_info h.build)))
      QVariant.invalid
    match s.GetIntValue "EmuCore/GS" "Renderer" with
    | some _ => c1
    | none => c1.setCurrentIndex 0
  | none => c

/-- One of the two migration blocks of lines 672-708: a legacy key of section
"EmuCore" is deleted and its patch moved to the enable or the disable list.  The
second component is whether the block set `needs_save`. -/
def migrateLegacyPatch (h : Host) (si : SettingsInterface) (legacy_key patch_name : String) :
    SettingsInterface × Bool :=
  if si.ContainsValue "EmuCore" legacy_key then
    let enabled := si.GetBoolValueD "EmuCore" legacy_key
    let si1 := si.DeleteValue "EmuCore" legacy_key
    if enabled then
      (((si1.AddToStringList h.PATCHES_CONFIG_SECTION h.PATCH_ENABLE_CONFIG_KEY
          patch_name).RemoveFromStringList h.PATCHES_CONFIG_SECTION h.PATCH_DISABLE_CONFIG_KEY
          patch_name), true)
    else
      (((si1.AddToStringList h.PATCHES_CONFIG_SECTION h.PATCH_DISABLE_CONFIG_KEY
          patch_name).RemoveFromStringList h.PATCHES_CONFIG_SECTION h.PATCH_ENABLE_CONFIG_KEY
          patch_name), true)
  else (si, false)

/-- The store part of lines 666-713 of the constructor: in per-game mode the two
legacy keys are migrated and the game settings saved if either was present. -/
def migrateLegacyPatches (h : Host) (d : SettingsWindow) : SettingsWindow :=
  match d.sif with
  | some si =>
    let ws := migrateLegacyPatch h si "EnableWideScreenPatches" "Widescreen 16:9"
    let ni := migrateLegacyPatch h ws.1 "EnableNoInterlacingPatches" "No-Interlacing"
    let d1 : SettingsWindow := { d with sif := some ni.1 }
    if ws.2 || ni.2 then d1.saveAndReloadGameSettings else d1
  | none => d

namespace Panel

/-- The widget tree before the constructor body runs its bindings: every tab
added and visible, the dropdowns the body fills still empty, every control
present and enabled. -/
def setup (d : SettingsWindow) : Panel :=
  { dialog := d
    tabVisible := fun _ => true
    currentTab := Tab.display
    rendererDropdown := QComboBox.new
    adapterDropdown := QComboBox.new
    fullscreenModes := QComboBox.new
    upscaleMultiplier := QComboBox.new
    textureFiltering := QComboBox.new
    swTextureFiltering := QComboBox.new
    messagesPos := QComboBox.new
    performancePos := QComboBox.new
    enableHWFixes := some CheckState.Unchecked
    extendedUpscales := some CheckState.Unchecked
    hwEnabled := fun _ => true
    osdEnabled := fun _ => true
    useBlitSwapChain := some true
    overrideTextureBarriers := some true
    disableFramebufferFetch := some true
    exclusiveFullscreenControl := some true
    gsDownloadMode := some true
    diverged := false }

/-- The constructor `GraphicsSettingsWidget::GraphicsSettingsWidget`, restricted to
the statements that act on the modelled state: the current tab (line 73), the
bindings of the two governing checkboxes (117, 592), the initial calls of
`onTrilinearFilteringChanged`, `onStereoscopicModeChanged` and
`onGpuPaletteConversionChanged` (457, 458, 495), the Advanced tab (606), the
renderer dropdown (611-635), `updateRendererDependentOptions` (643), the
platform and release-build removals (645-664) and the patch migration (666-721). -/
def GraphicsSettingsWidget (h : Host) (d : SettingsWindow) : Panel :=
  let p0 : Panel := { setup d with currentTab := Tab.hardware_rendering }
  let p1 : Panel :=
    { p0 with enableHWFixes := some (BindWidgetToBoolSetting d "EmuCore/GS" "UserHacks" false) }
  let p2 := (p1.onTrilinearFilteringChanged h).onStereoscopicModeChanged
  let p3 := p2.onGpuPaletteConversionChanged
    (BindWidgetToBoolSetting d "EmuCore/GS" "paltex" false).toInt
  let p4 : Panel :=
    { p3 with
      extendedUpscales :=
        some (BindWidgetToBoolSetting d "EmuCore/GS" "ExtendedUpscalingMultipliers" false) }
  let p5 := p4.setTabVisible Tab.advanced h.ShouldShowAdvancedSettings none
  let p6 : Panel := { p5 with rendererDropdown := setupRendererDropdown h d }
  let p7 := p6.updateRendererDependentOptions h
  let p8 : Panel := if h.build.win32 then p7 else { p7 with exclusiveFullscreenControl := none }
  let p9 : Panel :=
    if !h.build.devbuild && !d.isPerGameSettings then
      { p8 with gsDownloadMode := none, enableHWFixes := none }
    else p8
  { p9 with dialog := migrateLegacyPatches h p9.dialog }

end Panel

/-! ## Documented defaults and connection order -/

/-- Every checkbox the constructor both binds with `BindWidgetToBoolSetting` and
documents with `registerWidgetHelp`, in the order of the bindings: the member, the
default passed to the binding, and the default text passed to the help. -/
def checkboxDefaults : List (String × Bool × String) := [
  ("m_display.widescreenPatches", false, "Unchecked"),
  ("m_display.noInterlacingPatches", false, "Unchecked"),
  ("m_display.integerScaling", false, "Unchecked"), ("m_display.PCRTCOffsets", false, "Unchecked"),
  ("m_display.PCRTCOverscan", false, "Unchecked"), ("m_display.PCRTCAntiBlur", true, "Checked"),
  ("m_display.disableInterlaceOffset", false, "Unchecked"), ("m_hw.mipmapping", true, "Checked"),
  ("m_hw.enableHWFixes", false, "Unchecked"),
  ("m_hw.stereoRejectNonPositiveZ", false, "Unchecked"),
  ("m_hw.stereoRejectSmallZRange", false, "Unchecked"),
  ("m_hw.stereoRejectSpriteBlit", false, "Unchecked"),
  ("m_hw.stereoRejectConstantColor", false, "Unchecked"),
  ("m_hw.stereoRejectScalingDraw", false, "Unchecked"),
  ("m_hw.stereoRejectSbsInput", false, "Unchecked"),
  ("m_hw.stereoRejectTabInput", false, "Unchecked"),
  ("m_hw.stereoRequireDisplayBuffer1", true, "Checked"),
  ("m_hw.stereoRequireDisplayBuffer2", true, "Checked"),
  ("m_hw.stereoFixStencilShadows", false, "Unchecked"),
  ("m_hw.stereoRequirePerspectiveUV", true, "Checked"),
  ("m_hw.stereoRequireZVaries", true, "Checked"),
  ("m_hw.stereoRequireDepthActive", true, "Checked"),
  ("m_hw.stereoRejectSprites", true, "Checked"), ("m_hw.stereoRejectUiLike", true, "Checked"),
  ("m_hw.stereoUiSafeDetect", false, "Unchecked"),
  ("m_hw.stereoUiAdvancedDetect", false, "Unchecked"),
  ("m_hw.stereoUiBackgroundDepth", false, "Unchecked"),
  ("m_hw.stereoMasterFix", false, "Unchecked"), ("m_hw.stereoMasterFix1", false, "Unchecked"),
  ("m_hw.stereoMasterFix2", false, "Unchecked"), ("m_hw.stereoMasterFix3", false, "Unchecked"),
  ("m_hw.stereoMasterFix4", false, "Unchecked"), ("m_hw.stereoMasterFix5", false, "Unchecked"),
  ("m_hw.stereoMasterFix6", false, "Unchecked"), ("m_hw.stereoMasterFix7", false, "Unchecked"),
  ("m_hw.stereoMasterFix8", false, "Unchecked"), ("m_hw.stereoMasterFix9", false, "Unchecked"),
  ("m_hw.stereoMasterFix10", false, "Unchecked"), ("m_hw.stereoMasterFixTest", false, "Unchecked"),
  ("m_hw.stereoRequireTextureMapping", false, "Unchecked"),
  ("m_hw.stereoRequireAlphaBlend", false, "Unchecked"),
  ("m_hw.stereoRequireAlphaTest", false, "Unchecked"),
  ("m_hw.stereoRequireUvVaries", false, "Unchecked"),
  ("m_hw.stereoRequireColorVaries", false, "Unchecked"),
  ("m_hw.stereoRequireFog", false, "Unchecked"),
  ("m_hw.stereoStencilRequireDate", false, "Unchecked"),
  ("m_hw.stereoStencilRequireDatm", false, "Unchecked"),
  ("m_hw.stereoStencilRequireAte", false, "Unchecked"),
  ("m_hw.stereoStencilRequireAfailZbOnly", false, "Unchecked"),
  ("m_hw.stereoStencilRequireAfailNotKeep", false, "Unchecked"),
  ("m_hw.stereoStencilRequireZWrite", false, "Unchecked"),
  ("m_hw.stereoStencilRequireZTest", false, "Unchecked"),
  ("m_hw.stereoStencilRequireZTestGequal", false, "Unchecked"),
  ("m_hw.stereoStencilRequireFbMask", false, "Unchecked"),
  ("m_hw.stereoStencilRequireFbMaskFull", false, "Unchecked"),
  ("m_hw.stereoStencilRequireTexIsFb", false, "Unchecked"),
  ("m_hw.stereoRejectFullscreenDraw", false, "Unchecked"),
  ("m_hw.stereoRejectFullscreenScissor", false, "Unchecked"),
  ("m_hw.stereoRejectFullCover", false, "Unchecked"),
  ("m_hw.stereoRejectSpriteNoGaps", false, "Unchecked"),
  ("m_hw.stereoRejectTexIsFb", false, "Unchecked"),
  ("m_hw.stereoRejectChannelShuffle", false, "Unchecked"),
  ("m_hw.stereoRejectTextureShuffle", false, "Unchecked"),
  ("m_hw.stereoRejectFullscreenShuffle", false, "Unchecked"),
  ("m_hw.stereoRejectShaderShuffle", false, "Unchecked"),
  ("m_hw.stereoRejectShuffleAcross", false, "Unchecked"),
  ("m_hw.stereoRejectShuffleSame", false, "Unchecked"),
  ("m_hw.stereoRejectChannelFetch", false, "Unchecked"),
  ("m_hw.stereoRejectChannelFetchFb", false, "Unchecked"),
  ("m_hw.stereoRejectFeedbackLoop", false, "Unchecked"),
  ("m_hw.stereoRejectColclip", false, "Unchecked"),
  ("m_hw.stereoRejectRtaCorrection", false, "Unchecked"),
  ("m_hw.stereoUniversalRejectRtaSourceCorrection", false, "Unchecked"),
  ("m_hw.stereoUniversalRejectColclipHw", false, "Unchecked"),
  ("m_hw.stereoUniversalRejectColclip", false, "Unchecked"),
  ("m_hw.stereoUniversalRejectBlendMix", false, "Unchecked"),
  ("m_hw.stereoUniversalRejectPabe", false, "Unchecked"),
  ("m_hw.stereoUniversalRejectFbMask", false, "Unchecked"),
  ("m_hw.stereoUniversalRejectTexIsFb", false, "Unchecked"),
  ("m_hw.stereoUniversalRejectNoColor", false, "Unchecked"),
  ("m_hw.stereoUniversalRejectNoColor1", false, "Unchecked"),
  ("m_hw.stereoUniversalRejectAemFmt", false, "Unchecked"),
  ("m_hw.stereoUniversalRejectPalFmt", false, "Unchecked"),
  ("m_hw.stereoUniversalRejectDstFmt", false, "Unchecked"),
  ("m_hw.stereoUniversalRejectDepthFmt", false, "Unchecked"),
  ("m_hw.stereoUniversalRejectAem", false, "Unchecked"),
  ("m_hw.stereoUniversalRejectFba", false, "Unchecked"),
  ("m_hw.stereoUniversalRejectFog", false, "Unchecked"),
  ("m_hw.stereoUniversalRejectIip", false, "Unchecked"),
  ("m_hw.stereoUniversalRejectDate", false, "Unchecked"),
  ("m_hw.stereoUniversalRejectAtst", false, "Unchecked"),
  ("m_hw.stereoUniversalRejectAfail", false, "Unchecked"),
  ("m_hw.stereoUniversalRejectFst", false, "Unchecked"),
  ("m_hw.stereoUniversalRejectTfx", false, "Unchecked"),
  ("m_hw.stereoUniversalRejectTcc", false, "Unchecked"),
  ("m_hw.stereoUniversalRejectWms", false, "Unchecked"),
  ("m_hw.stereoUniversalRejectWmt", false, "Unchecked"),
  ("m_hw.stereoUniversalRejectAdjs", false, "Unchecked"),
  ("m_hw.stereoUniversalRejectAdjt", false, "Unchecked"),
  ("m_hw.stereoUniversalRejectLtf", false, "Unchecked"),
  ("m_hw.stereoUniversalRejectShuffle", false, "Unchecked"),
  ("m_hw.stereoUniversalRejectShuffleSame", false, "Unchecked"),
  ("m_hw.stereoUniversalRejectReal16Src", false, "Unchecked"),
  ("m_hw.stereoUniversalRejectProcessBa", false, "Unchecked"),
  ("m_hw.stereoUniversalRejectProcessRg", false, "Unchecked"),
  ("m_hw.stereoUniversalRejectShuffleAcross", false, "Unchecked"),
  ("m_hw.stereoUniversalRejectWriteRg", false, "Unchecked"),
  ("m_hw.stereoUniversalRejectBlendA", false, "Unchecked"),
  ("m_hw.stereoUniversalRejectBlendB", false, "Unchecked"),
  ("m_hw.stereoUniversalRejectBlendC", false, "Unchecked"),
  ("m_hw.stereoUniversalRejectBlendD", false, "Unchecked"),
  ("m_hw.stereoUniversalRejectFixedOneA", false, "Unchecked"),
  ("m_hw.stereoUniversalRejectBlendHw", false, "Unchecked"),
  ("m_hw.stereoUniversalRejectAMasked", false, "Unchecked"),
  ("m_hw.stereoUniversalRejectRoundInv", false, "Unchecked"),
  ("m_hw.stereoUniversalRejectChannel", false, "Unchecked"),
  ("m_hw.stereoUniversalRejectChannelFb", false, "Unchecked"),
  ("m_hw.stereoUniversalRejectDither", false, "Unchecked"),
  ("m_hw.stereoUniversalRejectDitherAdjust", false, "Unchecked"),
  ("m_hw.stereoUniversalRejectZClamp", false, "Unchecked"),
  ("m_hw.stereoUniversalRejectZFloor", false, "Unchecked"),
  ("m_hw.stereoUniversalRejectTCOffsetHack", false, "Unchecked"),
  ("m_hw.stereoUniversalRejectUrbanChaosHle", false, "Unchecked"),
  ("m_hw.stereoUniversalRejectTalesOfAbyssHle", false, "Unchecked"),
  ("m_hw.stereoUniversalRejectAutomaticLod", false, "Unchecked"),
  ("m_hw.stereoUniversalRejectManualLod", false, "Unchecked"),
  ("m_hw.stereoUniversalRejectPointSampler", false, "Unchecked"),
  ("m_hw.stereoUniversalRejectRegionRect", false, "Unchecked"),
  ("m_hw.stereoUniversalRejectScanmask", false, "Unchecked"),
  ("m_hw.stereoUniversalRequireRtaCorrection", false, "Unchecked"),
  ("m_hw.stereoUniversalRequireRtaSourceCorrection", false, "Unchecked"),
  ("m_hw.stereoUniversalRequireColclipHw", false, "Unchecked"),
  ("m_hw.stereoUniversalRequireColclip", false, "Unchecked"),
  ("m_hw.stereoUniversalRequireBlendMix", false, "Unchecked"),
  ("m_hw.stereoUniversalRequirePabe", false, "Unchecked"),
  ("m_hw.stereoUniversalRequireFbMask", false, "Unchecked"),
  ("m_hw.stereoUniversalRequireTexIsFb", false, "Unchecked"),
  ("m_hw.stereoUniversalRequireNoColor", false, "Unchecked"),
  ("m_hw.stereoUniversalRequireNoColor1", false, "Unchecked"),
  ("m_hw.stereoUniversalRequireAemFmt", false, "Unchecked"),
  ("m_hw.stereoUniversalRequirePalFmt", false, "Unchecked"),
  ("m_hw.stereoUniversalRequireDstFmt", false, "Unchecked"),
  ("m_hw.stereoUniversalRequireDepthFmt", false, "Unchecked"),
  ("m_hw.stereoUniversalRequireAem", false, "Unchecked"),
  ("m_hw.stereoUniversalRequireFba", false, "Unchecked"),
  ("m_hw.stereoUniversalRequireFog", false, "Unchecked"),
  ("m_hw.stereoUniversalRequireIip", false, "Unchecked"),
  ("m_hw.stereoUniversalRequireDate", false, "Unchecked"),
  ("m_hw.stereoUniversalRequireAtst", false, "Unchecked"),
  ("m_hw.stereoUniversalRequireAfail", false, "Unchecked"),
  ("m_hw.stereoUniversalRequireFst", false, "Unchecked"),
  ("m_hw.stereoUniversalRequireTfx", false, "Unchecked"),
  ("m_hw.stereoUniversalRequireTcc", false, "Unchecked"),
  ("m_hw.stereoUniversalRequireWms", false, "Unchecked"),
  ("m_hw.stereoUniversalRequireWmt", false, "Unchecked"),
  ("m_hw.stereoUniversalRequireAdjs", false, "Unchecked"),
  ("m_hw.stereoUniversalRequireAdjt", false, "Unchecked"),
  ("m_hw.stereoUniversalRequireLtf", false, "Unchecked"),
  ("m_hw.stereoUniversalRequireShuffle", false, "Unchecked"),
  ("m_hw.stereoUniversalRequireShuffleSame", false, "Unchecked"),
  ("m_hw.stereoUniversalRequireReal16Src", false, "Unchecked"),
  ("m_hw.stereoUniversalRequireProcessBa", false, "Unchecked"),
  ("m_hw.stereoUniversalRequireProcessRg", false, "Unchecked"),
  ("m_hw.stereoUniversalRequireShuffleAcross", false, "Unchecked"),
  ("m_hw.stereoUniversalRequireWriteRg", false, "Unchecked"),
  ("m_hw.stereoUniversalRequireBlendA", false, "Unchecked"),
  ("m_hw.stereoUniversalRequireBlendB", false, "Unchecked"),
  ("m_hw.stereoUniversalRequireBlendC", false, "Unchecked"),
  ("m_hw.stereoUniversalRequireBlendD", false, "Unchecked"),
  ("m_hw.stereoUniversalRequireFixedOneA", false, "Unchecked"),
  ("m_hw.stereoUniversalRequireBlendHw", false, "Unchecked"),
  ("m_hw.stereoUniversalRequireAMasked", false, "Unchecked"),
  ("m_hw.stereoUniversalRequireRoundInv", false, "Unchecked"),
  ("m_hw.stereoUniversalRequireChannel", false, "Unchecked"),
  ("m_hw.stereoUniversalRequireChannelFb", false, "Unchecked"),
  ("m_hw.stereoUniversalRequireDither", false, "Unchecked"),
  ("m_hw.stereoUniversalRequireDitherAdjust", false, "Unchecked"),
  ("m_hw.stereoUniversalRequireZClamp", false, "Unchecked"),
  ("m_hw.stereoUniversalRequireZFloor", false, "Unchecked"),
  ("m_hw.stereoUniversalRequireTCOffsetHack", false, "Unchecked"),
  ("m_hw.stereoUniversalRequireUrbanChaosHle", false, "Unchecked"),
  ("m_hw.stereoUniversalRequireTalesOfAbyssHle", false, "Unchecked"),
  ("m_hw.stereoUniversalRequireAutomaticLod", false, "Unchecked"),
  ("m_hw.stereoUniversalRequireManualLod", false, "Unchecked"),
  ("m_hw.stereoUniversalRequirePointSampler", false, "Unchecked"),
  ("m_hw.stereoUniversalRequireRegionRect", false, "Unchecked"),
  ("m_hw.stereoUniversalRequireScanmask", false, "Unchecked"),
  ("m_hw.stereoUniversalRequireAlphaBlend", false, "Unchecked"),
  ("m_hw.stereoUniversalRequireAlphaTest", false, "Unchecked"),
  ("m_hw.stereoUniversalRequireDatm", false, "Unchecked"),
  ("m_hw.stereoUniversalRequireZTest", false, "Unchecked"),
  ("m_hw.stereoUniversalRequireZWrite", false, "Unchecked"),
  ("m_hw.stereoUniversalRequireZTestAlways", false, "Unchecked"),
  ("m_hw.stereoUniversalRequireZTestNever", false, "Unchecked"),
  ("m_hw.stereoUniversalRequireAa1", false, "Unchecked"),
  ("m_hw.stereoUniversalRequireChannelShuffle", false, "Unchecked"),
  ("m_hw.stereoUniversalRequireTextureShuffle", false, "Unchecked"),
  ("m_hw.stereoUniversalRequireFullscreenShuffle", false, "Unchecked"),
  ("m_hw.stereoUniversalRequirePoints", false, "Unchecked"),
  ("m_hw.stereoUniversalRequireLines", false, "Unchecked"),
  ("m_hw.stereoUniversalRequireTriangles", false, "Unchecked"),
  ("m_hw.stereoUniversalRequireSprites", false, "Unchecked"),
  ("m_hw.stereoUniversalRequireFixedQ", false, "Unchecked"),
  ("m_hw.stereoUniversalRequireFixedZ", false, "Unchecked"),
  ("m_hw.stereoUniversalRequireConstantColor", false, "Unchecked"),
  ("m_hw.stereoRejectBlendMix", false, "Unchecked"), ("m_hw.stereoRejectPabe", false, "Unchecked"),
  ("m_hw.stereoRejectDither", false, "Unchecked"),
  ("m_hw.stereoRejectScanmask", false, "Unchecked"),
  ("m_hw.stereoRejectRegionRect", false, "Unchecked"),
  ("m_hw.stereoRejectNoColorOutput", false, "Unchecked"),
  ("m_hw.stereoRejectHleShuffle", false, "Unchecked"),
  ("m_hw.stereoRejectTCOffsetHack", false, "Unchecked"),
  ("m_hw.stereoRejectPoints", false, "Unchecked"), ("m_hw.stereoRejectLines", false, "Unchecked"),
  ("m_hw.stereoRejectFlatShading", false, "Unchecked"),
  ("m_hw.stereoRejectFst", false, "Unchecked"), ("m_hw.stereoEnableOptions", false, "Unchecked"),
  ("m_hw.stereoRemoveFixedSt", false, "Unchecked"),
  ("m_hw.stereoRejectFixedQ", false, "Unchecked"), ("m_hw.stereoRejectAa1", false, "Unchecked"),
  ("m_hw.stereoRejectNoZTest", false, "Unchecked"),
  ("m_hw.stereoRejectNoZWrite", false, "Unchecked"),
  ("m_hw.stereoRejectZTestAlways", false, "Unchecked"),
  ("m_hw.stereoRejectZTestNever", false, "Unchecked"),
  ("m_hw.stereoRejectAlphaTestOff", false, "Unchecked"),
  ("m_hw.stereoRejectAlphaTestAlways", false, "Unchecked"),
  ("m_hw.stereoRejectAlphaTestNever", false, "Unchecked"),
  ("m_hw.stereoRejectTfxModulate", false, "Unchecked"),
  ("m_hw.stereoRejectTfxDecal", false, "Unchecked"),
  ("m_hw.stereoRejectTfxHighlight", false, "Unchecked"),
  ("m_hw.stereoRejectTfxHighlight2", false, "Unchecked"),
  ("m_hw.stereoRejectSmallDrawArea", false, "Unchecked"),
  ("m_hw.stereoRejectWideDrawBand", false, "Unchecked"),
  ("m_hw.stereoRejectTopDrawBand", false, "Unchecked"),
  ("m_hw.stereoRejectRtSpriteNoDepth", false, "Unchecked"),
  ("m_hw.stereoRejectRtSpriteAlphaBlend", false, "Unchecked"),
  ("m_hw.stereoRequireProcessTexture", false, "Unchecked"),
  ("m_hw.stereoRejectProcessTexture", false, "Unchecked"),
  ("m_hw.stereoRequireSourceFromTarget", false, "Unchecked"),
  ("m_hw.stereoRejectSourceFromTarget", false, "Unchecked"),
  ("m_hw.stereoRequireDrawUsesTarget", false, "Unchecked"),
  ("m_hw.stereoRejectDrawUsesTarget", false, "Unchecked"),
  ("m_hw.stereoRequireTexIsRt", false, "Unchecked"),
  ("m_hw.stereoRejectTexIsRt", false, "Unchecked"),
  ("m_hw.stereoRequireInTargetDraw", false, "Unchecked"),
  ("m_hw.stereoRejectInTargetDraw", false, "Unchecked"),
  ("m_hw.stereoRequireTempZ", false, "Unchecked"), ("m_hw.stereoRejectTempZ", false, "Unchecked"),
  ("m_hw.stereoRequireOneBarrier", false, "Unchecked"),
  ("m_hw.stereoRejectOneBarrier", false, "Unchecked"),
  ("m_hw.stereoRequireFullBarrier", false, "Unchecked"),
  ("m_hw.stereoRejectFullBarrier", false, "Unchecked"),
  ("m_hw.stereoRequireSinglePass", false, "Unchecked"),
  ("m_hw.stereoRejectSinglePass", false, "Unchecked"),
  ("m_hw.stereoRequireFullscreenDrawArea", false, "Unchecked"),
  ("m_hw.stereoRejectFullscreenDrawArea", false, "Unchecked"),
  ("m_hw.stereoRequireFullscreenSprite", false, "Unchecked"),
  ("m_hw.stereoRejectFullscreenSprite", false, "Unchecked"),
  ("m_hw.stereoRequireTexturedSprite", false, "Unchecked"),
  ("m_hw.stereoRejectTexturedSprite", false, "Unchecked"),
  ("m_hw.stereoRequireRtOutput", false, "Unchecked"),
  ("m_hw.stereoRejectRtOutput", false, "Unchecked"),
  ("m_hw.stereoRequireDepthOutput", false, "Unchecked"),
  ("m_hw.stereoRejectDepthOutput", false, "Unchecked"),
  ("m_hw.stereoRequireDepthRead", false, "Unchecked"),
  ("m_hw.stereoRejectDepthRead", false, "Unchecked"),
  ("m_hw.stereoRequireDepthWrite", false, "Unchecked"),
  ("m_hw.stereoRejectDepthWrite", false, "Unchecked"),
  ("m_hw.stereoRequirePalettedTexture", false, "Unchecked"),
  ("m_hw.stereoRejectPalettedTexture", false, "Unchecked"),
  ("m_hw.stereoRequireDepthTexture", false, "Unchecked"),
  ("m_hw.stereoRejectDepthTexture", false, "Unchecked"),
  ("m_hw.stereoRequireMipmap", false, "Unchecked"),
  ("m_hw.stereoRejectMipmap", false, "Unchecked"),
  ("m_hw.stereoRequireLinearSampling", false, "Unchecked"),
  ("m_hw.stereoRejectLinearSampling", false, "Unchecked"),
  ("m_hw.stereoRequireFmvActive", false, "Unchecked"),
  ("m_hw.stereoRejectFmvActive", false, "Unchecked"),
  ("m_hw.stereoRequireFmvHeuristic", false, "Unchecked"),
  ("m_hw.stereoRejectFmvHeuristic", false, "Unchecked"),
  ("m_hw.stereoRequireFmvSprite", false, "Unchecked"),
  ("m_hw.stereoRejectFmvSprite", false, "Unchecked"),
  ("m_hw.stereoRequireFmvSingleSprite", false, "Unchecked"),
  ("m_hw.stereoRejectFmvSingleSprite", false, "Unchecked"),
  ("m_hw.stereoRequireFmvTextureMapping", false, "Unchecked"),
  ("m_hw.stereoRejectFmvTextureMapping", false, "Unchecked"),
  ("m_hw.stereoRequireFmvProcessTexture", false, "Unchecked"),
  ("m_hw.stereoRejectFmvProcessTexture", false, "Unchecked"),
  ("m_hw.stereoRequireFmvFullscreenDrawArea", false, "Unchecked"),
  ("m_hw.stereoRejectFmvFullscreenDrawArea", false, "Unchecked"),
  ("m_hw.stereoRequireFmvFullscreenScissor", false, "Unchecked"),
  ("m_hw.stereoRejectFmvFullscreenScissor", false, "Unchecked"),
  ("m_hw.stereoRequireFmvNoAlphaBlend", false, "Unchecked"),
  ("m_hw.stereoRejectFmvNoAlphaBlend", false, "Unchecked"),
  ("m_hw.stereoRequireFmvNoAlphaTest", false, "Unchecked"),
  ("m_hw.stereoRejectFmvNoAlphaTest", false, "Unchecked"),
  ("m_hw.stereoRequireFmvNoDepthTest", false, "Unchecked"),
  ("m_hw.stereoRejectFmvNoDepthTest", false, "Unchecked"),
  ("m_hw.stereoRequireFmvNoDepthWrite", false, "Unchecked"),
  ("m_hw.stereoRejectFmvNoDepthWrite", false, "Unchecked"),
  ("m_hw.stereoRequireFmvNoDepthOutput", false, "Unchecked"),
  ("m_hw.stereoRejectFmvNoDepthOutput", false, "Unchecked"),
  ("m_hw.stereoRequireFmvNoDepthRead", false, "Unchecked"),
  ("m_hw.stereoRejectFmvNoDepthRead", false, "Unchecked"),
  ("m_hw.stereoRequireFmvNoFbMask", false, "Unchecked"),
  ("m_hw.stereoRejectFmvNoFbMask", false, "Unchecked"),
  ("m_hw.stereoRequireFmvColorOutput", false, "Unchecked"),
  ("m_hw.stereoRejectFmvColorOutput", false, "Unchecked"),
  ("m_hw.stereoRequireFmvSourceNotFromTarget", false, "Unchecked"),
  ("m_hw.stereoRejectFmvSourceNotFromTarget", false, "Unchecked"),
  ("m_hw.stereoRequireFmvDrawMatchesTex", false, "Unchecked"),
  ("m_hw.stereoRejectFmvDrawMatchesTex", false, "Unchecked"),
  ("m_hw.stereoRequireFmvNoShuffle", false, "Unchecked"),
  ("m_hw.stereoRejectFmvNoShuffle", false, "Unchecked"),
  ("m_hw.stereoRequireFmvNoMipmap", false, "Unchecked"),
  ("m_hw.stereoRejectFmvNoMipmap", false, "Unchecked"),
  ("m_hw.stereoRequireFmvLinearSampling", false, "Unchecked"),
  ("m_hw.stereoRejectFmvLinearSampling", false, "Unchecked"),
  ("m_hw.stereoRequireFmvEeUpload", false, "Unchecked"),
  ("m_hw.stereoRejectFmvEeUpload", false, "Unchecked"),
  ("m_hw.stereoRequireFmvDisplayMatch", false, "Unchecked"),
  ("m_hw.stereoRejectFmvDisplayMatch", false, "Unchecked"),
  ("m_hw.stereoRequireFmvRecentEeUpload", false, "Unchecked"),
  ("m_hw.stereoRejectFmvRecentEeUpload", false, "Unchecked"),
  ("m_hw.stereoRequireFmvRecentTransferDraw", false, "Unchecked"),
  ("m_hw.stereoRejectFmvRecentTransferDraw", false, "Unchecked"),
  ("m_sw.swAutoFlush", true, "Checked"), ("m_sw.swMipmap", true, "Checked"),
  ("m_fixes.frameBufferConversion", false, "Unchecked"),
  ("m_fixes.disableDepthEmulation", false, "Unchecked"),
  ("m_fixes.disableSafeFeatures", false, "Unchecked"),
  ("m_fixes.disableRenderFixes", false, "Unchecked"),
  ("m_fixes.preloadFrameData", false, "Unchecked"),
  ("m_fixes.disablePartialInvalidation", false, "Unchecked"),
  ("m_fixes.readTCOnClose", false, "Unchecked"),
  ("m_fixes.estimateTextureRegion", false, "Unchecked"),
  ("m_fixes.gpuPaletteConversion", false, "Unchecked"),
  ("m_upscaling.alignSprite", false, "Unchecked"), ("m_upscaling.mergeSprite", false, "Unchecked"),
  ("m_upscaling.forceEvenSpritePosition", false, "Unchecked"),
  ("m_upscaling.nativePaletteDraw", false, "Unchecked"),
  ("m_texture.dumpReplaceableTextures", false, "Unchecked"),
  ("m_texture.dumpReplaceableMipmaps", false, "Unchecked"),
  ("m_texture.dumpTexturesWithFMVActive", false, "Unchecked"),
  ("m_texture.loadTextureReplacements", false, "Unchecked"),
  ("m_texture.loadTextureReplacementsAsync", true, "Checked"),
  ("m_texture.precacheTextureReplacements", false, "Unchecked"),
  ("m_post.fxaa", false, "Unchecked"), ("m_post.shadeBoost", false, "Unchecked"),
  ("m_osd.showSpeedPercentages", false, "Unchecked"), ("m_osd.showFPS", false, "Unchecked"),
  ("m_osd.showVPS", false, "Unchecked"), ("m_osd.showResolution", false, "Unchecked"),
  ("m_osd.showGSStats", false, "Unchecked"), ("m_osd.showUsageCPU", false, "Unchecked"),
  ("m_osd.showUsageGPU", false, "Unchecked"), ("m_osd.showStatusIndicators", true, "Checked"),
  ("m_osd.showFrameTimes", false, "Unchecked"), ("m_osd.showHardwareInfo", false, "Unchecked"),
  ("m_osd.showVersion", false, "Unchecked"), ("m_osd.showSettings", false, "Unchecked"),
  ("m_osd.showPatches", false, "Unchecked"), ("m_osd.showInputs", false, "Unchecked"),
  ("m_osd.showVideoCapture", true, "Checked"), ("m_osd.showInputRec", true, "Checked"),
  ("m_osd.showTextureReplacements", false, "Unchecked"),
  ("m_osd.warnAboutUnsafeSettings", true, "Checked"),
  ("m_advanced.useBlitSwapChain", false, "Unchecked"),
  ("m_advanced.useDebugDevice", false, "Unchecked"),
  ("m_advanced.disableMailboxPresentation", false, "Unchecked"),
  ("m_advanced.extendedUpscales", false, "Unchecked"),
  ("m_advanced.spinCPUDuringReadbacks", false, "Unchecked"),
  ("m_advanced.spinGPUDuringReadbacks", false, "Unchecked"),
  ("m_capture.videoCaptureResolutionAuto", true, "Unchecked"),
  ("m_capture.enableVideoCaptureArguments", false, "Unchecked"),
  ("m_capture.enableAudioCaptureArguments", false, "Unchecked")]

/-- The default a help text of a checkbox documents: `tr("Checked")` or
`tr("Unchecked")`. -/
def documentedDefault (text : String) : Option Bool :=
  if text = "Checked" then some true
  else if text = "Unchecked" then some false
  else none

/-- The rows of `checkboxDefaults` whose documented default is not the bound one. -/
def checkboxDefaultMismatches : List (String × Bool × String) :=
  checkboxDefaults.filter (fun r => documentedDefault r.2.2 != some r.2.1)

/-- The enumerators of `TexturePreloadingLevel`. -/
inductive TexturePreloadingLevel where
  | Off | Partial | Full
  deriving DecidableEq

/-- The default passed to the binding of `m_advanced.texturePreloading`
(line 604). -/
def texturePreloadingBoundDefault : TexturePreloadingLevel := TexturePreloadingLevel.Off

/-- The default text passed to the help of `m_advanced.texturePreloading`
(line 1527). -/
def texturePreloadingHelpDefault : String := "Full (Hash Cache)"

/-- Modelled from the spec: the level a default text of the Texture Preloading
help stands for; "Full (Hash Cache)" is `TexturePreloadingLevel::Full`. -/
def texturePreloadingLevelOfText (text : String) : Option TexturePreloadingLevel :=
  if text = "Full (Hash Cache)" then some TexturePreloadingLevel.Full else none

/-- A governing control that is bound to the settings store and also connected to
a dependency handler: the member, the handler, and the source lines of the binding
and of the `connect` call.  Both lines lie in one straight-line block, so the
smaller line runs first. -/
structure GoverningControl where
  control : String
  handler : String
  bindLine : Nat
  connectLine : Nat

/-- The governing controls of the constructor and of `onCaptureContainerChanged`
(last row), in the order of their `connect` calls. -/
def governingControls : List GoverningControl :=
  [⟨"m_hw.stereoUiDepth", "onUiDepthChanged", 125, 127⟩,
   ⟨"m_hw.stereoUiSecondLayerDepth", "onUiSecondLayerDepthChanged", 126, 128⟩,
   ⟨"m_hw.trilinearFiltering", "onTrilinearFilteringChanged", 109, 454⟩,
   ⟨"m_hw.stereoscopicMode", "onStereoscopicModeChanged", 118, 456⟩,
   ⟨"m_fixes.cpuSpriteRenderBW", "onCPUSpriteRenderBWChanged", 471, 492⟩,
   ⟨"m_fixes.gpuPaletteConversion", "onGpuPaletteConversionChanged", 491, 494⟩,
   ⟨"m_texture.dumpReplaceableTextures", "onTextureDumpChanged", 515, 524⟩,
   ⟨"m_texture.loadTextureReplacements", "onTextureReplacementChanged", 518, 525⟩,
   ⟨"m_post.shadeBoost", "onShadeBoostChanged", 545, 554⟩,
   ⟨"m_osd.messagesPos", "onMessagesPosChanged", 565, 556⟩,
   ⟨"m_osd.performancePos", "onPerformancePosChanged", 566, 557⟩,
   ⟨"m_hw.enableHWFixes", "updateRendererDependentOptions", 117, 639⟩,
   ⟨"m_advanced.extendedUpscales", "updateRendererDependentOptions", 592, 640⟩,
   ⟨"m_hw.textureFiltering", "onTextureFilteringChange", 108, 641⟩,
   ⟨"m_sw.swTextureFiltering", "onSWTextureFilteringChange", 463, 642⟩,
   ⟨"m_capture.captureContainer", "onCaptureContainerChanged", 731, 732⟩,
   ⟨"m_capture.enableVideoCapture", "onEnableVideoCaptureChanged", 734, 748⟩,
   ⟨"m_capture.videoCaptureResolutionAuto", "onVideoCaptureAutoResolutionChanged", 741, 749⟩,
   ⟨"m_capture.enableVideoCaptureArguments", "onEnableVideoCaptureArgumentsChanged", 743, 751⟩,
   ⟨"m_capture.enableAudioCapture", "onEnableAudioCaptureChanged", 754, 760⟩,
   ⟨"m_capture.enableAudioCaptureArguments", "onEnableAudioCaptureArgumentsChanged", 757, 761⟩,
   ⟨"m_osd.showSettings", "onOsdShowSettingsToggled", 578, 1764⟩,
   ⟨"m_capture.videoCaptureCodec", "onCaptureCodecChanged", 2321, 2323⟩]

/-- The governing controls whose handler is connected before the binding is
installed. -/
def connectedBeforeBound : List GoverningControl :=
  governingControls.filter (fun g => !decide (g.bindLine < g.connectLine))


/-! ## Notions used to state the properties -/

/-- A combo box is well formed when its current index is `-1` or one of its entries. -/
def QComboBox.wf (c : QComboBox) : Prop :=
  c.currentIndex = -1 ∨ (0 ≤ c.currentIndex ∧ c.currentIndex < c.count)

instance (c : QComboBox) : Decidable c.wf := by
  unfold QComboBox.wf
  infer_instance

/-- The OSD position in effect, in the numbering of the global selector (0 is the
off entry), as the specification describes it: in global mode the selected entry;
in per-game mode the selected real position, and for entry 0 ("use global
setting") the global position. -/
def osdPositionInEffect (d : SettingsWindow) (key : String) (dflt : Int) (index : Int) : Int :=
  if d.isPerGameSettings then
    if index = 0 then d.GetBaseIntSettingValue "EmuCore/GS" key dflt else index - 1
  else index

/-- A dialog editing the global store. -/
def globalDialog (base : SettingsInterface) : SettingsWindow :=
  { base := base, sif := none, saves := 0 }

/-- A dialog editing a per-game overlay over the global store. -/
def gameDialog (base overlay : SettingsInterface) : SettingsWindow :=
  { base := base, sif := some overlay, saves := 0 }

/-- Four entries without data, as an example of a filtering selector. -/
def exampleFilterBox (index : Int) : QComboBox :=
  { items := [("Nearest", QVariant.invalid), ("Bilinear (Forced)", QVariant.invalid),
      ("Bilinear (PS2)", QVariant.invalid),
      ("Bilinear (Forced excluding sprite)", QVariant.invalid)]
    currentIndex := index
    enabled := true }

/-- An example panel in global mode with the hardware filter on its third entry. -/
def exampleFilterPanel : Panel :=
  { Panel.setup (globalDialog SettingsInterface.empty) with
    textureFiltering := exampleFilterBox 2
    swTextureFiltering := exampleFilterBox 0 }

/-- An example per-game panel whose messages selector shows "use global setting"
while the global store holds position 0 (off) for the messages. -/
def exampleOsdPanel : Panel :=
  { Panel.setup
      (gameDialog (SettingsInterface.empty.put "EmuCore/GS" "OsdMessagesPos"
        (some (SettingValue.int 0))) SettingsInterface.empty) with
    messagesPos :=
      { items := [("Use Global Setting [Off]", QVariant.invalid), ("Off", QVariant.invalid),
          ("Left (Top)", QVariant.invalid)]
        currentIndex := 0
        enabled := true } }

/-- An example host: a build with OpenGL and Vulkan, two adapters, and the patch
lists under section "Patches", keys "Enable" and "Disable". -/
def exampleHost : Host :=
  { build := { win32 := false, opengl := true, vulkan := true, apple := false, devbuild := false }
    rendererValue := fun t =>
      match t with
      | GSRendererType.Auto => -1
      | GSRendererType.DX11 => 3
      | GSRendererType.DX12 => 15
      | GSRendererType.OGL => 12
      | GSRendererType.VK => 14
      | GSRendererType.Metal => 17
      | GSRendererType.SW => 13
      | GSRendererType.Null => 11
    GetPreferredRenderer := GSRendererType.VK
    GSGetAdapterInfo := fun _ =>
      [{ name := "GPU A", fullscreen_modes := ["1920 x 1080 @ 60 hz"],
         max_upscale_multiplier := 16 },
       { name := "GPU B", fullscreen_modes := [], max_upscale_multiplier := 8 }]
    GetDefaultAdapter := "(Default)"
    ShouldShowAdvancedSettings := false
    TriFiltering_Automatic := -1
    TriFiltering_Forced := 2
    PATCHES_CONFIG_SECTION := "Patches"
    PATCH_ENABLE_CONFIG_KEY := "Enable"
    PATCH_DISABLE_CONFIG_KEY := "Disable" }

/-- An example per-game overlay holding both legacy patch keys: widescreen on,
no-interlacing off. -/
def exampleLegacyOverlay : SettingsInterface :=
  (SettingsInterface.empty.put "EmuCore" "EnableWideScreenPatches"
    (some (SettingValue.bool true))).put "EmuCore" "EnableNoInterlacingPatches"
    (some (SettingValue.bool false))

/-- An example global store that names Direct3D 11 (value 3 of the example host)
as the renderer, a type the build of the example host does not list. -/
def exampleUnlistedRendererStore : SettingsInterface :=
  SettingsInterface.empty.put "EmuCore/GS" "Renderer" (some (SettingValue.int 3))

/-- An example store that names Vulkan (value 14 of the example host) as the
renderer. -/
def exampleVulkanStore : SettingsInterface :=
  SettingsInterface.empty.put "EmuCore/GS" "Renderer" (some (SettingValue.int 14))

/-- An example per-game overlay that names the second adapter of the example host. -/
def exampleAdapterOverlay : SettingsInterface :=
  SettingsInterface.empty.put "EmuCore/GS" "Adapter" (some (SettingValue.str "GPU B"))

/-- An example global store with hardware fixes switched on. -/
def exampleUserHacksStore : SettingsInterface :=
  SettingsInterface.empty.put "EmuCore/GS" "UserHacks" (some (SettingValue.bool true))

/-- The multiplier entries `populateUpscaleMultipliers` adds for a bound: the
shown templates followed by the generated entries. -/
def upscaleEntries (m : Nat) : List (String × QVariant) :=
  shownTemplates m ++ generatedEntries m

/-- An example global store with the extended multipliers switched on. -/
def exampleExtendedStore : SettingsInterface :=
  SettingsInterface.empty.put "EmuCore/GS" "ExtendedUpscalingMultipliers"
    (some (SettingValue.bool true))

/-- An example store with an upscale multiplier of 13. -/
def exampleThirteenStore : SettingsInterface :=
  SettingsInterface.empty.put "EmuCore/GS" "upscale_multiplier" (some (SettingValue.float 13))

/-- An example store with an upscale multiplier of 3. -/
def exampleThreeStore : SettingsInterface :=
  SettingsInterface.empty.put "EmuCore/GS" "upscale_multiplier" (some (SettingValue.float 3))

/-- An example global panel whose Extended Upscaling Multipliers checkbox is checked. -/
def exampleExtendedPanel : Panel :=
  { Panel.setup (globalDialog SettingsInterface.empty) with
    extendedUpscales := some CheckState.Checked }

/-- The example host with a single adapter that reports the largest `u32` as its
maximum upscale multiplier. -/
def exampleLargestHost : Host :=
  { exampleHost with
    GSGetAdapterInfo := fun _ =>
      [{ name := "GPU A", fullscreen_modes := [], max_upscale_multiplier := 4294967295 }] }

/-! ## Theorems -/

namespace Panel

theorem setHwEnabled_same (p : Panel) (w : HwWidget) (b : Bool) :
    (p.setHwEnabled w b).hwEnabled w = b := by
  simp [setHwEnabled]

theorem setHwEnabled_dialog (p : Panel) (w : HwWidget) (b : Bool) :
    (p.setHwEnabled w b).dialog = p.dialog := rfl

/-- C20: `onGpuPaletteConversionChanged(state)` disables the Anisotropic Filtering
control exactly when palette conversion is in effect: `Checked` counts as true,
`Unchecked` as false, `PartiallyChecked` takes the global value of `paltex`
(default false); and when the state is the one the binding of `paltex` shows, this
is the effective value of the key. -/
theorem C20_gpu_palette_conversion_gates_anisotropic (p : Panel) (s : CheckState) :
    ((p.onGpuPaletteConversionChanged s.toInt).hwEnabled HwWidget.anisotropicFiltering =
      !(match s with
        | CheckState.Checked => true
        | CheckState.Unchecked => false
        | CheckState.PartiallyChecked =>
          p.dialog.GetBaseBoolSettingValue "EmuCore/GS" "paltex" false)) ∧
    ((p.onGpuPaletteConversionChanged
        (BindWidgetToBoolSetting p.dialog "EmuCore/GS" "paltex" false).toInt).hwEnabled
        HwWidget.anisotropicFiltering =
      !(p.dialog.getEffectiveBoolValue "EmuCore/GS" "paltex" false)) := by
  constructor
  · cases s <;> simp [onGpuPaletteConversionChanged, CheckState.toInt, setHwEnabled]
  · unfold BindWidgetToBoolSetting SettingsWindow.getEffectiveBoolValue
    cases hs : p.dialog.sif with
    | none =>
      simp only [Option.bind]
      cases hb : p.dialog.GetBaseBoolSettingValue "EmuCore/GS" "paltex" false <;>
        simp [onGpuPaletteConversionChanged, CheckState.toInt, setHwEnabled, hb]
    | some s =>
      simp only [Option.bind]
      cases hv : s.GetBoolValue "EmuCore/GS" "paltex" with
      | none =>
        simp [onGpuPaletteConversionChanged, CheckState.toInt, setHwEnabled]
      | some b =>
        cases b <;>
          simp [onGpuPaletteConversionChanged, CheckState.toInt, setHwEnabled]

end Panel

set_option maxRecDepth 100000 in
/-- C17: of the checkboxes that are both bound and documented, exactly one has a
documented default that differs from the bound one: the Automatic Resolution
checkbox of the capture tab is bound with default `true` and documented as
"Unchecked". -/
theorem C17_checkbox_default_mismatch :
    checkboxDefaultMismatches = [("m_capture.videoCaptureResolutionAuto", true, "Unchecked")] := by
  decide

/-- C18: the help of the Texture Preloading control documents "Full (Hash Cache)",
the level `Full`, as the default, while the binding passes the level `Off`. -/
theorem C18_texture_preloading_default_differs :
    texturePreloadingLevelOfText texturePreloadingHelpDefault = some TexturePreloadingLevel.Full ∧
    texturePreloadingBoundDefault = TexturePreloadingLevel.Off ∧
    texturePreloadingLevelOfText texturePreloadingHelpDefault ≠
      some texturePreloadingBoundDefault := by
  decide

/-- C19: the two OSD position selectors are connected to their handlers (lines 556
and 557) before their bindings are installed (lines 565 and 566); every other
governing control is bound first. -/
theorem C19_osd_position_connected_before_bound :
    connectedBeforeBound.map (fun g => (g.control, g.bindLine, g.connectLine)) =
      [("m_osd.messagesPos", 565, 556), ("m_osd.performancePos", 566, 557)] := by
  decide


namespace QComboBox

theorem setCurrentIndex_idem (c : QComboBox) (i : Int) :
    (c.setCurrentIndex i).setCurrentIndex i = c.setCurrentIndex i := by
  simp [setCurrentIndex, count]

theorem setCurrentIndex_count (c : QComboBox) (i : Int) :
    (c.setCurrentIndex i).count = c.count := rfl

theorem setCurrentIndex_of_valid (c : QComboBox) (i : Int) (h0 : 0 ≤ i) (h1 : i < c.count) :
    (c.setCurrentIndex i).currentIndex = i := by
  simp [setCurrentIndex, h0, h1]

end QComboBox

namespace Panel

/-- C21: when the two Texture Filtering controls hold equally many entries, after
`onTextureFilteringChange` the software control shows the index of the hardware
one and after `onSWTextureFilteringChange` the hardware control shows the index of
the software one; each handler writes only the index of its target (no store
write, the source control untouched), and applying a handler twice gives the state
of applying it once. -/
theorem C21_texture_filtering_in_step (p : Panel)
    (hhw : p.textureFiltering.wf) (hsw : p.swTextureFiltering.wf)
    (hcount : p.swTextureFiltering.count = p.textureFiltering.count) :
    p.onTextureFilteringChange.swTextureFiltering.currentIndex =
      p.onTextureFilteringChange.textureFiltering.currentIndex ∧
    p.onSWTextureFilteringChange.textureFiltering.currentIndex =
      p.onSWTextureFilteringChange.swTextureFiltering.currentIndex ∧
    p.onTextureFilteringChange.textureFiltering = p.textureFiltering ∧
    p.onSWTextureFilteringChange.swTextureFiltering = p.swTextureFiltering ∧
    p.onTextureFilteringChange.dialog = p.dialog ∧
    p.onSWTextureFilteringChange.dialog = p.dialog ∧
    p.onTextureFilteringChange.onTextureFilteringChange = p.onTextureFilteringChange ∧
    p.onSWTextureFilteringChange.onSWTextureFilteringChange = p.onSWTextureFilteringChange := by
  refine ⟨?_, ?_, rfl, rfl, rfl, rfl, ?_, ?_⟩
  · simp only [onTextureFilteringChange, QComboBox.setCurrentIndex]
    rcases hhw with h | ⟨h0, h1⟩
    · simp [h]
    · rw [← hcount] at h1
      simp [h0, h1]
  · simp only [onSWTextureFilteringChange, QComboBox.setCurrentIndex]
    rcases hsw with h | ⟨h0, h1⟩
    · simp [h]
    · rw [hcount] at h1
      simp [h0, h1]
  · simp [onTextureFilteringChange, QComboBox.setCurrentIndex_idem]
  · simp [onSWTextureFilteringChange, QComboBox.setCurrentIndex_idem]

/-- C21, at a panel whose hardware filter shows its third entry and whose software
filter shows its first: the handlers bring the other control to the same entry. -/
theorem C21_texture_filtering_in_step_witness :
    exampleFilterPanel.onTextureFilteringChange.swTextureFiltering.currentIndex =
      exampleFilterPanel.onTextureFilteringChange.textureFiltering.currentIndex ∧
    exampleFilterPanel.onSWTextureFilteringChange.textureFiltering.currentIndex =
      exampleFilterPanel.onSWTextureFilteringChange.swTextureFiltering.currentIndex ∧
    exampleFilterPanel.onTextureFilteringChange.textureFiltering =
      exampleFilterPanel.textureFiltering ∧
    exampleFilterPanel.onSWTextureFilteringChange.swTextureFiltering =
      exampleFilterPanel.swTextureFiltering ∧
    exampleFilterPanel.onTextureFilteringChange.dialog = exampleFilterPanel.dialog ∧
    exampleFilterPanel.onSWTextureFilteringChange.dialog = exampleFilterPanel.dialog ∧
    exampleFilterPanel.onTextureFilteringChange.onTextureFilteringChange =
      exampleFilterPanel.onTextureFilteringChange ∧
    exampleFilterPanel.onSWTextureFilteringChange.onSWTextureFilteringChange =
      exampleFilterPanel.onSWTextureFilteringChange :=
  C21_texture_filtering_in_step exampleFilterPanel (by decide) (by decide) (by decide)

/-- C22: in per-game mode with entry 0 ("use global setting") selected and the
global messages position off, `onMessagesPosChanged` enables the dependent
checkbox although the position in effect is the off entry. -/
theorem C22_inherited_off_position_still_enables :
    exampleOsdPanel.dialog.isPerGameSettings = true ∧
    exampleOsdPanel.messagesPos.currentIndex = 0 ∧
    osdPositionInEffect exampleOsdPanel.dialog "OsdMessagesPos" 1
      exampleOsdPanel.messagesPos.currentIndex = 0 ∧
    exampleOsdPanel.onMessagesPosChanged.osdEnabled OsdWidget.warnAboutUnsafeSettings = true := by
  decide

/-- C5: for an index that is not negative, `onAdapterChanged` and
`onFullscreenModeChanged` leave in the edited layer, under their key: in global
mode nothing for index 0 and the text of the current entry from index 1 on; in
per-game mode nothing for index 0 (inherit from global), the empty string for
index 1 and the text of the current entry from index 2 on. -/
theorem C5_adapter_and_mode_three_way (p : Panel) (index : Int) (h0 : 0 ≤ index) :
    (p.onAdapterChanged index).dialog.edited "EmuCore/GS" "Adapter" =
      (if p.dialog.isPerGameSettings then
        (if index = 0 then none
         else if index = 1 then some (SettingValue.str "")
         else some (SettingValue.str p.adapterDropdown.currentText))
       else
        (if index = 0 then none else some (SettingValue.str p.adapterDropdown.currentText))) ∧
    (p.onFullscreenModeChanged index).dialog.edited "EmuCore/GS" "FullscreenMode" =
      (if p.dialog.isPerGameSettings then
        (if index = 0 then none
         else if index = 1 then some (SettingValue.str "")
         else some (SettingValue.str p.fullscreenModes.currentText))
       else
        (if index = 0 then none else some (SettingValue.str p.fullscreenModes.currentText))) ∧
    (p.onAdapterChanged index).dialog.isPerGameSettings = p.dialog.isPerGameSettings ∧
    (p.onFullscreenModeChanged index).dialog.isPerGameSettings = p.dialog.isPerGameSettings ∧
    (p.dialog.isPerGameSettings = true →
      (p.onAdapterChanged index).dialog.base = p.dialog.base ∧
      (p.onFullscreenModeChanged index).dialog.base = p.dialog.base) := by
  have key : ∀ (k text : String),
      (p.dialog.setStringSettingValue "EmuCore/GS" k
        (indexedStringValue p.dialog.isPerGameSettings index text)).edited "EmuCore/GS" k =
      (if p.dialog.isPerGameSettings then
        (if index = 0 then none
         else if index = 1 then some (SettingValue.str "")
         else some (SettingValue.str text))
       else (if index = 0 then none else some (SettingValue.str text))) := by
    intro k text
    cases hs : p.dialog.sif with
    | none =>
      by_cases h1 : index = 0
      · simp [SettingsWindow.setStringSettingValue, SettingsWindow.setSettingValue,
          SettingsWindow.edited, SettingsWindow.isPerGameSettings, indexedStringValue, hs,
          SettingsInterface.put, h1]
      · have h2 : 1 ≤ index := by omega
        simp [SettingsWindow.setStringSettingValue, SettingsWindow.setSettingValue,
          SettingsWindow.edited, SettingsWindow.isPerGameSettings, indexedStringValue, hs,
          SettingsInterface.put, h1, h2]
    | some s =>
      by_cases h1 : index = 0
      · simp [SettingsWindow.setStringSettingValue, SettingsWindow.setSettingValue,
          SettingsWindow.edited, SettingsWindow.isPerGameSettings, indexedStringValue, hs,
          SettingsInterface.put, h1]
      · by_cases h2 : index = 1
        · simp [SettingsWindow.setStringSettingValue, SettingsWindow.setSettingValue,
            SettingsWindow.edited, SettingsWindow.isPerGameSettings, indexedStringValue, hs,
            SettingsInterface.put, h2]
        · have h3 : 2 ≤ index := by omega
          simp [SettingsWindow.setStringSettingValue, SettingsWindow.setSettingValue,
            SettingsWindow.edited, SettingsWindow.isPerGameSettings, indexedStringValue, hs,
            SettingsInterface.put, h1, h2, h3]
  refine ⟨key _ _, key _ _, ?_, ?_, ?_⟩
  · cases hs : p.dialog.sif <;>
      simp [onAdapterChanged, SettingsWindow.setStringSettingValue,
        SettingsWindow.setSettingValue, SettingsWindow.isPerGameSettings, hs]
  · cases hs : p.dialog.sif <;>
      simp [onFullscreenModeChanged, SettingsWindow.setStringSettingValue,
        SettingsWindow.setSettingValue, SettingsWindow.isPerGameSettings, hs]
  · intro hpg
    cases hs : p.dialog.sif with
    | none => simp [SettingsWindow.isPerGameSettings, hs] at hpg
    | some s =>
      simp [onAdapterChanged, onFullscreenModeChanged, SettingsWindow.setStringSettingValue,
        SettingsWindow.setSettingValue, hs]

end Panel


/-! ### Combo boxes -/

namespace QComboBox

theorem wf_new : QComboBox.new.wf := Or.inl rfl

theorem wf_clear (c : QComboBox) : c.clear.wf := Or.inl rfl

theorem wf_setEnabled (c : QComboBox) (b : Bool) (hc : c.wf) : (c.setEnabled b).wf := hc

theorem wf_setCurrentIndex (c : QComboBox) (i : Int) : (c.setCurrentIndex i).wf := by
  unfold wf setCurrentIndex count
  by_cases hi : 0 ≤ i ∧ i < (c.items.length : Int)
  · right
    simp [count, hi]
  · left
    simp [count, hi]

theorem items_setCurrentIndex (c : QComboBox) (i : Int) :
    (c.setCurrentIndex i).items = c.items := rfl

theorem items_addItem (c : QComboBox) (t : String) (d : QVariant) :
    (c.addItem t d).items = c.items ++ [(t, d)] := by
  simp [addItem, insertItem, count]

theorem count_addItem (c : QComboBox) (t : String) (d : QVariant) :
    (c.addItem t d).count = c.count + 1 := by
  simp [count, items_addItem]

theorem currentIndex_addItem (c : QComboBox) (t : String) (d : QVariant) (hc : c.wf) :
    (c.addItem t d).currentIndex = if c.items = [] then 0 else c.currentIndex := by
  unfold wf count at hc
  cases hl : c.items with
  | nil => simp [addItem, insertItem, count, hl]
  | cons x l =>
    simp only [addItem, insertItem, count, hl, List.isEmpty_cons]
    rw [hl] at hc
    simp only [List.length_cons] at hc
    push_cast at hc
    have h1 : ¬ ((List.length (x :: l) : Int) ≤ c.currentIndex) := by
      simp only [List.length_cons]
      push_cast
      omega
    simp [h1]
    omega

theorem wf_addItem (c : QComboBox) (t : String) (d : QVariant) (hc : c.wf) :
    (c.addItem t d).wf := by
  unfold wf
  rw [currentIndex_addItem c t d hc, count_addItem]
  unfold wf count at hc
  cases hl : c.items with
  | nil => simp [count, hl]
  | cons x l =>
    simp only [reduceCtorEq, if_false]
    rcases hc with h | ⟨h0, h1⟩
    · exact Or.inl h
    · exact Or.inr ⟨h0, by unfold count; omega⟩

theorem items_insertItem_zero (c : QComboBox) (t : String) (d : QVariant) :
    (c.insertItem 0 t d).items = (t, d) :: c.items := by
  simp [insertItem, count]

theorem count_insertItem_zero (c : QComboBox) (t : String) (d : QVariant) :
    (c.insertItem 0 t d).count = c.count + 1 := by
  simp [count, items_insertItem_zero]

theorem currentIndex_insertItem_zero (c : QComboBox) (t : String) (d : QVariant) :
    (c.insertItem 0 t d).currentIndex =
      if c.items = [] then 0
      else if 0 ≤ c.currentIndex then c.currentIndex + 1 else c.currentIndex := by
  cases hl : c.items with
  | nil => simp [insertItem, count, hl]
  | cons x l => simp [insertItem, count, hl]

theorem wf_insertItem_zero (c : QComboBox) (t : String) (d : QVariant) (hc : c.wf) :
    (c.insertItem 0 t d).wf := by
  unfold wf
  rw [currentIndex_insertItem_zero, count_insertItem_zero]
  unfold wf at hc
  cases hl : c.items with
  | nil => simp [count, hl]
  | cons x l =>
    simp only [reduceCtorEq, if_false]
    rcases hc with h | ⟨h0, h1⟩
    · left
      simp [h]
    · right
      simp only [h0, if_true]
      omega

end QComboBox

theorem items_addItems (c : QComboBox) (l : List (String × QVariant)) :
    (addItems c l).items = c.items ++ l := by
  unfold addItems
  induction l generalizing c with
  | nil => simp
  | cons e l ih => rw [List.foldl_cons, ih, QComboBox.items_addItem]; simp

theorem wf_addItems (c : QComboBox) (l : List (String × QVariant)) (hc : c.wf) :
    (addItems c l).wf := by
  unfold addItems
  induction l generalizing c with
  | nil => exact hc
  | cons e l ih => rw [List.foldl_cons]; exact ih _ (QComboBox.wf_addItem c _ _ hc)

theorem currentIndex_addItems (c : QComboBox) (l : List (String × QVariant)) (hc : c.wf) :
    (addItems c l).currentIndex = if c.items = [] ∧ l ≠ [] then 0 else c.currentIndex := by
  unfold addItems
  induction l generalizing c with
  | nil => simp
  | cons e l ih =>
    rw [List.foldl_cons, ih _ (QComboBox.wf_addItem c _ _ hc), QComboBox.items_addItem,
      QComboBox.currentIndex_addItem c _ _ hc]
    simp

theorem items_addAndSelect {α : Type} (hit : α → Bool) (text : α → String) (l : List α)
    (c : QComboBox) :
    (addAndSelect hit text l c).items = c.items ++ l.map (fun a => (text a, QVariant.invalid)) := by
  unfold addAndSelect
  induction l generalizing c with
  | nil => simp
  | cons a l ih =>
    rw [List.foldl_cons, ih]
    dsimp only
    split_ifs <;> simp [QComboBox.items_setCurrentIndex, QComboBox.items_addItem]

theorem addAndSelect_cons {α : Type} (hit : α → Bool) (text : α → String) (a : α) (l : List α)
    (c : QComboBox) :
    addAndSelect hit text (a :: l) c =
      addAndSelect hit text l
        (if hit a then
          (c.addItem (text a) QVariant.invalid).setCurrentIndex
            ((c.addItem (text a) QVariant.invalid).count - 1)
         else c.addItem (text a) QVariant.invalid) := rfl

theorem wf_addAndSelect {α : Type} (hit : α → Bool) (text : α → String) (l : List α)
    (c : QComboBox) (hc : c.wf) : (addAndSelect hit text l c).wf := by
  induction l generalizing c with
  | nil => exact hc
  | cons a l ih =>
    rw [addAndSelect_cons]
    apply ih
    split_ifs
    · exact QComboBox.wf_setCurrentIndex _ _
    · exact QComboBox.wf_addItem c _ _ hc

/-- When no element matches, the loop leaves the current index alone, except that
the first entry of an empty box becomes current. -/
theorem currentIndex_addAndSelect_of_no_hit {α : Type} (hit : α → Bool) (text : α → String)
    (l : List α) (c : QComboBox) (hc : c.wf) (hno : ∀ a ∈ l, hit a = false) :
    (addAndSelect hit text l c).currentIndex =
      if c.items = [] ∧ l.isEmpty = false then 0 else c.currentIndex := by
  induction l generalizing c with
  | nil => simp [addAndSelect]
  | cons a l ih =>
    rw [addAndSelect_cons, hno a (List.mem_cons_self a l)]
    simp only [Bool.false_eq_true, if_false]
    rw [ih _ (QComboBox.wf_addItem c _ _ hc) (fun b hb => hno b (List.mem_cons_of_mem a hb)),
      QComboBox.items_addItem, QComboBox.currentIndex_addItem c _ _ hc]
    simp

/-- When some element matches, the loop leaves current the entry of the last
matching element. -/
theorem currentIndex_addAndSelect_of_hit {α : Type} (hit : α → Bool) (text : α → String)
    (l : List α) (c : QComboBox) (hc : c.wf) (hex : ∃ a ∈ l, hit a = true) :
    ∃ (j : Nat) (a : α), l[j]? = some a ∧ hit a = true ∧
      (addAndSelect hit text l c).currentIndex = c.count + j := by
  induction l generalizing c with
  | nil => simp at hex
  | cons a l ih =>
    rw [addAndSelect_cons]
    by_cases hl : ∃ b ∈ l, hit b = true
    · have hwf : (if hit a then
          (c.addItem (text a) QVariant.invalid).setCurrentIndex
            ((c.addItem (text a) QVariant.invalid).count - 1)
         else c.addItem (text a) QVariant.invalid).wf := by
        split_ifs
        · exact QComboBox.wf_setCurrentIndex _ _
        · exact QComboBox.wf_addItem c _ _ hc
      obtain ⟨j, b, hj, hb, hidx⟩ := ih _ hwf hl
      refine ⟨j + 1, b, by simpa using hj, hb, ?_⟩
      rw [hidx]
      split_ifs <;> simp [QComboBox.count, QComboBox.items_setCurrentIndex,
        QComboBox.items_addItem] <;> omega
    · have hno : ∀ b ∈ l, hit b = false := by
        intro b hb
        by_contra hc'
        exact hl ⟨b, hb, by simpa using hc'⟩
      have ha : hit a = true := by
        obtain ⟨b, hb, hhit⟩ := hex
        rcases List.mem_cons.mp hb with rfl | hb'
        · exact hhit
        · rw [hno b hb'] at hhit
          exact absurd hhit (by simp)
      refine ⟨0, a, by simp, ha, ?_⟩
      rw [ha]
      simp only [if_true]
      rw [currentIndex_addAndSelect_of_no_hit hit text l _ (QComboBox.wf_setCurrentIndex _ _) hno]
      have hne : ((c.addItem (text a) QVariant.invalid).setCurrentIndex
          ((c.addItem (text a) QVariant.invalid).count - 1)).items ≠ [] := by
        simp [QComboBox.items_setCurrentIndex, QComboBox.items_addItem]
      simp only [hne, false_and, if_false]
      simp only [QComboBox.setCurrentIndex, QComboBox.count_addItem]
      have h0 : (0 : Int) ≤ c.count := by unfold QComboBox.count; omega
      simp [h0]

/-! ### Settings layers and the patch migration -/

namespace SettingsInterface

theorem put_apply (s : SettingsInterface) (a b : String) (v : Option SettingValue)
    (x y : String) : (s.put a b v) x y = if x = a ∧ y = b then v else s x y := rfl

theorem GetStringList_put (s : SettingsInterface) (a b : String) (l : List String)
    (x y : String) :
    (s.put a b (some (SettingValue.list l))).GetStringList x y =
      if x = a ∧ y = b then l else s.GetStringList x y := by
  unfold GetStringList
  rw [put_apply]
  split_ifs <;> rfl

theorem mem_GetStringList_AddToStringList (s : SettingsInterface) (a b item x y z : String) :
    z ∈ (s.AddToStringList a b item).GetStringList x y ↔
      z ∈ s.GetStringList x y ∨ (x = a ∧ y = b ∧ z = item) := by
  unfold AddToStringList
  by_cases hm : item ∈ s.GetStringList a b
  · rw [if_pos hm]
    constructor
    · exact fun hz => Or.inl hz
    · rintro (hz | ⟨rfl, rfl, rfl⟩)
      · exact hz
      · exact hm
  · rw [if_neg hm, GetStringList_put]
    by_cases hxy : x = a ∧ y = b
    · obtain ⟨rfl, rfl⟩ := hxy
      simp
    · rw [if_neg hxy]
      constructor
      · exact fun hz => Or.inl hz
      · rintro (hz | ⟨hx, hy, _⟩)
        · exact hz
        · exact absurd ⟨hx, hy⟩ hxy

theorem mem_GetStringList_RemoveFromStringList (s : SettingsInterface)
    (a b item x y z : String) :
    z ∈ (s.RemoveFromStringList a b item).GetStringList x y ↔
      z ∈ s.GetStringList x y ∧ ¬ (x = a ∧ y = b ∧ z = item) := by
  unfold RemoveFromStringList
  by_cases hm : item ∈ s.GetStringList a b
  · rw [if_pos hm, GetStringList_put]
    by_cases hxy : x = a ∧ y = b
    · obtain ⟨rfl, rfl⟩ := hxy
      simp [List.mem_filter]
    · rw [if_neg hxy]
      constructor
      · exact fun hz => ⟨hz, fun hc => hxy ⟨hc.1, hc.2.1⟩⟩
      · exact fun hz => hz.1
  · rw [if_neg hm]
    constructor
    · intro hz
      refine ⟨hz, ?_⟩
      rintro ⟨rfl, rfl, rfl⟩
      exact hm hz
    · exact fun hz => hz.1

theorem AddToStringList_apply_of_ne (s : SettingsInterface) (a b item x y : String)
    (hx : x ≠ a) : (s.AddToStringList a b item) x y = s x y := by
  unfold AddToStringList
  split_ifs
  · rfl
  · rw [put_apply, if_neg (fun hc => hx hc.1)]

theorem RemoveFromStringList_apply_of_ne (s : SettingsInterface) (a b item x y : String)
    (hx : x ≠ a) : (s.RemoveFromStringList a b item) x y = s x y := by
  unfold RemoveFromStringList
  split_ifs
  · rw [put_apply, if_neg (fun hc => hx hc.1)]
  · rfl

theorem GetStringList_DeleteValue_of_ne (s : SettingsInterface) (a b x y : String)
    (hx : x ≠ a) : (s.DeleteValue a b).GetStringList x y = s.GetStringList x y := by
  unfold GetStringList DeleteValue
  rw [put_apply, if_neg (fun hc => hx hc.1)]

end SettingsInterface

/-- What one migration block leaves under section "EmuCore": the legacy key is
gone and every other key is as before. -/
theorem migrateLegacyPatch_EmuCore (h : Host) (si : SettingsInterface) (k n y : String)
    (hPS : h.PATCHES_CONFIG_SECTION ≠ "EmuCore") :
    (migrateLegacyPatch h si k n).1 "EmuCore" y = if y = k then none else si "EmuCore" y := by
  have hne : ("EmuCore" : String) ≠ h.PATCHES_CONFIG_SECTION := fun hc => hPS hc.symm
  unfold migrateLegacyPatch
  by_cases hc : si.ContainsValue "EmuCore" k = true
  · rw [if_pos hc]
    cases hb : si.GetBoolValueD "EmuCore" k <;>
      simp [SettingsInterface.RemoveFromStringList_apply_of_ne _ _ _ _ _ _ hne,
        SettingsInterface.AddToStringList_apply_of_ne _ _ _ _ _ _ hne,
        SettingsInterface.DeleteValue, SettingsInterface.put_apply]
  · rw [if_neg hc]
    split_ifs with hy
    · subst hy
      simpa [SettingsInterface.ContainsValue] using hc
    · rfl

/-- What one migration block leaves in a patch list: when the legacy key is set
the patch is added to the list of its value and removed from the other one; every
other entry, and everything when the legacy key is not set, is as before. -/
theorem mem_migrateLegacyPatch (h : Host) (si : SettingsInterface) (k n key z : String)
    (hPS : h.PATCHES_CONFIG_SECTION ≠ "EmuCore")
    (hED : h.PATCH_ENABLE_CONFIG_KEY ≠ h.PATCH_DISABLE_CONFIG_KEY)
    (hkey : key = h.PATCH_ENABLE_CONFIG_KEY ∨ key = h.PATCH_DISABLE_CONFIG_KEY) :
    z ∈ (migrateLegacyPatch h si k n).1.GetStringList h.PATCHES_CONFIG_SECTION key ↔
      if si.ContainsValue "EmuCore" k = true then
        (if si.GetBoolValueD "EmuCore" k = (decide (key = h.PATCH_ENABLE_CONFIG_KEY)) then
          z ∈ si.GetStringList h.PATCHES_CONFIG_SECTION key ∨ z = n
         else z ∈ si.GetStringList h.PATCHES_CONFIG_SECTION key ∧ z ≠ n)
      else z ∈ si.GetStringList h.PATCHES_CONFIG_SECTION key := by
  unfold migrateLegacyPatch
  by_cases hc : si.ContainsValue "EmuCore" k = true
  · rw [if_pos hc, if_pos hc]
    have hED' : h.PATCH_DISABLE_CONFIG_KEY ≠ h.PATCH_ENABLE_CONFIG_KEY := fun hc => hED hc.symm
    cases hb : si.GetBoolValueD "EmuCore" k <;>
      rcases hkey with rfl | rfl <;>
      simp [SettingsInterface.mem_GetStringList_RemoveFromStringList,
        SettingsInterface.mem_GetStringList_AddToStringList,
        SettingsInterface.GetStringList_DeleteValue_of_ne _ _ _ _ _ hPS, hED, hED']
  · rw [if_neg hc, if_neg hc]


/-! ### The handlers keep the dialog -/

namespace Panel

theorem foldl_setHwEnabled_dialog (l : List HwWidget) (b : Bool) (p : Panel) :
    (l.foldl (fun q w => q.setHwEnabled w b) p).dialog = p.dialog := by
  induction l generalizing p with
  | nil => rfl
  | cons w l ih => rw [List.foldl_cons, ih]; rfl

theorem onStereoscopicModeChanged_dialog (p : Panel) :
    p.onStereoscopicModeChanged.dialog = p.dialog :=
  foldl_setHwEnabled_dialog _ _ _

theorem updateTabs_dialog (h : Host) (p : Panel) (type : Int) :
    (updateTabs h p type).dialog = p.dialog := by
  unfold updateTabs
  split_ifs <;> rfl

theorem populateUpscaleMultipliers_dialog (p : Panel) (m : Nat) :
    (p.populateUpscaleMultipliers m).dialog = p.dialog := by
  unfold populateUpscaleMultipliers
  split_ifs
  · dsimp only
    split <;> rfl
  · rfl

theorem updateRendererDependentOptions_dialog (h : Host) (p : Panel) :
    (p.updateRendererDependentOptions h).dialog = p.dialog := by
  unfold updateRendererDependentOptions
  simp only [populateUpscaleMultipliers_dialog]
  exact updateTabs_dialog h p _

theorem setTabVisible_dialog (p : Panel) (t : Tab) (b : Bool) (sw : Option Tab) :
    (p.setTabVisible t b sw).dialog = p.dialog := rfl

theorem onTrilinearFilteringChanged_dialog (h : Host) (p : Panel) :
    (p.onTrilinearFilteringChanged h).dialog = p.dialog := rfl

theorem onGpuPaletteConversionChanged_dialog (p : Panel) (state : Int) :
    (p.onGpuPaletteConversionChanged state).dialog = p.dialog := rfl

/-- The constructor leaves the dialog it was given, up to the patch migration. -/
theorem GraphicsSettingsWidget_dialog (h : Host) (d : SettingsWindow) :
    (GraphicsSettingsWidget h d).dialog = migrateLegacyPatches h d := by
  unfold GraphicsSettingsWidget
  dsimp only
  split_ifs <;>
    simp only [updateRendererDependentOptions_dialog, setTabVisible_dialog,
      onGpuPaletteConversionChanged_dialog, onStereoscopicModeChanged_dialog,
      onTrilinearFilteringChanged_dialog, setup]

end Panel

/-! ### The renderer dropdown -/

namespace Panel

theorem onRendererChanged_eq (h : Host) (p : Panel) (index : Int) (v : Option Int)
    (hv : (if p.dialog.isPerGameSettings then
        if 0 < index then
          ((s_renderer_info h.build).get? (index - 1).toNat).map
            (fun ri => some (h.rendererValue ri.type))
        else some none
      else if 0 ≤ index then
        ((s_renderer_info h.build).get? index.toNat).map
          (fun ri => some (h.rendererValue ri.type))
      else none) = some v) :
    p.onRendererChanged h index =
      some (updateRendererDependentOptions h
        { p with dialog := p.dialog.setIntSettingValue "EmuCore/GS" "Renderer" v }) := by
  unfold onRendererChanged
  dsimp only
  rw [hv]
  rfl

theorem foldl_setHwEnabled_rendererDropdown (l : List HwWidget) (b : Bool) (p : Panel) :
    (l.foldl (fun q w => q.setHwEnabled w b) p).rendererDropdown = p.rendererDropdown := by
  induction l generalizing p with
  | nil => rfl
  | cons w l ih => rw [List.foldl_cons, ih]; rfl

theorem populateUpscaleMultipliers_rendererDropdown (p : Panel) (m : Nat) :
    (p.populateUpscaleMultipliers m).rendererDropdown = p.rendererDropdown := by
  unfold populateUpscaleMultipliers
  split_ifs
  · dsimp only
    split <;> rfl
  · rfl

theorem updateTabs_rendererDropdown (h : Host) (p : Panel) (type : Int) :
    (updateTabs h p type).rendererDropdown = p.rendererDropdown := by
  unfold updateTabs
  split_ifs <;> rfl

theorem updateRendererDependentOptions_rendererDropdown (h : Host) (p : Panel) :
    (p.updateRendererDependentOptions h).rendererDropdown = p.rendererDropdown := by
  unfold updateRendererDependentOptions
  simp only [populateUpscaleMultipliers_rendererDropdown]
  exact updateTabs_rendererDropdown h p _

/-- The constructor leaves the renderer dropdown as lines 611-635 set it up. -/
theorem GraphicsSettingsWidget_rendererDropdown (h : Host) (d : SettingsWindow) :
    (GraphicsSettingsWidget h d).rendererDropdown = setupRendererDropdown h d := by
  unfold GraphicsSettingsWidget
  dsimp only
  split_ifs <;> simp only [updateRendererDependentOptions_rendererDropdown]

theorem setSettingValue_edited (d : SettingsWindow) (a b : String) (v : Option SettingValue) :
    (d.setSettingValue a b v).edited a b = v := by
  unfold SettingsWindow.setSettingValue SettingsWindow.edited
  cases d.sif <;> simp [SettingsInterface.put]

theorem isPerGameSettings_migrateLegacyPatches (h : Host) (d : SettingsWindow) :
    (migrateLegacyPatches h d).isPerGameSettings = d.isPerGameSettings := by
  unfold migrateLegacyPatches SettingsWindow.isPerGameSettings
  cases hs : d.sif with
  | none => simp [hs]
  | some si =>
    dsimp only
    split_ifs <;> rfl

/-- What `onRendererChanged` leaves under the key in the edited layer, once the
value it passes on is known. -/
theorem onRendererChanged_edited (h : Host) (p : Panel) (index : Int) (v : Option Int)
    (hv : (if p.dialog.isPerGameSettings then
        if 0 < index then
          ((s_renderer_info h.build).get? (index - 1).toNat).map
            (fun ri => some (h.rendererValue ri.type))
        else some none
      else if 0 ≤ index then
        ((s_renderer_info h.build).get? index.toNat).map
          (fun ri => some (h.rendererValue ri.type))
      else none) = some v) :
    ∃ p', p.onRendererChanged h index = some p' ∧
      p'.dialog.edited "EmuCore/GS" "Renderer" = v.map SettingValue.int := by
  refine ⟨_, onRendererChanged_eq h p index v hv, ?_⟩
  rw [updateRendererDependentOptions_dialog]
  exact setSettingValue_edited _ _ _ _

/-- The table lists every renderer type at most once, whatever the build. -/
theorem s_renderer_info_nodup (b : BuildConfig) :
    ((s_renderer_info b).map (fun ri => ri.type)).Nodup := by
  obtain ⟨w, o, v, a, dv⟩ := b
  cases w <;> cases o <;> cases v <;> cases a <;> simp [s_renderer_info]

theorem s_renderer_info_ne_nil (b : BuildConfig) : s_renderer_info b ≠ [] := by
  simp [s_renderer_info]

/-- The index lines 612-617 leave current in the freshly filled dropdown: the
entry of a table row whose type has the effective value, and the first entry when
no row has it. -/
theorem fillRenderers_currentIndex (h : Host) (v : Int) :
    ((∃ ri ∈ s_renderer_info h.build, h.rendererValue ri.type = v) →
      ∃ (j : Nat) (rj : RendererInfo), (s_renderer_info h.build).get? j = some rj ∧
        h.rendererValue rj.type = v ∧
        (fillRenderers h v (s_renderer_info h.build) QComboBox.new).currentIndex = j) ∧
    ((∀ ri ∈ s_renderer_info h.build, h.rendererValue ri.type ≠ v) →
      (fillRenderers h v (s_renderer_info h.build) QComboBox.new).currentIndex = 0) := by
  unfold fillRenderers
  constructor
  · rintro ⟨ri, hri, hv⟩
    obtain ⟨j, rj, hj, hhit, hidx⟩ := currentIndex_addAndSelect_of_hit
      (fun ri => decide (v = h.rendererValue ri.type)) (fun ri => ri.name)
      (s_renderer_info h.build) QComboBox.new QComboBox.wf_new
      ⟨ri, hri, by simp [hv]⟩
    refine ⟨j, rj, by simpa using hj, ?_, ?_⟩
    · simpa [eq_comm] using hhit
    · rw [hidx]
      simp [QComboBox.count, QComboBox.new]
  · intro hno
    rw [currentIndex_addAndSelect_of_no_hit _ _ _ _ QComboBox.wf_new]
    · have hne := s_renderer_info_ne_nil h.build
      simp [QComboBox.new, hne]
    · intro ri hri
      have hne : ¬ v = h.rendererValue ri.type := fun hc => hno ri hri hc.symm
      simp [hne]

theorem items_fillRenderers (h : Host) (v : Int) :
    (fillRenderers h v (s_renderer_info h.build) QComboBox.new).items =
      (s_renderer_info h.build).map (fun ri => (ri.name, QVariant.invalid)) := by
  unfold fillRenderers
  rw [items_addAndSelect]
  rfl

theorem wf_fillRenderers (h : Host) (v : Int) :
    (fillRenderers h v (s_renderer_info h.build) QComboBox.new).wf :=
  wf_addAndSelect _ _ _ _ QComboBox.wf_new

/-- The name lines 623-628 compute: the name of a row whose type has the global
value, and the empty string when no row has it. -/
theorem globalRendererName_spec (h : Host) (g : Int) (l : List RendererInfo) :
    ((∃ ri ∈ l, h.rendererValue ri.type = g) →
      ∃ ri ∈ l, h.rendererValue ri.type = g ∧ globalRendererName h g l = ri.name) ∧
    ((∀ ri ∈ l, h.rendererValue ri.type ≠ g) → globalRendererName h g l = "") := by
  unfold globalRendererName
  have key : ∀ (l : List RendererInfo) (init : String),
      ((∃ ri ∈ l, h.rendererValue ri.type = g) →
        ∃ ri ∈ l, h.rendererValue ri.type = g ∧
          l.foldl (fun name ri => if g = h.rendererValue ri.type then ri.name else name) init =
            ri.name) ∧
      ((∀ ri ∈ l, h.rendererValue ri.type ≠ g) →
        l.foldl (fun name ri => if g = h.rendererValue ri.type then ri.name else name) init =
          init) := by
    intro l
    induction l with
    | nil => intro init; simp
    | cons a l ih =>
      intro init
      rw [List.foldl_cons]
      constructor
      · intro hex
        by_cases hl : ∃ ri ∈ l, h.rendererValue ri.type = g
        · obtain ⟨ri, hri, hv, hn⟩ := (ih _).1 hl
          exact ⟨ri, List.mem_cons_of_mem a hri, hv, hn⟩
        · have hno : ∀ ri ∈ l, h.rendererValue ri.type ≠ g := fun ri hri hc => hl ⟨ri, hri, hc⟩
          have ha : h.rendererValue a.type = g := by
            obtain ⟨ri, hri, hv⟩ := hex
            rcases List.mem_cons.mp hri with rfl | hri'
            · exact hv
            · exact absurd hv (hno ri hri')
          refine ⟨a, List.mem_cons_self a l, ha, ?_⟩
          rw [(ih _).2 hno, if_pos ha.symm]
      · intro hno
        rw [(ih _).2 (fun ri hri => hno ri (List.mem_cons_of_mem a hri)),
          if_neg (fun hc => hno a (List.mem_cons_self a l) hc.symm)]
  exact key l ""

theorem fillRenderers_currentIndex_nonneg (h : Host) (v : Int) :
    0 ≤ (fillRenderers h v (s_renderer_info h.build) QComboBox.new).currentIndex := by
  by_cases hex : ∃ ri ∈ s_renderer_info h.build, h.rendererValue ri.type = v
  · obtain ⟨j, rj, _, _, hidx⟩ := (fillRenderers_currentIndex h v).1 hex
    rw [hidx]
    omega
  · rw [(fillRenderers_currentIndex h v).2 (fun ri hri hc => hex ⟨ri, hri, hc⟩)]

/-- The index the constructor leaves in the renderer dropdown, in terms of the
index of the freshly filled box: the same in global mode, one more in per-game
mode with an override, and 0 in per-game mode without one. -/
theorem setupRendererDropdown_currentIndex (h : Host) (d : SettingsWindow) :
    (d.sif = none →
      (setupRendererDropdown h d).currentIndex =
        (fillRenderers h (d.getEffectiveIntValue "EmuCore/GS" "Renderer"
          (h.rendererValue GSRendererType.Auto)) (s_renderer_info h.build)
          QComboBox.new).currentIndex) ∧
    (∀ s x, d.sif = some s → s.GetIntValue "EmuCore/GS" "Renderer" = some x →
      (setupRendererDropdown h d).currentIndex =
        (fillRenderers h (d.getEffectiveIntValue "EmuCore/GS" "Renderer"
          (h.rendererValue GSRendererType.Auto)) (s_renderer_info h.build)
          QComboBox.new).currentIndex + 1) ∧
    (∀ s, d.sif = some s → s.GetIntValue "EmuCore/GS" "Renderer" = none →
      (setupRendererDropdown h d).currentIndex = 0) := by
  refine ⟨?_, ?_, ?_⟩
  · intro hd
    unfold setupRendererDropdown
    simp only [hd]
  · intro s x hd hx
    unfold setupRendererDropdown
    simp only [hd, hx]
    rw [QComboBox.currentIndex_insertItem_zero, items_fillRenderers]
    have hne := s_renderer_info_ne_nil h.build
    have h0 := fillRenderers_currentIndex_nonneg h (d.getEffectiveIntValue "EmuCore/GS"
      "Renderer" (h.rendererValue GSRendererType.Auto))
    simp [hne, h0]
  · intro s hd hx
    unfold setupRendererDropdown
    simp only [hd, hx]
    apply QComboBox.setCurrentIndex_of_valid _ _ (le_refl _)
    rw [QComboBox.count_insertItem_zero]
    unfold QComboBox.count
    omega

theorem getEffectiveIntValue_of_edited (d : SettingsWindow) (a b : String) (v dflt : Int)
    (hv : d.edited a b = some (SettingValue.int v)) :
    d.getEffectiveIntValue a b dflt = v := by
  unfold SettingsWindow.getEffectiveIntValue SettingsWindow.GetBaseIntSettingValue
  unfold SettingsWindow.edited at hv
  cases hs : d.sif with
  | none =>
    simp only [hs] at hv
    simp [SettingsInterface.GetIntValue, hv]
  | some s =>
    simp only [hs] at hv
    simp [SettingsInterface.GetIntValue, hv]

/-- C2: if the stored renderer (the global value in global mode, the per-game
override in per-game mode) is the type of a row of `s_renderer_info`, then
`onRendererChanged` applied to the index the constructor leaves selected writes
that value back.  The selected index is the position of a row with the stored
value, one more in per-game mode where "Use Global Setting" sits at position 0,
and the table lists every type once. -/
theorem C2_renderer_round_trip (h : Host) (d : SettingsWindow) (ri : RendererInfo)
    (hri : ri ∈ s_renderer_info h.build)
    (hstored : d.edited "EmuCore/GS" "Renderer" =
      some (SettingValue.int (h.rendererValue ri.type))) :
    (∃ p', (GraphicsSettingsWidget h d).onRendererChanged h
        (GraphicsSettingsWidget h d).rendererDropdown.currentIndex = some p' ∧
      p'.dialog.edited "EmuCore/GS" "Renderer" =
        some (SettingValue.int (h.rendererValue ri.type))) ∧
    (∃ (j : Nat) (rj : RendererInfo), (s_renderer_info h.build).get? j = some rj ∧
      h.rendererValue rj.type = h.rendererValue ri.type ∧
      (GraphicsSettingsWidget h d).rendererDropdown.currentIndex =
        (j : Int) + (if d.isPerGameSettings then 1 else 0)) ∧
    ((s_renderer_info h.build).map (fun r => r.type)).Nodup := by
  have heff := getEffectiveIntValue_of_edited d "EmuCore/GS" "Renderer"
    (h.rendererValue ri.type) (h.rendererValue GSRendererType.Auto) hstored
  obtain ⟨j, rj, hj, hvj, hidx⟩ := (fillRenderers_currentIndex h (h.rendererValue ri.type)).1
    ⟨ri, hri, rfl⟩
  have hsel : (GraphicsSettingsWidget h d).rendererDropdown.currentIndex =
      (j : Int) + (if d.isPerGameSettings then 1 else 0) := by
    rw [GraphicsSettingsWidget_rendererDropdown]
    cases hs : d.sif with
    | none =>
      rw [(setupRendererDropdown_currentIndex h d).1 hs, heff, hidx]
      simp [SettingsWindow.isPerGameSettings, hs]
    | some s =>
      have hx : s.GetIntValue "EmuCore/GS" "Renderer" = some (h.rendererValue ri.type) := by
        unfold SettingsWindow.edited at hstored
        simp only [hs] at hstored
        simp [SettingsInterface.GetIntValue, hstored]
      rw [(setupRendererDropdown_currentIndex h d).2.1 s _ hs hx, heff, hidx]
      simp [SettingsWindow.isPerGameSettings, hs]
  refine ⟨?_, ⟨j, rj, hj, hvj, hsel⟩, s_renderer_info_nodup h.build⟩
  rw [hsel, ← hvj]
  have hres := onRendererChanged_edited h (GraphicsSettingsWidget h d)
    ((j : Int) + (if d.isPerGameSettings then 1 else 0)) (some (h.rendererValue rj.type))
  apply hres
  rw [GraphicsSettingsWidget_dialog, isPerGameSettings_migrateLegacyPatches]
  have hj' : (s_renderer_info h.build)[j]? = some rj := by simpa using hj
  cases hpg : d.isPerGameSettings
  · simp [hj']
  · have h1 : (0 : Int) < (j : Int) + 1 := by omega
    simp [h1, hj']

/-- C3: in per-game mode without a Renderer override the constructor leaves the
renderer dropdown on index 0, whose text is "Use Global Setting [name]"; the name
is the name of a table row with the global renderer value when the table lists
that value and is empty otherwise; and `onRendererChanged(0)` leaves the per-game
store without an override. -/
theorem C3_inherited_renderer_entry (h : Host) (d : SettingsWindow) (s : SettingsInterface)
    (hd : d.sif = some s) (hno : s "EmuCore/GS" "Renderer" = none) :
    (GraphicsSettingsWidget h d).rendererDropdown.currentIndex = 0 ∧
    (GraphicsSettingsWidget h d).rendererDropdown.itemText 0 =
      useGlobalSetting (globalRendererName h
        (d.GetBaseIntSettingValue "EmuCore/GS" "Renderer" (h.rendererValue GSRendererType.Auto))
        (s_renderer_info h.build)) ∧
    ((∃ ri ∈ s_renderer_info h.build, h.rendererValue ri.type =
        d.GetBaseIntSettingValue "EmuCore/GS" "Renderer"
          (h.rendererValue GSRendererType.Auto)) →
      ∃ ri ∈ s_renderer_info h.build,
        h.rendererValue ri.type = d.GetBaseIntSettingValue "EmuCore/GS" "Renderer"
          (h.rendererValue GSRendererType.Auto) ∧
        (GraphicsSettingsWidget h d).rendererDropdown.itemText 0 = useGlobalSetting ri.name) ∧
    ((∀ ri ∈ s_renderer_info h.build, h.rendererValue ri.type ≠
        d.GetBaseIntSettingValue "EmuCore/GS" "Renderer"
          (h.rendererValue GSRendererType.Auto)) →
      (GraphicsSettingsWidget h d).rendererDropdown.itemText 0 = useGlobalSetting "") ∧
    (∃ p', (GraphicsSettingsWidget h d).onRendererChanged h 0 = some p' ∧
      p'.dialog.edited "EmuCore/GS" "Renderer" = none) := by
  have hx : s.GetIntValue "EmuCore/GS" "Renderer" = none := by
    simp [SettingsInterface.GetIntValue, hno]
  have htext : (GraphicsSettingsWidget h d).rendererDropdown.itemText 0 =
      useGlobalSetting (globalRendererName h
        (d.GetBaseIntSettingValue "EmuCore/GS" "Renderer" (h.rendererValue GSRendererType.Auto))
        (s_renderer_info h.build)) := by
    rw [GraphicsSettingsWidget_rendererDropdown]
    unfold setupRendererDropdown
    simp only [hd, hx]
    simp [QComboBox.itemText, QComboBox.item, QComboBox.items_setCurrentIndex,
      QComboBox.items_insertItem_zero]
  refine ⟨?_, htext, ?_, ?_, ?_⟩
  · rw [GraphicsSettingsWidget_rendererDropdown]
    exact (setupRendererDropdown_currentIndex h d).2.2 s hd hx
  · intro hex
    obtain ⟨ri, hri, hv, hn⟩ := (globalRendererName_spec h _ _).1 hex
    exact ⟨ri, hri, hv, by rw [htext, hn]⟩
  · intro hall
    rw [htext, (globalRendererName_spec h _ _).2 hall]
  · have hres := onRendererChanged_edited h (GraphicsSettingsWidget h d) 0 none
    apply hres
    rw [GraphicsSettingsWidget_dialog, isPerGameSettings_migrateLegacyPatches]
    simp [SettingsWindow.isPerGameSettings, hd]

/-- C4: in global mode, when the stored renderer value is the value of a table
row, the constructor leaves selected an entry whose row has that value; for any
other stored integer the first entry, "Automatic (Default)", stays selected. -/
theorem C4_global_renderer_selection (h : Host) (d : SettingsWindow) (hd : d.sif = none) :
    ((∃ ri ∈ s_renderer_info h.build, h.rendererValue ri.type =
        d.GetBaseIntSettingValue "EmuCore/GS" "Renderer"
          (h.rendererValue GSRendererType.Auto)) →
      ∃ (j : Nat) (rj : RendererInfo), (s_renderer_info h.build).get? j = some rj ∧
        h.rendererValue rj.type = d.GetBaseIntSettingValue "EmuCore/GS" "Renderer"
          (h.rendererValue GSRendererType.Auto) ∧
        (GraphicsSettingsWidget h d).rendererDropdown.currentIndex = j ∧
        (GraphicsSettingsWidget h d).rendererDropdown.currentText = rj.name) ∧
    ((∀ ri ∈ s_renderer_info h.build, h.rendererValue ri.type ≠
        d.GetBaseIntSettingValue "EmuCore/GS" "Renderer"
          (h.rendererValue GSRendererType.Auto)) →
      (GraphicsSettingsWidget h d).rendererDropdown.currentIndex = 0 ∧
      (GraphicsSettingsWidget h d).rendererDropdown.currentText = "Automatic (Default)") := by
  have heff : d.getEffectiveIntValue "EmuCore/GS" "Renderer"
      (h.rendererValue GSRendererType.Auto) =
      d.GetBaseIntSettingValue "EmuCore/GS" "Renderer" (h.rendererValue GSRendererType.Auto) := by
    simp [SettingsWindow.getEffectiveIntValue, hd]
  have hitems : (GraphicsSettingsWidget h d).rendererDropdown.items =
      (s_renderer_info h.build).map (fun ri => (ri.name, QVariant.invalid)) := by
    rw [GraphicsSettingsWidget_rendererDropdown]
    unfold setupRendererDropdown
    simp only [hd]
    exact items_fillRenderers h _
  rw [GraphicsSettingsWidget_rendererDropdown] at *
  rw [(setupRendererDropdown_currentIndex h d).1 hd, heff]
  constructor
  · intro hex
    obtain ⟨j, rj, hj, hv, hidx⟩ := (fillRenderers_currentIndex h _).1 hex
    refine ⟨j, rj, hj, hv, hidx, ?_⟩
    unfold QComboBox.currentText QComboBox.itemText QComboBox.item
    rw [(setupRendererDropdown_currentIndex h d).1 hd, heff, hidx, hitems]
    have hj' : (s_renderer_info h.build)[j]? = some rj := by simpa using hj
    simp [hj']
  · intro hall
    have hidx := (fillRenderers_currentIndex h _).2 hall
    refine ⟨hidx, ?_⟩
    unfold QComboBox.currentText QComboBox.itemText QComboBox.item
    rw [(setupRendererDropdown_currentIndex h d).1 hd, heff, hidx, hitems]
    simp [s_renderer_info]

/-- C1: for every valid index `onRendererChanged(index)` returns, and it leaves
under `EmuCore/GS Renderer`: in global mode the value of the type of
`s_renderer_info[index]` in the global store; in per-game mode nothing in the
per-game store for index 0 (the override is removed) and the value of the type of
`s_renderer_info[index - 1]` for every index above 0, the global store being left
alone. -/
theorem C1_onRendererChanged_writes (h : Host) (p : Panel) (index : Int) :
    (p.dialog.sif = none → 0 ≤ index → index < ((s_renderer_info h.build).length : Int) →
      ∃ ri p', (s_renderer_info h.build).get? index.toNat = some ri ∧
        p.onRendererChanged h index = some p' ∧ p'.dialog.sif = none ∧
        p'.dialog.base "EmuCore/GS" "Renderer" =
          some (SettingValue.int (h.rendererValue ri.type))) ∧
    (∀ s, p.dialog.sif = some s → index = 0 →
      ∃ p', p.onRendererChanged h index = some p' ∧ p'.dialog.base = p.dialog.base ∧
        ∃ s', p'.dialog.sif = some s' ∧ s' "EmuCore/GS" "Renderer" = none) ∧
    (∀ s, p.dialog.sif = some s → 0 < index →
      index ≤ ((s_renderer_info h.build).length : Int) →
      ∃ ri p', (s_renderer_info h.build).get? (index - 1).toNat = some ri ∧
        p.onRendererChanged h index = some p' ∧ p'.dialog.base = p.dialog.base ∧
        ∃ s', p'.dialog.sif = some s' ∧
          s' "EmuCore/GS" "Renderer" = some (SettingValue.int (h.rendererValue ri.type))) := by
  refine ⟨?_, ?_, ?_⟩
  · intro hd h0 h1
    have hlt : index.toNat < (s_renderer_info h.build).length := by omega
    refine ⟨(s_renderer_info h.build)[index.toNat], _, ?_,
      onRendererChanged_eq h p index (some (h.rendererValue
        ((s_renderer_info h.build)[index.toNat]).type)) ?_, ?_, ?_⟩
    · simp [List.getElem?_eq_getElem hlt]
    · simp [SettingsWindow.isPerGameSettings, hd, h0, List.getElem?_eq_getElem hlt]
    · rw [updateRendererDependentOptions_dialog]
      simp [SettingsWindow.setIntSettingValue, SettingsWindow.setSettingValue, hd]
    · rw [updateRendererDependentOptions_dialog]
      simp [SettingsWindow.setIntSettingValue, SettingsWindow.setSettingValue, hd,
        SettingsInterface.put]
  · intro s hd h0
    refine ⟨_, onRendererChanged_eq h p index none ?_, ?_, ?_⟩
    · simp [SettingsWindow.isPerGameSettings, hd, h0]
    · rw [updateRendererDependentOptions_dialog]
      simp [SettingsWindow.setIntSettingValue, SettingsWindow.setSettingValue, hd]
    · rw [updateRendererDependentOptions_dialog]
      exact ⟨s.put "EmuCore/GS" "Renderer" none,
        by simp [SettingsWindow.setIntSettingValue, SettingsWindow.setSettingValue, hd],
        by simp [SettingsInterface.put]⟩
  · intro s hd h0 h1
    have hlt : (index - 1).toNat < (s_renderer_info h.build).length := by omega
    obtain ⟨ri, hri⟩ : ∃ ri, (s_renderer_info h.build).get? (index - 1).toNat = some ri :=
      ⟨_, List.get?_eq_get hlt⟩
    refine ⟨ri, _, hri,
      onRendererChanged_eq h p index (some (h.rendererValue ri.type)) ?_, ?_, ?_⟩
    · rw [hri]
      simp [SettingsWindow.isPerGameSettings, hd, h0]
    · rw [updateRendererDependentOptions_dialog]
      simp [SettingsWindow.setIntSettingValue, SettingsWindow.setSettingValue, hd]
    · rw [updateRendererDependentOptions_dialog]
      exact ⟨s.put "EmuCore/GS" "Renderer" (some (SettingValue.int (h.rendererValue ri.type))),
        by simp [SettingsWindow.setIntSettingValue, SettingsWindow.setSettingValue, hd],
        by simp [SettingsInterface.put]⟩

/-- C1, on the example host: index 2 in global mode, and indices 0 and 3 in
per-game mode. -/
theorem C1_onRendererChanged_writes_witness :
    (∃ ri p', (s_renderer_info exampleHost.build).get? (2 : Int).toNat = some ri ∧
      (setup (globalDialog SettingsInterface.empty)).onRendererChanged exampleHost 2 = some p' ∧
      p'.dialog.sif = none ∧
      p'.dialog.base "EmuCore/GS" "Renderer" =
        some (SettingValue.int (exampleHost.rendererValue ri.type))) ∧
    (∃ p', (setup (gameDialog SettingsInterface.empty
        exampleVulkanStore)).onRendererChanged exampleHost 0 = some p' ∧
      p'.dialog.base = (setup (gameDialog SettingsInterface.empty exampleVulkanStore)).dialog.base ∧
      ∃ s', p'.dialog.sif = some s' ∧ s' "EmuCore/GS" "Renderer" = none) ∧
    (∃ ri p', (s_renderer_info exampleHost.build).get? ((3 : Int) - 1).toNat = some ri ∧
      (setup (gameDialog SettingsInterface.empty
        SettingsInterface.empty)).onRendererChanged exampleHost 3 = some p' ∧
      p'.dialog.base =
        (setup (gameDialog SettingsInterface.empty SettingsInterface.empty)).dialog.base ∧
      ∃ s', p'.dialog.sif = some s' ∧
        s' "EmuCore/GS" "Renderer" =
          some (SettingValue.int (exampleHost.rendererValue ri.type))) :=
  ⟨(C1_onRendererChanged_writes exampleHost (setup (globalDialog SettingsInterface.empty)) 2).1
      rfl (by decide) (by decide),
   (C1_onRendererChanged_writes exampleHost
      (setup (gameDialog SettingsInterface.empty exampleVulkanStore)) 0).2.1
      exampleVulkanStore rfl rfl,
   (C1_onRendererChanged_writes exampleHost
      (setup (gameDialog SettingsInterface.empty SettingsInterface.empty)) 3).2.2
      SettingsInterface.empty rfl (by decide) (by decide)⟩

/-- C2, on the example host with Vulkan as the per-game override. -/
theorem C2_renderer_round_trip_witness :
    ∃ p', (GraphicsSettingsWidget exampleHost
        (gameDialog SettingsInterface.empty exampleVulkanStore)).onRendererChanged exampleHost
        (GraphicsSettingsWidget exampleHost
          (gameDialog SettingsInterface.empty exampleVulkanStore)).rendererDropdown.currentIndex =
        some p' ∧
      p'.dialog.edited "EmuCore/GS" "Renderer" =
        some (SettingValue.int
          (exampleHost.rendererValue (RendererInfo.mk "Vulkan" GSRendererType.VK).type)) :=
  (C2_renderer_round_trip exampleHost (gameDialog SettingsInterface.empty exampleVulkanStore)
    (RendererInfo.mk "Vulkan" GSRendererType.VK) (by simp [s_renderer_info, exampleHost])
    rfl).1

/-- C3 as stated fails: with a global renderer value the table of the build does
not list (here 3, Direct3D 11, on a build without Direct3D), no row gives a name
and entry 0 reads "Use Global Setting []". -/
theorem C3_unlisted_global_renderer_has_no_name :
    (gameDialog exampleUnlistedRendererStore SettingsInterface.empty).GetBaseIntSettingValue
      "EmuCore/GS" "Renderer" (exampleHost.rendererValue GSRendererType.Auto) = 3 ∧
    (∀ ri ∈ s_renderer_info exampleHost.build, exampleHost.rendererValue ri.type ≠ 3) ∧
    (GraphicsSettingsWidget exampleHost (gameDialog exampleUnlistedRendererStore
      SettingsInterface.empty)).rendererDropdown.currentIndex = 0 ∧
    (GraphicsSettingsWidget exampleHost (gameDialog exampleUnlistedRendererStore
      SettingsInterface.empty)).rendererDropdown.itemText 0 = "Use Global Setting []" := by
  refine ⟨by decide, by decide, ?_, ?_⟩
  · rw [GraphicsSettingsWidget_rendererDropdown]
    decide
  · rw [GraphicsSettingsWidget_rendererDropdown]
    decide

/-- C3, on the example host with Vulkan as the global renderer and no override. -/
theorem C3_inherited_renderer_entry_witness :
    (GraphicsSettingsWidget exampleHost
      (gameDialog exampleVulkanStore SettingsInterface.empty)).rendererDropdown.currentIndex = 0 ∧
    (∃ p', (GraphicsSettingsWidget exampleHost
        (gameDialog exampleVulkanStore SettingsInterface.empty)).onRendererChanged exampleHost 0 =
        some p' ∧
      p'.dialog.edited "EmuCore/GS" "Renderer" = none) :=
  ⟨(C3_inherited_renderer_entry exampleHost
      (gameDialog exampleVulkanStore SettingsInterface.empty) SettingsInterface.empty rfl rfl).1,
   (C3_inherited_renderer_entry exampleHost
      (gameDialog exampleVulkanStore SettingsInterface.empty) SettingsInterface.empty rfl
      rfl).2.2.2.2⟩

/-- C4 as stated fails: with the global renderer value 3 (Direct3D 11) on a build
that does not list it, the selected entry is entry 0, "Automatic (Default)", whose
type has value -1, and no entry has the stored value. -/
theorem C4_unlisted_renderer_shows_automatic :
    (globalDialog exampleUnlistedRendererStore).GetBaseIntSettingValue
      "EmuCore/GS" "Renderer" (exampleHost.rendererValue GSRendererType.Auto) = 3 ∧
    (GraphicsSettingsWidget exampleHost
      (globalDialog exampleUnlistedRendererStore)).rendererDropdown.currentIndex = 0 ∧
    (GraphicsSettingsWidget exampleHost
      (globalDialog exampleUnlistedRendererStore)).rendererDropdown.currentText =
      "Automatic (Default)" ∧
    ((s_renderer_info exampleHost.build).get? 0).map
      (fun ri => exampleHost.rendererValue ri.type) = some (-1) ∧
    (∀ ri ∈ s_renderer_info exampleHost.build, exampleHost.rendererValue ri.type ≠ 3) := by
  refine ⟨by decide, ?_, ?_, by decide, by decide⟩
  · rw [GraphicsSettingsWidget_rendererDropdown]
    decide
  · rw [GraphicsSettingsWidget_rendererDropdown]
    decide

/-- C4, on the example host with Vulkan stored globally. -/
theorem C4_global_renderer_selection_witness :
    ∃ (j : Nat) (rj : RendererInfo), (s_renderer_info exampleHost.build).get? j = some rj ∧
      exampleHost.rendererValue rj.type =
        (globalDialog exampleVulkanStore).GetBaseIntSettingValue "EmuCore/GS" "Renderer"
          (exampleHost.rendererValue GSRendererType.Auto) ∧
      (GraphicsSettingsWidget exampleHost
        (globalDialog exampleVulkanStore)).rendererDropdown.currentIndex = j ∧
      (GraphicsSettingsWidget exampleHost
        (globalDialog exampleVulkanStore)).rendererDropdown.currentText = rj.name :=
  (C4_global_renderer_selection exampleHost (globalDialog exampleVulkanStore) rfl).1
    ⟨RendererInfo.mk "Vulkan" GSRendererType.VK, by simp [s_renderer_info, exampleHost],
      by decide⟩

end Panel

/-! ### Renderer-dependent options -/

namespace Panel

theorem populateUpscaleMultipliers_tabVisible (p : Panel) (m : Nat) :
    (p.populateUpscaleMultipliers m).tabVisible = p.tabVisible := by
  unfold populateUpscaleMultipliers
  split_ifs
  · dsimp only
    split <;> rfl
  · rfl

theorem populateUpscaleMultipliers_adapterDropdown (p : Panel) (m : Nat) :
    (p.populateUpscaleMultipliers m).adapterDropdown = p.adapterDropdown := by
  unfold populateUpscaleMultipliers
  split_ifs
  · dsimp only
    split <;> rfl
  · rfl

theorem populateUpscaleMultipliers_enableHWFixes (p : Panel) (m : Nat) :
    (p.populateUpscaleMultipliers m).enableHWFixes = p.enableHWFixes := by
  unfold populateUpscaleMultipliers
  split_ifs
  · dsimp only
    split <;> rfl
  · rfl

theorem updateTabs_adapterDropdown (h : Host) (p : Panel) (type : Int) :
    (updateTabs h p type).adapterDropdown = p.adapterDropdown := by
  unfold updateTabs
  split_ifs <;> rfl

theorem updateTabs_enableHWFixes (h : Host) (p : Panel) (type : Int) :
    (updateTabs h p type).enableHWFixes = p.enableHWFixes := by
  unfold updateTabs
  split_ifs <;> rfl

theorem updateRendererDependentOptions_enableHWFixes (h : Host) (p : Panel) :
    (p.updateRendererDependentOptions h).enableHWFixes = p.enableHWFixes := by
  unfold updateRendererDependentOptions
  simp only [populateUpscaleMultipliers_enableHWFixes]
  exact updateTabs_enableHWFixes h p _

/-- The tabs `updateRendererDependentOptions` shows or hides. -/
theorem updateTabs_tabVisible (h : Host) (p : Panel) (type : Int) :
    (updateTabs h p type).tabVisible Tab.hardware_rendering = is_hardware h type ∧
    (updateTabs h p type).tabVisible Tab.software_rendering =
      (!is_hardware h type && is_software h type) ∧
    (updateTabs h p type).tabVisible Tab.hardware_fixes = hw_fixes h p type ∧
    (updateTabs h p type).tabVisible Tab.upscaling_fixes = hw_fixes h p type ∧
    (updateTabs h p type).tabVisible Tab.texture_replacement = is_hardware h type := by
  unfold updateTabs
  cases hh : is_hardware h type <;> cases hs : is_software h type <;>
    simp [setTabVisible, hh, hs]

theorem updateRendererDependentOptions_tabVisible (h : Host) (p : Panel) :
    (p.updateRendererDependentOptions h).tabVisible =
      (updateTabs h p (p.getEffectiveRenderer h)).tabVisible := by
  unfold updateRendererDependentOptions
  simp only [populateUpscaleMultipliers_tabVisible]
  rfl

theorem updateAdapters_congr (h : Host) (p q : Panel) (adapters : List GSAdapterInfo)
    (hd : q.dialog = p.dialog) (ha : q.adapterDropdown = p.adapterDropdown) :
    updateAdapters h q adapters = updateAdapters h p adapters := by
  unfold updateAdapters
  rw [hd, ha]

theorem updateRendererDependentOptions_adapterDropdown (h : Host) (p : Panel) :
    (p.updateRendererDependentOptions h).adapterDropdown =
      (updateAdapters h p (h.GSGetAdapterInfo (p.getEffectiveRenderer h))).1 := by
  unfold updateRendererDependentOptions
  simp only [populateUpscaleMultipliers_adapterDropdown]
  exact congrArg Prod.fst
    (updateAdapters_congr h p (updateAdvanced h (updateTabs h p _) _) _
      (updateTabs_dialog h p _) (updateTabs_adapterDropdown h p _))

/-- The entries of the adapter dropdown and its current index after the refill, in
per-game mode: "Use Global Setting", "(Default)" and one entry per adapter. -/
theorem updateAdapters_per_game (h : Host) (p : Panel) (s : SettingsInterface)
    (adapters : List GSAdapterInfo) (hd : p.dialog.sif = some s)
    (hne : ∀ a ∈ adapters, a.name ≠ "") :
    (∃ t, (updateAdapters h p adapters).1.items =
      (t, QVariant.invalid) :: ("(Default)", QVariant.invalid) ::
        adapters.map (fun a => (a.name, QVariant.invalid))) ∧
    (s.GetStringValue "EmuCore/GS" "Adapter" = none →
      (updateAdapters h p adapters).1.currentIndex = 0) ∧
    (s.GetStringValue "EmuCore/GS" "Adapter" = some "" →
      (updateAdapters h p adapters).1.currentIndex = 1) ∧
    (∀ n, s.GetStringValue "EmuCore/GS" "Adapter" = some n →
      (∃ a ∈ adapters, a.name = n) →
      ∃ (j : Nat) (a : GSAdapterInfo), adapters[j]? = some a ∧ a.name = n ∧
        (updateAdapters h p adapters).1.currentIndex = (j : Int) + 2) := by
  have hitems0 : ((((p.adapterDropdown.clear).setEnabled (!adapters.isEmpty)).addItem
      "(Default)" QVariant.invalid).setCurrentIndex 0).items =
      [("(Default)", QVariant.invalid)] := by
    simp [QComboBox.items_setCurrentIndex, QComboBox.items_addItem, QComboBox.clear,
      QComboBox.setEnabled]
  have hidx0 : ((((p.adapterDropdown.clear).setEnabled (!adapters.isEmpty)).addItem
      "(Default)" QVariant.invalid).setCurrentIndex 0).currentIndex = 0 := by
    apply QComboBox.setCurrentIndex_of_valid _ _ (le_refl _)
    rw [QComboBox.count_addItem]
    unfold QComboBox.count
    omega
  have hwf1 : ∀ t, (((((p.adapterDropdown.clear).setEnabled (!adapters.isEmpty)).addItem
      "(Default)" QVariant.invalid).setCurrentIndex 0).insertItem 0 t QVariant.invalid).wf :=
    fun t => QComboBox.wf_insertItem_zero _ _ _ (QComboBox.wf_setCurrentIndex _ _)
  have hidx1 : ∀ t, (((((p.adapterDropdown.clear).setEnabled (!adapters.isEmpty)).addItem
      "(Default)" QVariant.invalid).setCurrentIndex 0).insertItem 0 t
      QVariant.invalid).currentIndex = 1 := by
    intro t
    rw [QComboBox.currentIndex_insertItem_zero, hitems0, hidx0]
    simp
  have hcount1 : ∀ t, (((((p.adapterDropdown.clear).setEnabled (!adapters.isEmpty)).addItem
      "(Default)" QVariant.invalid).setCurrentIndex 0).insertItem 0 t
      QVariant.invalid).count = 2 := by
    intro t
    simp [QComboBox.count, QComboBox.items_insertItem_zero, hitems0]
  refine ⟨?_, ?_, ?_, ?_⟩
  · unfold updateAdapters
    simp only [hd]
    cases hv : s.GetStringValue "EmuCore/GS" "Adapter" <;>
      simp [items_addAndSelect, QComboBox.items_setCurrentIndex,
        QComboBox.items_insertItem_zero, QComboBox.items_addItem, QComboBox.clear,
        QComboBox.setEnabled]
  · intro hv
    unfold updateAdapters
    simp only [hd, hv]
    rw [currentIndex_addAndSelect_of_no_hit _ _ _ _ (QComboBox.wf_setCurrentIndex _ _)]
    · rw [QComboBox.items_setCurrentIndex, QComboBox.items_insertItem_zero]
      simp only [reduceCtorEq, false_and, if_false]
      apply QComboBox.setCurrentIndex_of_valid _ _ (le_refl _)
      rw [hcount1]
      omega
    · intro a ha
      have hna : ¬ "" = a.name := fun hc => hne a ha hc.symm
      simp [hna]
  · intro hv
    unfold updateAdapters
    simp only [hd, hv]
    rw [currentIndex_addAndSelect_of_no_hit _ _ _ _ (hwf1 _)]
    · rw [QComboBox.items_insertItem_zero, hidx1]
      simp
    · intro a ha
      have hna : ¬ "" = a.name := fun hc => hne a ha hc.symm
      simp [hna]
  · intro n hv hex
    unfold updateAdapters
    simp only [hd, hv]
    obtain ⟨a, ha, han⟩ := hex
    obtain ⟨j, a', hj, hhit, hidx⟩ := currentIndex_addAndSelect_of_hit
      (fun a => decide (n = a.name)) (fun a => a.name) adapters _ (hwf1 _)
      ⟨a, ha, by simp [han]⟩
    refine ⟨j, a', hj, ?_, ?_⟩
    · simpa [eq_comm] using hhit
    · rw [hidx, hcount1]
      omega

theorem onAdapterChanged_edited (p : Panel) (s : SettingsInterface) (index : Int)
    (hd : p.dialog.sif = some s) :
    (p.onAdapterChanged index).dialog.edited "EmuCore/GS" "Adapter" =
      (indexedStringValue true index p.adapterDropdown.currentText).map SettingValue.str := by
  unfold onAdapterChanged SettingsWindow.setStringSettingValue
  dsimp only
  rw [setSettingValue_edited]
  simp [SettingsWindow.isPerGameSettings, hd]

/-- C6: in per-game mode, with adapter names that are non-empty and pairwise
distinct, `updateRendererDependentOptions` leaves the adapter dropdown (a) on
index 0 when the per-game store has no Adapter override, (b) on index 1, the
"(Default)" entry, when the override is the empty string, (c) on index `k + 2`,
the entry that carries the name, when the override is the name of adapter `k`; and
in each case `onAdapterChanged` applied to that index leaves the per-game Adapter
value as it was. -/
theorem C6_adapter_round_trip (h : Host) (p : Panel) (s : SettingsInterface)
    (hd : p.dialog.sif = some s)
    (hne : ∀ a ∈ h.GSGetAdapterInfo (p.getEffectiveRenderer h), a.name ≠ "")
    (hnd : ((h.GSGetAdapterInfo (p.getEffectiveRenderer h)).map (fun a => a.name)).Nodup) :
    (s "EmuCore/GS" "Adapter" = none →
      (p.updateRendererDependentOptions h).adapterDropdown.currentIndex = 0 ∧
      ((p.updateRendererDependentOptions h).onAdapterChanged 0).dialog.edited
        "EmuCore/GS" "Adapter" = none) ∧
    (s "EmuCore/GS" "Adapter" = some (SettingValue.str "") →
      (p.updateRendererDependentOptions h).adapterDropdown.currentIndex = 1 ∧
      (p.updateRendererDependentOptions h).adapterDropdown.itemText 1 = "(Default)" ∧
      ((p.updateRendererDependentOptions h).onAdapterChanged 1).dialog.edited
        "EmuCore/GS" "Adapter" = some (SettingValue.str "")) ∧
    (∀ (k : Nat) (a : GSAdapterInfo),
      (h.GSGetAdapterInfo (p.getEffectiveRenderer h)).get? k = some a →
      s "EmuCore/GS" "Adapter" = some (SettingValue.str a.name) →
      (p.updateRendererDependentOptions h).adapterDropdown.currentIndex = (k : Int) + 2 ∧
      (p.updateRendererDependentOptions h).adapterDropdown.itemText ((k : Int) + 2) = a.name ∧
      ((p.updateRendererDependentOptions h).onAdapterChanged ((k : Int) + 2)).dialog.edited
        "EmuCore/GS" "Adapter" = some (SettingValue.str a.name)) := by
  have hd' : (p.updateRendererDependentOptions h).dialog.sif = some s := by
    rw [updateRendererDependentOptions_dialog]
    exact hd
  obtain ⟨⟨t, hitems⟩, hA, hB, hC⟩ := updateAdapters_per_game h p s
    (h.GSGetAdapterInfo (p.getEffectiveRenderer h)) hd hne
  rw [← updateRendererDependentOptions_adapterDropdown] at hitems hA hB hC
  refine ⟨?_, ?_, ?_⟩
  · intro hv
    have hx : s.GetStringValue "EmuCore/GS" "Adapter" = none := by
      simp [SettingsInterface.GetStringValue, hv]
    refine ⟨hA hx, ?_⟩
    rw [onAdapterChanged_edited _ s _ hd']
    simp [indexedStringValue]
  · intro hv
    have hx : s.GetStringValue "EmuCore/GS" "Adapter" = some "" := by
      simp [SettingsInterface.GetStringValue, hv]
    refine ⟨hB hx, ?_, ?_⟩
    · simp [QComboBox.itemText, QComboBox.item, hitems]
    · rw [onAdapterChanged_edited _ s _ hd']
      simp [indexedStringValue]
  · intro k a hk hv
    have hx : s.GetStringValue "EmuCore/GS" "Adapter" = some a.name := by
      simp [SettingsInterface.GetStringValue, hv]
    have hk' : (h.GSGetAdapterInfo (p.getEffectiveRenderer h))[k]? = some a := by
      simpa using hk
    obtain ⟨j, a', hj, hname, hidx⟩ := hC a.name hx ⟨a, List.getElem?_mem hk', rfl⟩
    have hjk : j = k := by
      have hjlt : j < ((h.GSGetAdapterInfo (p.getEffectiveRenderer h)).map
          (fun a => a.name)).length := by
        rw [List.length_map]
        exact (List.getElem?_eq_some_iff.mp hj).1
      apply List.getElem?_inj hjlt hnd
      rw [List.getElem?_map, List.getElem?_map, hj, hk']
      simp [hname]
    subst hjk
    have htext : (p.updateRendererDependentOptions h).adapterDropdown.itemText ((j : Int) + 2) =
        a.name := by
      have h0 : (0 : Int) ≤ (j : Int) + 2 := by omega
      have h2 : ((j : Int) + 2).toNat = j + 2 := by omega
      simp [QComboBox.itemText, QComboBox.item, hitems, h0, h2, hk']
    refine ⟨hidx, htext, ?_⟩
    rw [onAdapterChanged_edited _ s _ hd']
    have h2 : (2 : Int) ≤ (j : Int) + 2 := by omega
    unfold QComboBox.currentText
    rw [hidx, htext]
    simp [indexedStringValue, h2]

/-- C6, on the example host with the second adapter as the per-game override. -/
theorem C6_adapter_round_trip_witness :
    ((setup (gameDialog SettingsInterface.empty
      exampleAdapterOverlay)).updateRendererDependentOptions
      exampleHost).adapterDropdown.currentIndex = ((1 : Nat) : Int) + 2 ∧
    ((setup (gameDialog SettingsInterface.empty
      exampleAdapterOverlay)).updateRendererDependentOptions
      exampleHost).adapterDropdown.itemText (((1 : Nat) : Int) + 2) =
      (GSAdapterInfo.mk "GPU B" [] 8).name ∧
    (((setup (gameDialog SettingsInterface.empty
      exampleAdapterOverlay)).updateRendererDependentOptions exampleHost).onAdapterChanged
      (((1 : Nat) : Int) + 2)).dialog.edited "EmuCore/GS" "Adapter" =
      some (SettingValue.str (GSAdapterInfo.mk "GPU B" [] 8).name) :=
  (C6_adapter_round_trip exampleHost
    (setup (gameDialog SettingsInterface.empty exampleAdapterOverlay)) exampleAdapterOverlay rfl
    (by simp [exampleHost]) (by simp [exampleHost])).2.2 1 (GSAdapterInfo.mk "GPU B" [] 8)
    rfl rfl

theorem is_hardware_iff (h : Host) (t : Int) :
    is_hardware h t = true ↔
      t = h.rendererValue GSRendererType.DX11 ∨ t = h.rendererValue GSRendererType.DX12 ∨
      t = h.rendererValue GSRendererType.OGL ∨ t = h.rendererValue GSRendererType.VK ∨
      t = h.rendererValue GSRendererType.Metal := by
  simp [is_hardware, or_assoc]

theorem exampleHost_injective : Function.Injective exampleHost.rendererValue := by
  intro a b hab
  cases a <;> cases b <;> first | rfl | (exact absurd hab (by decide))

/-- C7: after `updateRendererDependentOptions`, with renderer types of pairwise
different values, the hardware Rendering tab is visible iff the resolved renderer
is one of DX11, DX12, OGL, VK and Metal, the software Rendering tab is visible iff
it is SW, the two are never visible together, neither is visible for Null, and the
Texture Replacement tab is visible iff the hardware Rendering tab is. -/
theorem C7_rendering_tabs (h : Host) (p : Panel) (hinj : Function.Injective h.rendererValue) :
    ((p.updateRendererDependentOptions h).tabVisible Tab.hardware_rendering = true ↔
      p.getEffectiveRenderer h = h.rendererValue GSRendererType.DX11 ∨
      p.getEffectiveRenderer h = h.rendererValue GSRendererType.DX12 ∨
      p.getEffectiveRenderer h = h.rendererValue GSRendererType.OGL ∨
      p.getEffectiveRenderer h = h.rendererValue GSRendererType.VK ∨
      p.getEffectiveRenderer h = h.rendererValue GSRendererType.Metal) ∧
    ((p.updateRendererDependentOptions h).tabVisible Tab.software_rendering = true ↔
      p.getEffectiveRenderer h = h.rendererValue GSRendererType.SW) ∧
    ¬ ((p.updateRendererDependentOptions h).tabVisible Tab.hardware_rendering = true ∧
      (p.updateRendererDependentOptions h).tabVisible Tab.software_rendering = true) ∧
    (p.getEffectiveRenderer h = h.rendererValue GSRendererType.Null →
      (p.updateRendererDependentOptions h).tabVisible Tab.hardware_rendering = false ∧
      (p.updateRendererDependentOptions h).tabVisible Tab.software_rendering = false) ∧
    ((p.updateRendererDependentOptions h).tabVisible Tab.texture_replacement =
      (p.updateRendererDependentOptions h).tabVisible Tab.hardware_rendering) := by
  obtain ⟨hhw, hsw, _, _, htx⟩ := updateTabs_tabVisible h p (p.getEffectiveRenderer h)
  rw [updateRendererDependentOptions_tabVisible, hhw, hsw, htx]
  have hne : ∀ a b : GSRendererType, a ≠ b → h.rendererValue a ≠ h.rendererValue b :=
    fun a b hab hc => hab (hinj hc)
  have hswhw : is_software h (p.getEffectiveRenderer h) = true →
      is_hardware h (p.getEffectiveRenderer h) = false := by
    intro hs
    have hs' : p.getEffectiveRenderer h = h.rendererValue GSRendererType.SW := by
      simpa [is_software] using hs
    have n1 := hne GSRendererType.SW GSRendererType.DX11 (by decide)
    have n2 := hne GSRendererType.SW GSRendererType.DX12 (by decide)
    have n3 := hne GSRendererType.SW GSRendererType.OGL (by decide)
    have n4 := hne GSRendererType.SW GSRendererType.VK (by decide)
    have n5 := hne GSRendererType.SW GSRendererType.Metal (by decide)
    simp [is_hardware, hs', n1, n2, n3, n4, n5]
  refine ⟨is_hardware_iff h _, ?_, ?_, ?_, rfl⟩
  · constructor
    · intro hv
      have hs : is_software h (p.getEffectiveRenderer h) = true := by
        cases hh : is_hardware h (p.getEffectiveRenderer h) <;> simp_all
      simpa [is_software] using hs
    · intro hs'
      have hs : is_software h (p.getEffectiveRenderer h) = true := by
        simp [is_software, hs']
      simp [hs, hswhw hs]
  · rintro ⟨h1, h2⟩
    simp [h1] at h2
  · intro hnull
    have n1 := hne GSRendererType.Null GSRendererType.DX11 (by decide)
    have n2 := hne GSRendererType.Null GSRendererType.DX12 (by decide)
    have n3 := hne GSRendererType.Null GSRendererType.OGL (by decide)
    have n4 := hne GSRendererType.Null GSRendererType.VK (by decide)
    have n5 := hne GSRendererType.Null GSRendererType.Metal (by decide)
    have n6 := hne GSRendererType.Null GSRendererType.SW (by decide)
    simp [is_hardware, is_software, hnull, n1, n2, n3, n4, n5, n6]

/-- C7, on the example host with Vulkan stored globally: the hardware Rendering
tab and the Texture Replacement tab are visible, the software one is not. -/
theorem C7_rendering_tabs_witness :
    ¬ (((setup (globalDialog exampleVulkanStore)).updateRendererDependentOptions
        exampleHost).tabVisible Tab.hardware_rendering = true ∧
      ((setup (globalDialog exampleVulkanStore)).updateRendererDependentOptions
        exampleHost).tabVisible Tab.software_rendering = true) ∧
    (((setup (globalDialog exampleVulkanStore)).updateRendererDependentOptions
        exampleHost).tabVisible Tab.texture_replacement =
      ((setup (globalDialog exampleVulkanStore)).updateRendererDependentOptions
        exampleHost).tabVisible Tab.hardware_rendering) :=
  ⟨(C7_rendering_tabs exampleHost (setup (globalDialog exampleVulkanStore))
      exampleHost_injective).2.2.1,
   (C7_rendering_tabs exampleHost (setup (globalDialog exampleVulkanStore))
      exampleHost_injective).2.2.2.2⟩

/-- C8: after `updateRendererDependentOptions` the Hardware Fixes and Upscaling
Fixes tabs are visible iff the resolved renderer is a hardware renderer and the
Manual Hardware Renderer Fixes checkbox exists and is `Checked`; a checkbox that
shows the stored value is `Checked` in per-game mode iff the per-game override of
`UserHacks` is present and true, and in global mode iff the global value is
true. -/
theorem C8_fixes_tabs (h : Host) (p : Panel) (d : SettingsWindow) :
    ((p.updateRendererDependentOptions h).tabVisible Tab.hardware_fixes = true ↔
      is_hardware h (p.getEffectiveRenderer h) = true ∧
        p.enableHWFixes = some CheckState.Checked) ∧
    ((p.updateRendererDependentOptions h).tabVisible Tab.upscaling_fixes = true ↔
      is_hardware h (p.getEffectiveRenderer h) = true ∧
        p.enableHWFixes = some CheckState.Checked) ∧
    (BindWidgetToBoolSetting d "EmuCore/GS" "UserHacks" false = CheckState.Checked ↔
      match d.sif with
      | some s => s.GetBoolValue "EmuCore/GS" "UserHacks" = some true
      | none => d.GetBaseBoolSettingValue "EmuCore/GS" "UserHacks" false = true) := by
  obtain ⟨_, _, hf, hu, _⟩ := updateTabs_tabVisible h p (p.getEffectiveRenderer h)
  rw [updateRendererDependentOptions_tabVisible, hf, hu]
  refine ⟨by simp [hw_fixes], by simp [hw_fixes], ?_⟩
  unfold BindWidgetToBoolSetting
  cases hs : d.sif with
  | none =>
    cases hb : d.GetBaseBoolSettingValue "EmuCore/GS" "UserHacks" false <;> simp
  | some s =>
    simp only
    cases hv : s.GetBoolValue "EmuCore/GS" "UserHacks" with
    | none => simp
    | some b => cases b <;> simp

set_option maxRecDepth 100000 in
/-- C8 as stated fails: in per-game mode without a `UserHacks` override and with
the global value true, the effective value is true and the resolved renderer
(Vulkan, the preferred one) is a hardware renderer, yet the checkbox is
`PartiallyChecked` and both fixes tabs are hidden. -/
theorem C8_inherited_hardware_fixes_stay_hidden :
    (gameDialog exampleUserHacksStore SettingsInterface.empty).getEffectiveBoolValue
      "EmuCore/GS" "UserHacks" false = true ∧
    is_hardware exampleHost
      ((GraphicsSettingsWidget exampleHost
        (gameDialog exampleUserHacksStore SettingsInterface.empty)).getEffectiveRenderer
        exampleHost) = true ∧
    (GraphicsSettingsWidget exampleHost
      (gameDialog exampleUserHacksStore SettingsInterface.empty)).enableHWFixes =
      some CheckState.PartiallyChecked ∧
    ((GraphicsSettingsWidget exampleHost
      (gameDialog exampleUserHacksStore SettingsInterface.empty)).updateRendererDependentOptions
      exampleHost).tabVisible Tab.hardware_fixes = false ∧
    ((GraphicsSettingsWidget exampleHost
      (gameDialog exampleUserHacksStore SettingsInterface.empty)).updateRendererDependentOptions
      exampleHost).tabVisible Tab.upscaling_fixes = false := by
  decide

set_option maxRecDepth 100000 in
/-- C9: in global mode of a release build, with `UserHacks` true in the global
store and a hardware renderer in effect, the constructor ends with the checkbox
removed but with the Hardware Fixes and Upscaling Fixes tabs visible; the next
`updateRendererDependentOptions` hides them. -/
theorem C9_fixes_tabs_visible_after_constructor :
    exampleHost.build.devbuild = false ∧
    (GraphicsSettingsWidget exampleHost (globalDialog exampleUserHacksStore)).enableHWFixes =
      none ∧
    (GraphicsSettingsWidget exampleHost (globalDialog exampleUserHacksStore)).tabVisible
      Tab.hardware_fixes = true ∧
    (GraphicsSettingsWidget exampleHost (globalDialog exampleUserHacksStore)).tabVisible
      Tab.upscaling_fixes = true ∧
    ((GraphicsSettingsWidget exampleHost
      (globalDialog exampleUserHacksStore)).updateRendererDependentOptions exampleHost).tabVisible
      Tab.hardware_fixes = false ∧
    ((GraphicsSettingsWidget exampleHost
      (globalDialog exampleUserHacksStore)).updateRendererDependentOptions exampleHost).tabVisible
      Tab.upscaling_fixes = false := by
  decide

/-- Once the checkbox is removed, every `updateRendererDependentOptions` hides the
two fixes tabs and leaves the checkbox removed. -/
theorem fixes_tabs_hidden_without_checkbox (h : Host) (p : Panel) (hp : p.enableHWFixes = none) :
    (p.updateRendererDependentOptions h).tabVisible Tab.hardware_fixes = false ∧
    (p.updateRendererDependentOptions h).tabVisible Tab.upscaling_fixes = false ∧
    (p.updateRendererDependentOptions h).enableHWFixes = none := by
  obtain ⟨_, _, hf, hu, _⟩ := updateTabs_tabVisible h p (p.getEffectiveRenderer h)
  rw [updateRendererDependentOptions_tabVisible, hf, hu,
    updateRendererDependentOptions_enableHWFixes]
  simp [hw_fixes, hp]

/-- C5, on the example host in per-game mode after the dropdowns were filled,
for index 2. -/
theorem C5_adapter_and_mode_three_way_witness :
    (((setup (gameDialog SettingsInterface.empty
      SettingsInterface.empty)).updateRendererDependentOptions exampleHost).onAdapterChanged
      2).dialog.edited "EmuCore/GS" "Adapter" =
      (if ((setup (gameDialog SettingsInterface.empty
          SettingsInterface.empty)).updateRendererDependentOptions
          exampleHost).dialog.isPerGameSettings then
        (if (2 : Int) = 0 then none
         else if (2 : Int) = 1 then some (SettingValue.str "")
         else some (SettingValue.str ((setup (gameDialog SettingsInterface.empty
          SettingsInterface.empty)).updateRendererDependentOptions
          exampleHost).adapterDropdown.currentText))
       else
        (if (2 : Int) = 0 then none
         else some (SettingValue.str ((setup (gameDialog SettingsInterface.empty
          SettingsInterface.empty)).updateRendererDependentOptions
          exampleHost).adapterDropdown.currentText))) :=
  (C5_adapter_and_mode_three_way
    ((setup (gameDialog SettingsInterface.empty
      SettingsInterface.empty)).updateRendererDependentOptions exampleHost) 2 (by decide)).1

/-! ### Stereoscopy controls -/

theorem foldl_setHwEnabled_of_mem (l : List HwWidget) (b : Bool) (p : Panel) (w : HwWidget)
    (hw : w ∈ l) : (l.foldl (fun q x => q.setHwEnabled x b) p).hwEnabled w = b := by
  induction l generalizing p with
  | nil => simp at hw
  | cons x l ih =>
    rw [List.foldl_cons]
    by_cases hl : w ∈ l
    · exact ih _ hl
    · have hx : w = x := by
        rcases List.mem_cons.mp hw with hx | hx
        · exact hx
        · exact absurd hx hl
      subst hx
      have key : ∀ q : Panel, (l.foldl (fun q x => q.setHwEnabled x b) q).hwEnabled w =
          q.hwEnabled w := by
        clear ih hw
        induction l with
        | nil => intro q; rfl
        | cons y l ih2 =>
          intro q
          rw [List.foldl_cons, ih2 (fun hc => hl (List.mem_cons_of_mem y hc))]
          have hy : w ≠ y := fun hc => hl (hc ▸ List.mem_cons_self y l)
          simp [setHwEnabled, hy]
      rw [key]
      simp [setHwEnabled]

set_option maxRecDepth 100000 in
/-- Every stereoscopy control the constructor binds, apart from the mode selector,
is among the controls `onStereoscopicModeChanged` enables or disables. -/
theorem stereoBindings_gated :
    ∀ b ∈ stereoBindings, b.1 ≠ HwWidget.stereoscopicMode → b.1 ∈ stereoGated := by
  decide

/-- C10: for every stereoscopy control bound in the constructor other than the
mode selector, `onStereoscopicModeChanged` sets the enabled state to true iff the
effective value of `EmuCore/GS StereoMode` (default "Off") differs from "Off". -/
theorem C10_stereo_controls_gated (p : Panel) (b : HwWidget × String × String)
    (hb : b ∈ stereoBindings) (hmode : b.1 ≠ HwWidget.stereoscopicMode) :
    (p.onStereoscopicModeChanged.hwEnabled b.1 = true ↔
      p.dialog.getEffectiveStringValue "EmuCore/GS" "StereoMode" "Off" ≠ "Off") := by
  unfold onStereoscopicModeChanged
  dsimp only
  rw [foldl_setHwEnabled_of_mem _ _ _ _ (stereoBindings_gated b hb hmode)]
  simp

set_option maxRecDepth 100000 in
/-- C10, for the Swap Eyes checkbox on a panel whose stereoscopy mode is unset. -/
theorem C10_stereo_controls_gated_witness :
    ((setup (globalDialog SettingsInterface.empty)).onStereoscopicModeChanged.hwEnabled
        (HwWidget.stereoSwapEyes, "EmuCore/GS", "StereoSwapEyes").1 = true ↔
      (setup (globalDialog SettingsInterface.empty)).dialog.getEffectiveStringValue
        "EmuCore/GS" "StereoMode" "Off" ≠ "Off") :=
  C10_stereo_controls_gated (setup (globalDialog SettingsInterface.empty))
    (HwWidget.stereoSwapEyes, "EmuCore/GS", "StereoSwapEyes") (by decide) (by decide)

end Panel

/-! ### Single-precision values -/

theorem floatExponent_le (n : Nat) : floatExponent n ≤ 9 := by
  unfold floatExponent
  cases hf : (List.range 9).find? (fun e => decide (n < 2 ^ (24 + e))) with
  | none => simp
  | some e =>
    have := List.mem_of_find?_eq_some hf
    simp only [List.mem_range] at this
    simp only [Option.getD_some]
    omega

theorem u32ToFloat_of_lt (n : Nat) (hn : n < 2 ^ 24) : u32ToFloat n = (n : ℚ) := by
  unfold u32ToFloat
  rw [if_pos hn]

theorem u32ToFloat_of_le (n : Nat) (hn : n ≤ 2 ^ 24) : u32ToFloat n = (n : ℚ) := by
  rcases Nat.lt_or_ge n (2 ^ 24) with h | h
  · exact u32ToFloat_of_lt n h
  · have : n = 2 ^ 24 := le_antisymm hn h
    subst this
    simp [u32ToFloat, floatExponent, List.range, List.range.loop]

/-- A value of at least `2^24` stays at least `2^15` after rounding. -/
theorem le_u32ToFloat_of_ge (n : Nat) (hn : 2 ^ 24 ≤ n) : ((2 ^ 15 : Nat) : ℚ) ≤ u32ToFloat n := by
  unfold u32ToFloat
  rw [if_neg (by omega)]
  dsimp only
  have he := floatExponent_le n
  have hpos : 0 < 2 ^ floatExponent n := Nat.two_pow_pos _
  have hpow : 2 ^ floatExponent n ≤ 2 ^ 9 := Nat.pow_le_pow_right (by decide) he
  have hq : 2 ^ 15 ≤ n / 2 ^ floatExponent n := by
    rw [Nat.le_div_iff_mul_le hpos]
    calc 2 ^ 15 * 2 ^ floatExponent n ≤ 2 ^ 15 * 2 ^ 9 := Nat.mul_le_mul_left _ hpow
      _ = 2 ^ 24 := by norm_num
      _ ≤ n := hn
  have hres : 2 ^ 15 ≤ (if (decide (2 ^ floatExponent n < 2 * (n % 2 ^ floatExponent n)) ||
        (decide (2 * (n % 2 ^ floatExponent n) = 2 ^ floatExponent n) &&
          decide (n / 2 ^ floatExponent n % 2 = 1))) = true
      then n / 2 ^ floatExponent n + 1 else n / 2 ^ floatExponent n) * 2 ^ floatExponent n := by
    have h1 : n / 2 ^ floatExponent n ≤
        (if (decide (2 ^ floatExponent n < 2 * (n % 2 ^ floatExponent n)) ||
        (decide (2 * (n % 2 ^ floatExponent n) = 2 ^ floatExponent n) &&
          decide (n / 2 ^ floatExponent n % 2 = 1))) = true
      then n / 2 ^ floatExponent n + 1 else n / 2 ^ floatExponent n) := by
      split_ifs <;> omega
    calc 2 ^ 15 ≤ n / 2 ^ floatExponent n := hq
      _ ≤ _ := h1
      _ ≤ _ := Nat.le_mul_of_pos_right _ hpos
  exact_mod_cast hres

/-- Comparing the rounded bound with a small multiplier is comparing the bound
itself. -/
theorem u32ToFloat_lt_iff (m t : Nat) (ht : t ≤ 2 ^ 15) :
    u32ToFloat m < (t : ℚ) ↔ m < t := by
  rcases Nat.lt_or_ge m (2 ^ 24) with h | h
  · rw [u32ToFloat_of_lt m h]
    exact Nat.cast_lt
  · have h1 := le_u32ToFloat_of_ge m h
    have h2 : ((t : Nat) : ℚ) ≤ ((2 ^ 15 : Nat) : ℚ) := Nat.cast_le.mpr ht
    constructor
    · intro hlt
      exact absurd (lt_of_lt_of_le hlt (le_trans h2 h1)) (lt_irrefl _)
    · intro hlt
      have : (2 : Nat) ^ 15 < 2 ^ 24 := by norm_num
      omega

/-! ### Internal resolution dropdown -/

theorem template_le (t : String × Nat) (ht : t ∈ templates) : 1 ≤ t.2 ∧ t.2 ≤ 25 := by
  simp only [templates, List.mem_cons, List.mem_singleton, List.not_mem_nil, or_false] at ht
  rcases ht with h | h | h | h | h | h | h | h | h | h | h | h | h | h | h | h | h | h | h | h |
    h | h | h | h | h <;> subst h <;> decide

theorem takeWhile_congr_mem {α : Type} (p q : α → Bool) (l : List α)
    (hpq : ∀ x ∈ l, p x = q x) : l.takeWhile p = l.takeWhile q := by
  induction l with
  | nil => rfl
  | cons a l ih =>
    rw [List.takeWhile_cons, List.takeWhile_cons, hpq a (List.mem_cons_self a l),
      ih (fun x hx => hpq x (List.mem_cons_of_mem a hx))]

/-- The first loop keeps the templates whose multiplier is at most the bound. -/
theorem shownTemplates_eq (m : Nat) :
    shownTemplates m =
      (templates.takeWhile (fun t => decide (t.2 ≤ m))).map
        (fun t => (t.1, QVariant.float (t.2 : ℚ))) := by
  unfold shownTemplates
  congr 1
  apply takeWhile_congr_mem
  intro t ht
  have hle : t.2 ≤ 2 ^ 15 := le_trans (template_le t ht).2 (by norm_num)
  have := u32ToFloat_lt_iff m t.2 hle
  by_cases hlt : m < t.2
  · simp [this.mpr hlt, hlt]
  · have hnot : ¬ u32ToFloat m < (t.2 : ℚ) := fun hc => hlt (this.mp hc)
    simp [hnot, Nat.le_of_not_lt hlt]

namespace QComboBox

theorem indexOfData_some (l : List (String × QVariant)) (v : QVariant) (i : Nat)
    (h : indexOfData l v = some i) : ∃ e, l[i]? = some e ∧ e.2 = v := by
  induction l generalizing i with
  | nil => simp [indexOfData] at h
  | cons a l ih =>
    unfold indexOfData at h
    by_cases ha : a.2 = v
    · rw [if_pos ha] at h
      have : i = 0 := by simpa using h.symm
      subst this
      exact ⟨a, by simp, ha⟩
    · rw [if_neg ha] at h
      cases hl : indexOfData l v with
      | none => simp [hl] at h
      | some k =>
        rw [hl] at h
        have : i = k + 1 := by simpa using h.symm
        subst this
        obtain ⟨e, he, hev⟩ := ih k hl
        exact ⟨e, by simpa using he, hev⟩

theorem indexOfData_of_mem (l : List (String × QVariant)) (v : QVariant)
    (h : ∃ e ∈ l, e.2 = v) : ∃ i, indexOfData l v = some i := by
  induction l with
  | nil => simp at h
  | cons a l ih =>
    unfold indexOfData
    by_cases ha : a.2 = v
    · exact ⟨0, by rw [if_pos ha]⟩
    · rw [if_neg ha]
      obtain ⟨e, he, hev⟩ := h
      rcases List.mem_cons.mp he with rfl | he'
      · exact absurd hev ha
      · obtain ⟨k, hk⟩ := ih ⟨e, he', hev⟩
        exact ⟨k + 1, by rw [hk]; rfl⟩

theorem indexOfData_of_not_mem (l : List (String × QVariant)) (v : QVariant)
    (h : ∀ e ∈ l, e.2 ≠ v) : indexOfData l v = none := by
  induction l with
  | nil => rfl
  | cons a l ih =>
    unfold indexOfData
    rw [if_neg (h a (List.mem_cons_self a l)), ih (fun e he => h e (List.mem_cons_of_mem a he))]
    rfl

theorem findData_of_not_mem (c : QComboBox) (v : QVariant) (h : ∀ e ∈ c.items, e.2 ≠ v) :
    c.findData v = -1 := by
  unfold findData
  rw [indexOfData_of_not_mem _ _ h]

/-- Selecting the entry `findData` returns makes its data current. -/
theorem currentData_setCurrentIndex_findData (c : QComboBox) (v : QVariant)
    (h : ∃ e ∈ c.items, e.2 = v) :
    (c.setCurrentIndex (c.findData v)).currentData = v ∧ 0 ≤ c.findData v := by
  obtain ⟨i, hi⟩ := indexOfData_of_mem _ _ h
  obtain ⟨e, he, hev⟩ := indexOfData_some _ _ _ hi
  have hlt : i < c.items.length := (List.getElem?_eq_some_iff.mp he).1
  have hfd : c.findData v = (i : Int) := by
    unfold findData
    rw [hi]
  rw [hfd]
  refine ⟨?_, by omega⟩
  have hcur : (c.setCurrentIndex (i : Int)).currentIndex = (i : Int) :=
    setCurrentIndex_of_valid _ _ (by omega) (by unfold count; omega)
  unfold currentData item
  rw [hcur, items_setCurrentIndex]
  simp [he, hev]

/-- A box resting on its first entry shows the data `findData` finds at index 0. -/
theorem currentData_of_findData_zero (c : QComboBox) (v : QVariant)
    (hcur : c.currentIndex = 0) (h0 : c.findData v = 0) : c.currentData = v := by
  unfold findData at h0
  cases hi : indexOfData c.items v with
  | none => rw [hi] at h0; simp at h0
  | some i =>
    rw [hi] at h0
    have : i = 0 := by simpa using h0
    subst this
    obtain ⟨e, he, hev⟩ := indexOfData_some _ _ _ hi
    unfold currentData item
    rw [hcur]
    simp [he, hev]

end QComboBox

namespace Panel

/-- The box `populateUpscaleMultipliers` has built after its two loops. -/
theorem upscale_filled (c0 : QComboBox) (m : Nat) :
    (addItems (addItems c0.clear (shownTemplates m)) (generatedEntries m)).items =
      upscaleEntries m ∧
    (addItems (addItems c0.clear (shownTemplates m)) (generatedEntries m)).wf ∧
    (addItems (addItems c0.clear (shownTemplates m)) (generatedEntries m)).currentIndex =
      if upscaleEntries m = [] then -1 else 0 := by
  have hwf := wf_addItems _ (shownTemplates m) (QComboBox.wf_clear c0)
  refine ⟨?_, wf_addItems _ _ hwf, ?_⟩
  · rw [items_addItems, items_addItems]
    simp [QComboBox.clear, upscaleEntries]
  · rw [currentIndex_addItems _ _ hwf, items_addItems,
      currentIndex_addItems _ _ (QComboBox.wf_clear c0)]
    unfold upscaleEntries
    cases h1 : shownTemplates m <;> cases h2 : generatedEntries m <;>
      simp [QComboBox.clear]

theorem max_shown_multiplier_congr (p q : Panel) (m : Nat)
    (he : q.extendedUpscales = p.extendedUpscales) :
    max_shown_multiplier q m = max_shown_multiplier p m := by
  unfold max_shown_multiplier
  rw [he]

/-- The Internal Resolution dropdown after `populateUpscaleMultipliers` in global
mode. -/
theorem populateUpscaleMultipliers_global (p : Panel) (m : Nat) (hd : p.dialog.sif = none) :
    (p.populateUpscaleMultipliers m).upscaleMultiplier.items =
      upscaleEntries (max_shown_multiplier p m) ∧
    ((∃ e ∈ upscaleEntries (max_shown_multiplier p m), e.2 =
        QVariant.float (p.dialog.GetBaseFloatSettingValue "EmuCore/GS" "upscale_multiplier" 1)) →
      (p.populateUpscaleMultipliers m).upscaleMultiplier.currentData =
        QVariant.float (p.dialog.GetBaseFloatSettingValue "EmuCore/GS" "upscale_multiplier" 1)) ∧
    ((∀ e ∈ upscaleEntries (max_shown_multiplier p m), e.2 ≠
        QVariant.float (p.dialog.GetBaseFloatSettingValue "EmuCore/GS" "upscale_multiplier" 1)) →
      (p.populateUpscaleMultipliers m).upscaleMultiplier.currentIndex =
        if upscaleEntries (max_shown_multiplier p m) = [] then -1 else 0) := by
  obtain ⟨hitems, hwf, hidx⟩ := upscale_filled p.upscaleMultiplier (max_shown_multiplier p m)
  have hpg : p.dialog.isPerGameSettings = false := by
    simp [SettingsWindow.isPerGameSettings, hd]
  unfold populateUpscaleMultipliers
  simp only [hpg, Bool.false_eq_true, if_false]
  refine ⟨?_, ?_, ?_⟩
  · split_ifs
    · rw [QComboBox.items_setCurrentIndex, hitems]
    · exact hitems
  · intro hmem
    rw [← hitems] at hmem
    obtain ⟨hcd, hnn⟩ := QComboBox.currentData_setCurrentIndex_findData _ _ hmem
    split_ifs with hpos
    · exact hcd
    · have h0 : (addItems (addItems p.upscaleMultiplier.clear
          (shownTemplates (max_shown_multiplier p m)))
          (generatedEntries (max_shown_multiplier p m))).findData
          (QVariant.float (p.dialog.GetBaseFloatSettingValue "EmuCore/GS"
            "upscale_multiplier" 1)) = 0 := by omega
      apply QComboBox.currentData_of_findData_zero _ _ _ h0
      rw [hidx, if_neg]
      obtain ⟨e, he, _⟩ := hmem
      rw [hitems] at he
      exact List.ne_nil_of_mem he
  · intro hno
    rw [← hitems] at hno
    rw [QComboBox.findData_of_not_mem _ _ hno]
    simp only [show ¬ ((0 : Int) < -1) by omega, if_false]
    exact hidx

/-- The Internal Resolution dropdown after `populateUpscaleMultipliers` in per-game
mode: "Use Global Setting" without data, then the multiplier entries. -/
theorem populateUpscaleMultipliers_game (p : Panel) (m : Nat) (s : SettingsInterface)
    (hd : p.dialog.sif = some s) :
    (∃ t, (p.populateUpscaleMultipliers m).upscaleMultiplier.items =
      (t, QVariant.invalid) :: upscaleEntries (max_shown_multiplier p m)) ∧
    (∀ k : ℚ, s.GetFloatValue "EmuCore/GS" "upscale_multiplier" = some k →
      (∃ e ∈ upscaleEntries (max_shown_multiplier p m), e.2 = QVariant.float k) →
      (p.populateUpscaleMultipliers m).upscaleMultiplier.currentData = QVariant.float k) ∧
    (s.GetFloatValue "EmuCore/GS" "upscale_multiplier" = none →
      (p.populateUpscaleMultipliers m).upscaleMultiplier.currentIndex = 0 ∧
      (p.populateUpscaleMultipliers m).upscaleMultiplier.currentData = QVariant.invalid) := by
  obtain ⟨hitems, hwf, hidx⟩ := upscale_filled p.upscaleMultiplier (max_shown_multiplier p m)
  have hpg : p.dialog.isPerGameSettings = true := by
    simp [SettingsWindow.isPerGameSettings, hd]
  have hget : p.dialog.getFloatValue "EmuCore/GS" "upscale_multiplier" =
      s.GetFloatValue "EmuCore/GS" "upscale_multiplier" := by
    simp [SettingsWindow.getFloatValue, hd]
  unfold populateUpscaleMultipliers
  simp only [hpg, if_true, hget]
  refine ⟨?_, ?_, ?_⟩
  · cases hv : s.GetFloatValue "EmuCore/GS" "upscale_multiplier" with
    | none =>
      exact ⟨_, by rw [QComboBox.items_setCurrentIndex, QComboBox.items_insertItem_zero,
        hitems]⟩
    | some k =>
      simp only
      split_ifs
      all_goals first
        | exact ⟨_, by rw [QComboBox.items_setCurrentIndex, QComboBox.items_insertItem_zero,
            hitems]⟩
        | exact ⟨_, by rw [QComboBox.items_insertItem_zero, hitems]⟩
  · intro k hv hmem
    simp only [hv]
    have hmem1 : ∀ t, ∃ e ∈ ((addItems (addItems p.upscaleMultiplier.clear
        (shownTemplates (max_shown_multiplier p m)))
        (generatedEntries (max_shown_multiplier p m))).insertItem 0 t
        QVariant.invalid).items, e.2 = QVariant.float k := by
      intro t
      obtain ⟨e, he, hev⟩ := hmem
      exact ⟨e, by rw [QComboBox.items_insertItem_zero, hitems]; exact List.mem_cons_of_mem _ he,
        hev⟩
    have hpos : ∀ t, 0 < ((addItems (addItems p.upscaleMultiplier.clear
        (shownTemplates (max_shown_multiplier p m)))
        (generatedEntries (max_shown_multiplier p m))).insertItem 0 t
        QVariant.invalid).findData (QVariant.float k) := by
      intro t
      unfold QComboBox.findData
      rw [QComboBox.items_insertItem_zero]
      unfold QComboBox.indexOfData
      rw [if_neg (by simp)]
      obtain ⟨i, hi⟩ := QComboBox.indexOfData_of_mem _ _
        (show ∃ e ∈ (addItems (addItems p.upscaleMultiplier.clear
          (shownTemplates (max_shown_multiplier p m)))
          (generatedEntries (max_shown_multiplier p m))).items, e.2 = QVariant.float k by
          rw [hitems]; exact hmem)
      rw [hi]
      simp only [Option.map_some']
      omega
    rw [if_pos (hpos _)]
    exact (QComboBox.currentData_setCurrentIndex_findData _ _ (hmem1 _)).1
  · intro hv
    simp only [hv]
    have hcur : ∀ t, (((addItems (addItems p.upscaleMultiplier.clear
        (shownTemplates (max_shown_multiplier p m)))
        (generatedEntries (max_shown_multiplier p m))).insertItem 0 t
        QVariant.invalid).setCurrentIndex 0).currentIndex = 0 := by
      intro t
      apply QComboBox.setCurrentIndex_of_valid _ _ (le_refl _)
      rw [QComboBox.count_insertItem_zero]
      unfold QComboBox.count
      omega
    refine ⟨hcur _, ?_⟩
    unfold QComboBox.currentData QComboBox.item
    rw [hcur, QComboBox.items_setCurrentIndex, QComboBox.items_insertItem_zero]
    simp

end Panel

/-! ### The multiplier entries -/

theorem templates_length : templates.length = 25 := rfl

theorem templates_all_le (m : Nat) (hm : 25 ≤ m) :
    ∀ t ∈ templates, (fun t : String × Nat => decide (t.2 ≤ m)) t = true := by
  intro t ht
  have := (template_le t ht).2
  simp only [decide_eq_true_eq]
  omega

/-- The templates are listed by rising multiplier 1 to 25, so the shown ones are
the first `m` of them. -/
theorem templates_takeWhile (m : Nat) :
    templates.takeWhile (fun t => decide (t.2 ≤ m)) = templates.take m := by
  rcases Nat.lt_or_ge m 25 with h | h
  · interval_cases m <;> rfl
  · rw [List.take_of_length_le (by rw [templates_length]; exact h)]
    have := @List.takeWhile_append_of_pos (String × Nat) (fun t => decide (t.2 ≤ m)) templates
      [] (templates_all_le m h)
    simpa using this

theorem templates_take_multipliers (m : Nat) :
    (templates.take m).map (fun t => t.2) = List.range' 1 (min m 25) := by
  rcases Nat.lt_or_ge m 25 with h | h
  · interval_cases m <;> rfl
  · rw [List.take_of_length_le (by rw [templates_length]; exact h), Nat.min_eq_right h]
    rfl

theorem shownTemplates_eq_take (m : Nat) :
    shownTemplates m = (templates.take m).map (fun t => (t.1, QVariant.float (t.2 : ℚ))) := by
  rw [shownTemplates_eq, templates_takeWhile]

theorem generatedEntries_of_le (m : Nat) (hm : m ≤ 25) : generatedEntries m = [] := by
  unfold generatedEntries max_template_multiplier
  have : m - 25 = 0 := by omega
  rw [this]
  rfl

theorem generatedLoop_from (m : Nat) (hm : m < 2 ^ 32 - 1) :
    ∀ (n i : Nat) (acc : List (String × QVariant)), i + n = m + 1 →
      generatedLoop m (n + 1) i acc =
        some (acc ++ (List.range' i n).map
          (fun i => (toString i ++ "x Native", QVariant.float (u32ToFloat i)))) := by
  have hm' : m < 4294967295 := by norm_num at hm; exact hm
  intro n
  induction n with
  | zero =>
    intro i acc h
    have hgt : ¬ i ≤ m := by omega
    simp [generatedLoop, hgt]
  | succ n ih =>
    intro i acc h
    have hle : i ≤ m := by omega
    have hmod : (i + 1) % 2 ^ 32 = i + 1 := Nat.mod_eq_of_lt (by norm_num; omega)
    rw [generatedLoop, if_pos hle, hmod, ih (i + 1) _ (by omega)]
    simp [List.range'_succ]

/-- For a bound below `2^32 - 1` the second loop ends, at the latest with test
number `m - 25 + 1` of its condition, and has then added the entries of
`generatedEntries`. -/
theorem generatedLoop_ends (m : Nat) (hm : m < 2 ^ 32 - 1) :
    generatedLoop m (m - 25 + 1) 26 [] = some (generatedEntries m) := by
  rcases Nat.lt_or_ge m 25 with h | h
  · have h0 : m - 25 = 0 := by omega
    have hgt : ¬ 26 ≤ m := by omega
    rw [h0, generatedEntries_of_le m (by omega)]
    simp [generatedLoop, hgt]
  · rw [generatedLoop_from m hm (m - 25) 26 [] (by omega)]
    rfl

/-- For a bound of `2^32 - 1` (or more) the second loop never ends: whatever the
number of tests, the condition has not failed. -/
theorem generatedLoop_never_ends (m : Nat) (hm : 2 ^ 32 - 1 ≤ m) :
    ∀ (fuel i : Nat) (acc : List (String × QVariant)), i < 2 ^ 32 →
      generatedLoop m fuel i acc = none := by
  have hm' : 4294967295 ≤ m := by norm_num at hm; exact hm
  intro fuel
  induction fuel with
  | zero =>
    intro i acc _
    rfl
  | succ n ih =>
    intro i acc hi
    have hle : i ≤ m := by norm_num at hi; omega
    rw [generatedLoop, if_pos hle]
    exact ih _ _ (Nat.mod_lt _ (by norm_num))

/-- The second loop ends exactly for the bounds `generatedLoopEnds` accepts, and
then with the entries of `generatedEntries`; for the others no number of tests
sees its condition fail. -/
theorem generatedLoopEnds_iff (m : Nat) :
    (generatedLoopEnds m = true ↔
      ∃ fuel, generatedLoop m fuel 26 [] = some (generatedEntries m)) ∧
    (generatedLoopEnds m = false ↔ ∀ fuel, generatedLoop m fuel 26 [] = none) := by
  rcases Nat.lt_or_ge m (2 ^ 32 - 1) with h | h
  · have he : generatedLoopEnds m = true := by
      unfold generatedLoopEnds
      exact decide_eq_true h
    refine ⟨⟨fun _ => ⟨_, generatedLoop_ends m h⟩, fun _ => he⟩, ⟨fun hf => ?_, fun hn => ?_⟩⟩
    · rw [he] at hf
      exact absurd hf (by decide)
    · have := hn (m - 25 + 1)
      rw [generatedLoop_ends m h] at this
      exact absurd this (by simp)
  · have he : generatedLoopEnds m = false := by
      unfold generatedLoopEnds
      exact decide_eq_false (by omega)
    refine ⟨⟨fun hf => ?_, fun hx => ?_⟩, ⟨fun _ fuel =>
      generatedLoop_never_ends m h fuel 26 [] (by norm_num), fun _ => he⟩⟩
    · rw [he] at hf
      exact absurd hf (by decide)
    · obtain ⟨fuel, hfuel⟩ := hx
      rw [generatedLoop_never_ends m h fuel 26 [] (by norm_num)] at hfuel
      exact absurd hfuel (by simp)

/-- Up to `2^24` the entries carry the multipliers 1, 2, ..., `m` in this order. -/
theorem upscaleEntries_multipliers (m : Nat) (hm : m ≤ 2 ^ 24) :
    (upscaleEntries m).map (fun e => e.2) =
      (List.range' 1 m).map (fun k : Nat => QVariant.float (k : ℚ)) := by
  have hshown : (shownTemplates m).map (fun e => e.2) =
      (List.range' 1 (min m 25)).map (fun k : Nat => QVariant.float (k : ℚ)) := by
    rw [shownTemplates_eq_take, ← templates_take_multipliers, List.map_map, List.map_map]
    rfl
  have hgen : (generatedEntries m).map (fun e => e.2) =
      (List.range' 26 (m - 25)).map (fun k : Nat => QVariant.float (k : ℚ)) := by
    unfold generatedEntries max_template_multiplier
    rw [List.map_map]
    apply List.map_congr_left
    intro i hi
    rw [List.mem_range'_1] at hi
    simp only [Function.comp]
    rw [u32ToFloat_of_le i (by omega)]
  unfold upscaleEntries
  rw [List.map_append, hshown, hgen, ← List.map_append]
  congr 1
  rcases Nat.lt_or_ge m 25 with h | h
  · have h0 : m - 25 = 0 := by omega
    rw [h0, Nat.min_eq_left (le_of_lt h)]
    simp
  · rw [Nat.min_eq_right h, List.range'_append_1]
    congr 1
    omega

theorem upscaleEntries_texts (m : Nat) :
    (upscaleEntries m).map (fun e => e.1) =
      (templates.take m).map (fun t => t.1) ++
        (List.range' 26 (m - 25)).map (fun i => toString i ++ "x Native") := by
  unfold upscaleEntries
  rw [List.map_append, shownTemplates_eq_take, List.map_map]
  unfold generatedEntries max_template_multiplier
  rw [List.map_map]
  rfl

namespace Panel

theorem populateUpscaleMultipliers_diverged (p : Panel) (m : Nat) :
    (p.populateUpscaleMultipliers m).diverged =
      (p.diverged || !generatedLoopEnds (max_shown_multiplier p m)) := by
  unfold populateUpscaleMultipliers
  split_ifs
  · dsimp only
    split <;> rfl
  · rfl

/-- C23: let `m` be the bound `populateUpscaleMultipliers` shows up to,
`max_upscale_multiplier` when the Extended Upscaling Multipliers checkbox exists
and is checked and `min(max_upscale_multiplier, 12)` otherwise.  For `m` of at
most `2^24` (16777216), up to which `static_cast<float>` is exact, the call
returns and, in global mode and in per-game mode alike, the entries of the
dropdown after the "Use Global Setting" entry of per-game mode carry the data 1,
2, ..., `m` in this order, entry `k` carrying `k`: the first `min m 25` are the
named templates and the others the generated "`k`x Native" entries from 26 on. -/
theorem C23_multiplier_entries (p : Panel) (mx m : Nat)
    (hm : m = if p.extendedUpscales = some CheckState.Checked then mx else min mx 12)
    (h24 : m ≤ 2 ^ 24) :
    (p.populateUpscaleMultipliers mx).diverged = p.diverged ∧
    (p.populateUpscaleMultipliers mx).upscaleMultiplier.items.map (fun e => e.2) =
      (if p.dialog.isPerGameSettings then [QVariant.invalid] else []) ++
        (List.range' 1 m).map (fun k : Nat => QVariant.float (k : ℚ)) ∧
    ((p.populateUpscaleMultipliers mx).upscaleMultiplier.items.map (fun e => e.1)).drop
        (if p.dialog.isPerGameSettings then 1 else 0) =
      (templates.take m).map (fun t => t.1) ++
        (List.range' 26 (m - 25)).map (fun i => toString i ++ "x Native") := by
  have hms : max_shown_multiplier p mx = m := by
    rw [hm]
    rfl
  refine ⟨?_, ?_, ?_⟩
  · rw [populateUpscaleMultipliers_diverged, hms]
    have hends : generatedLoopEnds m = true := by
      unfold generatedLoopEnds
      simp only [decide_eq_true_eq]
      norm_num at h24 ⊢
      omega
    rw [hends]
    simp
  · cases hd : p.dialog.sif with
    | none =>
      have hpg : p.dialog.isPerGameSettings = false := by
        simp [SettingsWindow.isPerGameSettings, hd]
      rw [(populateUpscaleMultipliers_global p mx hd).1, hms, upscaleEntries_multipliers m h24]
      simp [hpg]
    | some s =>
      have hpg : p.dialog.isPerGameSettings = true := by
        simp [SettingsWindow.isPerGameSettings, hd]
      obtain ⟨t, ht⟩ := (populateUpscaleMultipliers_game p mx s hd).1
      rw [ht, hms, List.map_cons, upscaleEntries_multipliers m h24]
      simp [hpg]
  · cases hd : p.dialog.sif with
    | none =>
      have hpg : p.dialog.isPerGameSettings = false := by
        simp [SettingsWindow.isPerGameSettings, hd]
      rw [(populateUpscaleMultipliers_global p mx hd).1, hms, upscaleEntries_texts m]
      simp [hpg]
    | some s =>
      have hpg : p.dialog.isPerGameSettings = true := by
        simp [SettingsWindow.isPerGameSettings, hd]
      obtain ⟨t, ht⟩ := (populateUpscaleMultipliers_game p mx s hd).1
      rw [ht, hms, List.map_cons, upscaleEntries_texts m]
      simp [hpg]

/-- C23, in per-game mode with the checkbox unchecked and a maximum of 30: the
bound is 12. -/
theorem C23_multiplier_entries_witness :
    (12 = if (setup (gameDialog SettingsInterface.empty exampleThreeStore)).extendedUpscales =
      some CheckState.Checked then 30 else min 30 12) ∧
    12 ≤ 2 ^ 24 ∧
    ((setup (gameDialog SettingsInterface.empty exampleThreeStore)).populateUpscaleMultipliers
      30).upscaleMultiplier.items.map (fun e => e.2) =
      (if (setup (gameDialog SettingsInterface.empty exampleThreeStore)).dialog.isPerGameSettings
        then [QVariant.invalid] else []) ++
        (List.range' 1 12).map (fun k : Nat => QVariant.float (k : ℚ)) :=
  ⟨by decide, by norm_num,
    (C23_multiplier_entries (setup (gameDialog SettingsInterface.empty exampleThreeStore)) 30 12
      (by decide) (by norm_num)).2.1⟩

/-- C23 as stated fails above `2^24`: with the checkbox checked and a maximum of
16777217, entry number 16777217 of the dropdown carries the data 16777216, the
single-precision value of its multiplier, as entry number 16777216 does. -/
theorem C23_entry_above_float_precision :
    max_shown_multiplier exampleExtendedPanel 16777217 = 16777217 ∧
    ((exampleExtendedPanel.populateUpscaleMultipliers 16777217).upscaleMultiplier.items.map
      (fun e => e.2))[16777216]? = some (QVariant.float 16777216) ∧
    ((exampleExtendedPanel.populateUpscaleMultipliers 16777217).upscaleMultiplier.items.map
      (fun e => e.2))[16777215]? = some (QVariant.float 16777216) ∧
    QVariant.float 16777216 ≠ QVariant.float 16777217 := by
  have hms : max_shown_multiplier exampleExtendedPanel 16777217 = 16777217 := rfl
  have hlen : (shownTemplates 16777217).length = 25 := by
    rw [shownTemplates_eq_take, List.length_map,
      List.take_of_length_le (by rw [templates_length]; norm_num)]
    rfl
  have h1 : u32ToFloat 16777217 = 16777216 := by
    norm_num [u32ToFloat, floatExponent, List.range, List.range.loop]
  have h2 : u32ToFloat 16777216 = 16777216 := by
    rw [u32ToFloat_of_le 16777216 (by norm_num)]
    norm_num
  refine ⟨hms, ?_, ?_, ?_⟩
  · rw [(populateUpscaleMultipliers_global exampleExtendedPanel 16777217 rfl).1, hms]
    unfold upscaleEntries
    rw [List.getElem?_map, List.getElem?_append_right (by rw [hlen]; norm_num), hlen]
    unfold generatedEntries max_template_multiplier
    rw [List.getElem?_map,
      List.getElem?_range' _ _ (show 16777216 - 25 < 16777217 - 25 by norm_num)]
    norm_num [h1]
  · rw [(populateUpscaleMultipliers_global exampleExtendedPanel 16777217 rfl).1, hms]
    unfold upscaleEntries
    rw [List.getElem?_map, List.getElem?_append_right (by rw [hlen]; norm_num), hlen]
    unfold generatedEntries max_template_multiplier
    rw [List.getElem?_map,
      List.getElem?_range' _ _ (show 16777215 - 25 < 16777217 - 25 by norm_num)]
    norm_num [h2]
  · intro hc
    injection hc with hc'
    norm_num at hc'

end Panel

namespace Panel

theorem populateUpscaleMultipliers_items_mem (p : Panel) (m : Nat) (e : String × QVariant)
    (he : e ∈ (p.populateUpscaleMultipliers m).upscaleMultiplier.items) :
    e.2 = QVariant.invalid ∨ e ∈ upscaleEntries (max_shown_multiplier p m) := by
  cases hd : p.dialog.sif with
  | none =>
    rw [(populateUpscaleMultipliers_global p m hd).1] at he
    exact Or.inr he
  | some s =>
    obtain ⟨t, ht⟩ := (populateUpscaleMultipliers_game p m s hd).1
    rw [ht] at he
    rcases List.mem_cons.mp he with rfl | he'
    · exact Or.inl rfl
    · exact Or.inr he'

theorem mem_populateUpscaleMultipliers_items (p : Panel) (m : Nat) (e : String × QVariant)
    (he : e ∈ upscaleEntries (max_shown_multiplier p m)) :
    e ∈ (p.populateUpscaleMultipliers m).upscaleMultiplier.items := by
  cases hd : p.dialog.sif with
  | none =>
    rw [(populateUpscaleMultipliers_global p m hd).1]
    exact he
  | some s =>
    obtain ⟨t, ht⟩ := (populateUpscaleMultipliers_game p m s hd).1
    rw [ht]
    exact List.mem_cons_of_mem _ he

/-- Whenever the Extended Upscaling Multipliers checkbox is absent or not
`Checked`, whether or not advanced settings are shown, every entry of the
Internal Resolution dropdown after `populateUpscaleMultipliers` is the "Use Global
Setting" entry or carries a multiplier between 1 and 12. -/
theorem limit_without_extended_checkbox (p : Panel) (m : Nat)
    (hext : p.extendedUpscales ≠ some CheckState.Checked) :
    ∀ e ∈ (p.populateUpscaleMultipliers m).upscaleMultiplier.items,
      e.2 = QVariant.invalid ∨
        ∃ k : Nat, 1 ≤ k ∧ k ≤ 12 ∧ e.2 = QVariant.float (k : ℚ) := by
  intro e he
  rcases populateUpscaleMultipliers_items_mem p m e he with h | h
  · exact Or.inl h
  · right
    have hM : max_shown_multiplier p m ≤ 12 := by
      unfold max_shown_multiplier max_non_advanced_multiplier
      rw [if_neg hext]
      exact Nat.min_le_right _ _
    unfold upscaleEntries at h
    rw [generatedEntries_of_le _ (by omega), List.append_nil, shownTemplates_eq] at h
    obtain ⟨t, ht, rfl⟩ := List.mem_map.mp h
    have hp := List.mem_takeWhile_imp ht
    have htm := (List.takeWhile_sublist _).subset ht
    simp only [decide_eq_true_eq] at hp
    exact ⟨t.2, (template_le t htm).1, by omega, rfl⟩

theorem populateUpscaleMultipliers_upscale_congr (p q : Panel) (m : Nat)
    (hd : q.dialog = p.dialog) (he : q.extendedUpscales = p.extendedUpscales)
    (hu : q.upscaleMultiplier = p.upscaleMultiplier) :
    (q.populateUpscaleMultipliers m).upscaleMultiplier =
      (p.populateUpscaleMultipliers m).upscaleMultiplier := by
  unfold populateUpscaleMultipliers
  rw [max_shown_multiplier_congr p q m he, hd, hu]
  split_ifs
  · dsimp only
    split <;> rfl
  · rfl

theorem onUpscaleMultiplierChanged_edited (p : Panel) :
    p.onUpscaleMultiplierChanged.dialog.edited "EmuCore/GS" "upscale_multiplier" =
      (if p.upscaleMultiplier.currentData.isValid then
        some (SettingValue.float p.upscaleMultiplier.currentData.toFloat) else none) := by
  unfold onUpscaleMultiplierChanged SettingsWindow.setFloatSettingValue
  dsimp only
  rw [setSettingValue_edited]
  split_ifs <;> rfl

/-- C12: for every multiplier `k` present in the populated list, if `k` is the
stored `upscale_multiplier` (the global value in global mode, the per-game
override in per-game mode) then `populateUpscaleMultipliers` leaves current an
entry whose data is `k`, and `onUpscaleMultiplierChanged` on that selection writes
`k`: whatever the dialog `d` holds when the handler runs, the handler leaves
`d.setFloatSettingValue("EmuCore/GS", "upscale_multiplier", k)`, in which the
edited layer holds `k`.  In per-game mode without an override index 0 is
current, its data is invalid, and `onUpscaleMultiplierChanged` on that selection
removes the key: whatever `d` holds, it leaves `d.setFloatSettingValue` of no
value, in which the edited layer has no entry. -/
theorem C12_upscale_round_trip (p : Panel) (m : Nat) :
    (p.dialog.sif = none → ∀ k : ℚ,
      p.dialog.base "EmuCore/GS" "upscale_multiplier" = some (SettingValue.float k) →
      (∃ e ∈ (p.populateUpscaleMultipliers m).upscaleMultiplier.items,
        e.2 = QVariant.float k) →
      (p.populateUpscaleMultipliers m).upscaleMultiplier.currentData = QVariant.float k ∧
      (p.populateUpscaleMultipliers m).onUpscaleMultiplierChanged.dialog.edited
        "EmuCore/GS" "upscale_multiplier" = some (SettingValue.float k) ∧
      ∀ d : SettingsWindow,
        ({ p.populateUpscaleMultipliers m with dialog := d }).onUpscaleMultiplierChanged.dialog =
          d.setFloatSettingValue "EmuCore/GS" "upscale_multiplier" (some k) ∧
        ({ p.populateUpscaleMultipliers m with
            dialog := d }).onUpscaleMultiplierChanged.dialog.edited
          "EmuCore/GS" "upscale_multiplier" = some (SettingValue.float k)) ∧
    (∀ s, p.dialog.sif = some s → ∀ k : ℚ,
      s "EmuCore/GS" "upscale_multiplier" = some (SettingValue.float k) →
      (∃ e ∈ (p.populateUpscaleMultipliers m).upscaleMultiplier.items,
        e.2 = QVariant.float k) →
      (p.populateUpscaleMultipliers m).upscaleMultiplier.currentData = QVariant.float k ∧
      (p.populateUpscaleMultipliers m).onUpscaleMultiplierChanged.dialog.edited
        "EmuCore/GS" "upscale_multiplier" = some (SettingValue.float k) ∧
      ∀ d : SettingsWindow,
        ({ p.populateUpscaleMultipliers m with dialog := d }).onUpscaleMultiplierChanged.dialog =
          d.setFloatSettingValue "EmuCore/GS" "upscale_multiplier" (some k) ∧
        ({ p.populateUpscaleMultipliers m with
            dialog := d }).onUpscaleMultiplierChanged.dialog.edited
          "EmuCore/GS" "upscale_multiplier" = some (SettingValue.float k)) ∧
    (∀ s, p.dialog.sif = some s → s "EmuCore/GS" "upscale_multiplier" = none →
      (p.populateUpscaleMultipliers m).upscaleMultiplier.currentIndex = 0 ∧
      (p.populateUpscaleMultipliers m).upscaleMultiplier.currentData = QVariant.invalid ∧
      (p.populateUpscaleMultipliers m).onUpscaleMultiplierChanged.dialog.edited
        "EmuCore/GS" "upscale_multiplier" = none ∧
      ∀ d : SettingsWindow,
        ({ p.populateUpscaleMultipliers m with dialog := d }).onUpscaleMultiplierChanged.dialog =
          d.setFloatSettingValue "EmuCore/GS" "upscale_multiplier" none ∧
        ({ p.populateUpscaleMultipliers m with
            dialog := d }).onUpscaleMultiplierChanged.dialog.edited
          "EmuCore/GS" "upscale_multiplier" = none) := by
  have hwrite : ∀ (q : Panel) (v : QVariant), q.upscaleMultiplier.currentData = v →
      ∀ d : SettingsWindow,
        ({ q with dialog := d }).onUpscaleMultiplierChanged.dialog =
          d.setFloatSettingValue "EmuCore/GS" "upscale_multiplier"
            (if v.isValid then some v.toFloat else none) ∧
        ({ q with dialog := d }).onUpscaleMultiplierChanged.dialog.edited
          "EmuCore/GS" "upscale_multiplier" =
          (if v.isValid then some (SettingValue.float v.toFloat) else none) := by
    intro q v hv d
    refine ⟨?_, ?_⟩
    · unfold onUpscaleMultiplierChanged
      dsimp only
      rw [hv]
    · rw [onUpscaleMultiplierChanged_edited]
      dsimp only
      rw [hv]
  refine ⟨?_, ?_, ?_⟩
  · intro hd k hk hmem
    have hv : p.dialog.GetBaseFloatSettingValue "EmuCore/GS" "upscale_multiplier" 1 = k := by
      simp [SettingsWindow.GetBaseFloatSettingValue, SettingsInterface.GetFloatValue, hk]
    obtain ⟨hitems, hsel, _⟩ := populateUpscaleMultipliers_global p m hd
    rw [hitems] at hmem
    rw [hv] at hsel
    have hcd := hsel hmem
    refine ⟨hcd, ?_, fun d => hwrite _ _ hcd d⟩
    rw [onUpscaleMultiplierChanged_edited, hcd]
    rfl
  · intro s hd k hk hmem
    have hv : s.GetFloatValue "EmuCore/GS" "upscale_multiplier" = some k := by
      simp [SettingsInterface.GetFloatValue, hk]
    obtain ⟨⟨t, hitems⟩, hsel, _⟩ := populateUpscaleMultipliers_game p m s hd
    have hmem' : ∃ e ∈ upscaleEntries (max_shown_multiplier p m), e.2 = QVariant.float k := by
      obtain ⟨e, he, hev⟩ := hmem
      rw [hitems] at he
      rcases List.mem_cons.mp he with rfl | he'
      · simp at hev
      · exact ⟨e, he', hev⟩
    have hcd := hsel k hv hmem'
    refine ⟨hcd, ?_, fun d => hwrite _ _ hcd d⟩
    rw [onUpscaleMultiplierChanged_edited, hcd]
    rfl
  · intro s hd hno
    have hv : s.GetFloatValue "EmuCore/GS" "upscale_multiplier" = none := by
      simp [SettingsInterface.GetFloatValue, hno]
    obtain ⟨hidx, hcd⟩ := (populateUpscaleMultipliers_game p m s hd).2.2 hv
    refine ⟨hidx, hcd, ?_, fun d => hwrite _ _ hcd d⟩
    rw [onUpscaleMultiplierChanged_edited, hcd]
    rfl

/-- C13: in global mode, when the stored `upscale_multiplier` is the multiplier of
an entry of the populated list, that entry's data is current after
`populateUpscaleMultipliers`; for any other stored value (larger than the largest
multiplier shown, or not a whole number) the first entry stays current. -/
theorem C13_global_multiplier_selection (p : Panel) (m : Nat) (hd : p.dialog.sif = none) :
    ((∃ e ∈ (p.populateUpscaleMultipliers m).upscaleMultiplier.items, e.2 =
        QVariant.float (p.dialog.GetBaseFloatSettingValue "EmuCore/GS" "upscale_multiplier" 1)) →
      (p.populateUpscaleMultipliers m).upscaleMultiplier.currentData =
        QVariant.float (p.dialog.GetBaseFloatSettingValue "EmuCore/GS" "upscale_multiplier" 1)) ∧
    ((∀ e ∈ (p.populateUpscaleMultipliers m).upscaleMultiplier.items, e.2 ≠
        QVariant.float (p.dialog.GetBaseFloatSettingValue "EmuCore/GS" "upscale_multiplier" 1)) →
      (p.populateUpscaleMultipliers m).upscaleMultiplier.currentIndex =
        if (p.populateUpscaleMultipliers m).upscaleMultiplier.items = [] then -1 else 0) := by
  obtain ⟨hitems, hsel, hno⟩ := populateUpscaleMultipliers_global p m hd
  rw [hitems]
  exact ⟨hsel, hno⟩

end Panel

namespace Panel

theorem three_mem_upscaleEntries :
    ("3x Native (~1080px/FHD)", QVariant.float 3) ∈ upscaleEntries 10 := by
  unfold upscaleEntries
  rw [shownTemplates_eq_take]
  simp [templates]

set_option maxRecDepth 100000 in
/-- C11: the code does not keep the limit its comment at line 2590 states
("Limit the dropdown to 12x if we're not showing advanced settings").  With
advanced settings not shown (the Advanced tab is hidden), `ExtendedUpscalingMultipliers`
true in the global store and a selected adapter with a maximum of 16, the
checkbox is checked, the constructor returns, and the dropdown has sixteen
entries, the sixteenth carrying the multiplier 16. -/
theorem C11_extended_setting_lifts_limit :
    exampleHost.ShouldShowAdvancedSettings = false ∧
    (GraphicsSettingsWidget exampleHost (globalDialog exampleExtendedStore)).tabVisible
      Tab.advanced = false ∧
    (GraphicsSettingsWidget exampleHost (globalDialog exampleExtendedStore)).extendedUpscales =
      some CheckState.Checked ∧
    (GraphicsSettingsWidget exampleHost (globalDialog exampleExtendedStore)).diverged = false ∧
    (GraphicsSettingsWidget exampleHost
      (globalDialog exampleExtendedStore)).upscaleMultiplier.items.length = 16 ∧
    ((GraphicsSettingsWidget exampleHost
      (globalDialog exampleExtendedStore)).upscaleMultiplier.items.map (fun e => e.2))[15]? =
      some (QVariant.float 16) := by
  decide

/-- C12, in per-game mode with an override of 3 and a maximum of 10: the entry
carrying 3 is current, and the handler run on a dialog without an override
leaves 3 in its per-game layer. -/
theorem C12_upscale_round_trip_witness :
    ((setup (gameDialog SettingsInterface.empty exampleThreeStore)).populateUpscaleMultipliers
      10).upscaleMultiplier.currentData = QVariant.float 3 ∧
    ({ (setup (gameDialog SettingsInterface.empty exampleThreeStore)).populateUpscaleMultipliers
        10 with
        dialog := gameDialog SettingsInterface.empty
          SettingsInterface.empty }).onUpscaleMultiplierChanged.dialog.edited
      "EmuCore/GS" "upscale_multiplier" = some (SettingValue.float 3) :=
  ⟨((C12_upscale_round_trip (setup (gameDialog SettingsInterface.empty exampleThreeStore))
      10).2.1 exampleThreeStore rfl 3 rfl
      ⟨("3x Native (~1080px/FHD)", QVariant.float 3),
        mem_populateUpscaleMultipliers_items _ _ _ three_mem_upscaleEntries, rfl⟩).1,
    (((C12_upscale_round_trip (setup (gameDialog SettingsInterface.empty exampleThreeStore))
      10).2.1 exampleThreeStore rfl 3 rfl
      ⟨("3x Native (~1080px/FHD)", QVariant.float 3),
        mem_populateUpscaleMultipliers_items _ _ _ three_mem_upscaleEntries, rfl⟩).2.2
      (gameDialog SettingsInterface.empty SettingsInterface.empty)).2⟩

set_option maxRecDepth 100000 in
/-- C13 as stated fails: with 13 stored globally and a dropdown that ends at 12x,
the entry left current is the first one, "Native (PS2) (Default)" with
multiplier 1. -/
theorem C13_unlisted_multiplier_shows_native :
    (globalDialog exampleThirteenStore).GetBaseFloatSettingValue
      "EmuCore/GS" "upscale_multiplier" 1 = 13 ∧
    (GraphicsSettingsWidget exampleHost
      (globalDialog exampleThirteenStore)).upscaleMultiplier.currentIndex = 0 ∧
    (GraphicsSettingsWidget exampleHost
      (globalDialog exampleThirteenStore)).upscaleMultiplier.currentData = QVariant.float 1 ∧
    (GraphicsSettingsWidget exampleHost
      (globalDialog exampleThirteenStore)).upscaleMultiplier.items.length = 12 := by
  decide

/-- C13, in global mode with 3 stored and a maximum of 10. -/
theorem C13_global_multiplier_selection_witness :
    ((setup (globalDialog exampleThreeStore)).populateUpscaleMultipliers
      10).upscaleMultiplier.currentData =
      QVariant.float ((setup (globalDialog exampleThreeStore)).dialog.GetBaseFloatSettingValue
        "EmuCore/GS" "upscale_multiplier" 1) :=
  (C13_global_multiplier_selection (setup (globalDialog exampleThreeStore)) 10 rfl).1
    ⟨("3x Native (~1080px/FHD)", QVariant.float 3),
      mem_populateUpscaleMultipliers_items _ _ _ three_mem_upscaleEntries, rfl⟩

theorem first_ten_templates :
    ∀ k : Fin 10, ∃ t ∈ templates.take 10, t.2 = k.val + 1 := by
  decide

theorem max_shown_multiplier_ge (p : Panel) (m : Nat) (hm : 10 ≤ m) :
    10 ≤ max_shown_multiplier p m := by
  unfold max_shown_multiplier max_non_advanced_multiplier
  split_ifs
  · exact hm
  · exact Nat.le_min.mpr ⟨hm, by norm_num⟩

theorem updateTabs_extendedUpscales (h : Host) (p : Panel) (type : Int) :
    (updateTabs h p type).extendedUpscales = p.extendedUpscales := by
  unfold updateTabs
  split_ifs <;> rfl

theorem updateTabs_diverged (h : Host) (p : Panel) (type : Int) :
    (updateTabs h p type).diverged = p.diverged := by
  unfold updateTabs
  split_ifs <;> rfl

/-- The adapter `updateRendererDependentOptions` reads the maximum from: the last
adapter whose name is the adapter name in effect, and otherwise the first
adapter of the list. -/
theorem updateRendererDependentOptions_eq (h : Host) (p : Panel) :
    ∃ q : Panel, q.dialog = p.dialog ∧ q.extendedUpscales = p.extendedUpscales ∧
      q.diverged = p.diverged ∧
      p.updateRendererDependentOptions h = q.populateUpscaleMultipliers
        (max (match (updateAdapters h p (h.GSGetAdapterInfo (p.getEffectiveRenderer h))).2 with
              | some a => a.max_upscale_multiplier
              | none => 0) 10) := by
  have ha : updateAdapters h (updateAdvanced h (updateTabs h p (p.getEffectiveRenderer h))
      (p.getEffectiveRenderer h)) (h.GSGetAdapterInfo (p.getEffectiveRenderer h)) =
      updateAdapters h p (h.GSGetAdapterInfo (p.getEffectiveRenderer h)) :=
    updateAdapters_congr h p _ _ (updateTabs_dialog h p _) (updateTabs_adapterDropdown h p _)
  refine ⟨{ updateAdvanced h (updateTabs h p (p.getEffectiveRenderer h))
      (p.getEffectiveRenderer h) with
      adapterDropdown := (updateAdapters h p
        (h.GSGetAdapterInfo (p.getEffectiveRenderer h))).1
      fullscreenModes := updateFullscreenModes
        { updateAdvanced h (updateTabs h p (p.getEffectiveRenderer h))
            (p.getEffectiveRenderer h) with
          adapterDropdown := (updateAdapters h p
            (h.GSGetAdapterInfo (p.getEffectiveRenderer h))).1 }
        (updateAdapters h p (h.GSGetAdapterInfo (p.getEffectiveRenderer h))).2 },
    updateTabs_dialog h p _, updateTabs_extendedUpscales h p _, updateTabs_diverged h p _, ?_⟩
  unfold updateRendererDependentOptions max_upscale_multiplier
  dsimp only
  rw [ha]

/-- Whether `updateRendererDependentOptions` returns: it does unless the bound
shown up to, computed from `max(selected adapter's maximum or 0, 10)`, is
`2^32 - 1`. -/
theorem updateRendererDependentOptions_diverged (h : Host) (p : Panel) :
    (p.updateRendererDependentOptions h).diverged =
      (p.diverged || !generatedLoopEnds (max_shown_multiplier p
        (max (match (updateAdapters h p (h.GSGetAdapterInfo (p.getEffectiveRenderer h))).2 with
              | some a => a.max_upscale_multiplier
              | none => 0) 10))) := by
  obtain ⟨q, _, he, hv, hq⟩ := updateRendererDependentOptions_eq h p
  rw [hq, populateUpscaleMultipliers_diverged, max_shown_multiplier_congr p q _ he, hv]

/-- Whatever the adapters (none, or one reporting a smaller maximum), the entries
`updateRendererDependentOptions` leaves in the Internal Resolution dropdown
include every multiplier from 1 to 10, since the maximum it passes on is at
least 10. -/
theorem first_ten_multipliers_offered (h : Host) (p : Panel) :
    ∀ k : Fin 10, QVariant.float ((k.val + 1 : Nat) : ℚ) ∈
      (p.updateRendererDependentOptions h).upscaleMultiplier.items.map (fun e => e.2) := by
  have hmax : ∀ info : Option GSAdapterInfo, 10 ≤ max_upscale_multiplier info := by
    intro info
    unfold max_upscale_multiplier
    exact Nat.le_max_right _ _
  intro k
  unfold updateRendererDependentOptions
  dsimp only
  obtain ⟨t, ht, htk⟩ := first_ten_templates k
  rw [List.mem_map]
  refine ⟨(t.1, QVariant.float (t.2 : ℚ)), mem_populateUpscaleMultipliers_items _ _ _ ?_, ?_⟩
  · unfold upscaleEntries
    rw [shownTemplates_eq_take]
    apply List.mem_append_left
    apply List.mem_map_of_mem
    exact (List.take_prefix_take_left templates
      (max_shown_multiplier_ge _ _ (hmax _))).subset ht
  · simp only
    rw [htk]

set_option maxRecDepth 100000 in
/-- C24: with the Extended Upscaling Multipliers checkbox checked and a single
adapter that reports a maximum of 4294967295 (`2^32 - 1`),
`updateRendererDependentOptions` passes `max(4294967295, 10)` on, the bound
shown up to is 4294967295, and the loop that adds the entries from 26 on never
ends: whatever the number of tests, its condition has not failed.  The call,
and the constructor that makes it, do not return, so no dropdown is offered.
With the adapters of the first example host the same call returns. -/
theorem C24_loop_never_ends_at_largest_maximum :
    ((updateAdapters exampleLargestHost exampleExtendedPanel
      (exampleLargestHost.GSGetAdapterInfo
        (exampleExtendedPanel.getEffectiveRenderer exampleLargestHost))).2.map
      (fun a => (a.name, a.max_upscale_multiplier))) = some ("GPU A", 4294967295) ∧
    max_shown_multiplier exampleExtendedPanel (max 4294967295 10) = 4294967295 ∧
    (∀ fuel : Nat, generatedLoop 4294967295 fuel 26 [] = none) ∧
    (exampleExtendedPanel.updateRendererDependentOptions exampleLargestHost).diverged = true ∧
    (GraphicsSettingsWidget exampleLargestHost
      (globalDialog exampleExtendedStore)).diverged = true ∧
    (exampleExtendedPanel.updateRendererDependentOptions exampleHost).diverged = false := by
  refine ⟨by decide, by decide, ?_, by decide, by decide, by decide⟩
  intro fuel
  exact generatedLoop_never_ends 4294967295 (by norm_num) fuel 26 [] (by norm_num)

end Panel

/-! ### Patch migration in the constructor -/

theorem migrateLegacyPatch_snd (h : Host) (si : SettingsInterface) (k n : String) :
    (migrateLegacyPatch h si k n).2 = si.ContainsValue "EmuCore" k := by
  unfold migrateLegacyPatch
  by_cases hc : si.ContainsValue "EmuCore" k = true
  · rw [if_pos hc, hc]
    dsimp only
    split_ifs <;> rfl
  · rw [if_neg hc]
    simpa using hc

theorem containsValue_after_wide (h : Host) (si : SettingsInterface)
    (hPS : h.PATCHES_CONFIG_SECTION ≠ "EmuCore") :
    (migrateLegacyPatch h si "EnableWideScreenPatches" "Widescreen 16:9").1 "EmuCore"
      "EnableNoInterlacingPatches" = si "EmuCore" "EnableNoInterlacingPatches" := by
  rw [migrateLegacyPatch_EmuCore h si _ _ _ hPS, if_neg (by decide)]

theorem migrateLegacyPatches_sif (h : Host) (d : SettingsWindow) (si : SettingsInterface)
    (hd : d.sif = some si) :
    (migrateLegacyPatches h d).edited =
      (migrateLegacyPatch h
        (migrateLegacyPatch h si "EnableWideScreenPatches" "Widescreen 16:9").1
        "EnableNoInterlacingPatches" "No-Interlacing").1 := by
  unfold migrateLegacyPatches
  rw [hd]
  dsimp only
  split_ifs <;> rfl

/-- C14: after the constructor has run in per-game mode, the per-game store holds
neither `EmuCore/EnableWideScreenPatches` nor `EmuCore/EnableNoInterlacingPatches`,
whatever it held before (the patch lists are kept outside section "EmuCore"). -/
theorem C14_legacy_keys_gone (h : Host) (d : SettingsWindow) (si : SettingsInterface)
    (hd : d.sif = some si) (hPS : h.PATCHES_CONFIG_SECTION ≠ "EmuCore") :
    (Panel.GraphicsSettingsWidget h d).dialog.isPerGameSettings = true ∧
    (Panel.GraphicsSettingsWidget h d).dialog.edited.ContainsValue "EmuCore"
      "EnableWideScreenPatches" = false ∧
    (Panel.GraphicsSettingsWidget h d).dialog.edited.ContainsValue "EmuCore"
      "EnableNoInterlacingPatches" = false := by
  rw [Panel.GraphicsSettingsWidget_dialog, migrateLegacyPatches_sif h d si hd]
  refine ⟨?_, ?_, ?_⟩
  · unfold migrateLegacyPatches SettingsWindow.isPerGameSettings
    rw [hd]
    dsimp only
    split_ifs <;> rfl
  · unfold SettingsInterface.ContainsValue
    rw [migrateLegacyPatch_EmuCore h _ _ _ _ hPS, if_neg (by decide),
      migrateLegacyPatch_EmuCore h _ _ _ _ hPS, if_pos rfl]
    rfl
  · unfold SettingsInterface.ContainsValue
    rw [migrateLegacyPatch_EmuCore h _ _ _ _ hPS, if_pos rfl]
    rfl

/-- C14, at an overlay that holds both legacy keys. -/
theorem C14_legacy_keys_gone_witness :
    (Panel.GraphicsSettingsWidget exampleHost
      (gameDialog SettingsInterface.empty exampleLegacyOverlay)).dialog.isPerGameSettings = true ∧
    (Panel.GraphicsSettingsWidget exampleHost
      (gameDialog SettingsInterface.empty exampleLegacyOverlay)).dialog.edited.ContainsValue
      "EmuCore" "EnableWideScreenPatches" = false ∧
    (Panel.GraphicsSettingsWidget exampleHost
      (gameDialog SettingsInterface.empty exampleLegacyOverlay)).dialog.edited.ContainsValue
      "EmuCore" "EnableNoInterlacingPatches" = false :=
  C14_legacy_keys_gone exampleHost (gameDialog SettingsInterface.empty exampleLegacyOverlay)
    exampleLegacyOverlay rfl (by decide)

/-- C15: for each legacy key the per-game store holds with a boolean value, after
the constructor the patch of that key ("Widescreen 16:9" for
`EnableWideScreenPatches`, "No-Interlacing" for `EnableNoInterlacingPatches`) is in
the enable list and not in the disable list if the value was true, and in the
disable list and not in the enable list if it was false, whatever the other key
held. -/
theorem C15_legacy_patch_mapping (h : Host) (d : SettingsWindow) (si : SettingsInterface)
    (hd : d.sif = some si) (hPS : h.PATCHES_CONFIG_SECTION ≠ "EmuCore")
    (hED : h.PATCH_ENABLE_CONFIG_KEY ≠ h.PATCH_DISABLE_CONFIG_KEY) :
    (∀ b : Bool, si "EmuCore" "EnableWideScreenPatches" = some (SettingValue.bool b) →
      ("Widescreen 16:9" ∈ (Panel.GraphicsSettingsWidget h d).dialog.edited.GetStringList
          h.PATCHES_CONFIG_SECTION h.PATCH_ENABLE_CONFIG_KEY ↔ b = true) ∧
      ("Widescreen 16:9" ∈ (Panel.GraphicsSettingsWidget h d).dialog.edited.GetStringList
          h.PATCHES_CONFIG_SECTION h.PATCH_DISABLE_CONFIG_KEY ↔ b = false)) ∧
    (∀ b : Bool, si "EmuCore" "EnableNoInterlacingPatches" = some (SettingValue.bool b) →
      ("No-Interlacing" ∈ (Panel.GraphicsSettingsWidget h d).dialog.edited.GetStringList
          h.PATCHES_CONFIG_SECTION h.PATCH_ENABLE_CONFIG_KEY ↔ b = true) ∧
      ("No-Interlacing" ∈ (Panel.GraphicsSettingsWidget h d).dialog.edited.GetStringList
          h.PATCHES_CONFIG_SECTION h.PATCH_DISABLE_CONFIG_KEY ↔ b = false)) := by
  have hED' : h.PATCH_DISABLE_CONFIG_KEY ≠ h.PATCH_ENABLE_CONFIG_KEY := fun hc => hED hc.symm
  have hn : ("Widescreen 16:9" : String) ≠ "No-Interlacing" := by decide
  rw [Panel.GraphicsSettingsWidget_dialog, migrateLegacyPatches_sif h d si hd]
  constructor
  · intro b hb
    have hc : si.ContainsValue "EmuCore" "EnableWideScreenPatches" = true := by
      simp [SettingsInterface.ContainsValue, hb]
    have hv : si.GetBoolValueD "EmuCore" "EnableWideScreenPatches" = b := by
      simp [SettingsInterface.GetBoolValueD, SettingsInterface.GetBoolValue, hb]
    rw [mem_migrateLegacyPatch h _ _ _ _ _ hPS hED (Or.inl rfl),
      mem_migrateLegacyPatch h _ _ _ _ _ hPS hED (Or.inr rfl),
      mem_migrateLegacyPatch h _ _ _ _ _ hPS hED (Or.inl rfl),
      mem_migrateLegacyPatch h _ _ _ _ _ hPS hED (Or.inr rfl)]
    cases b <;> simp [hc, hv, hn, hED, hED']
  · intro b hb
    have hb' := (containsValue_after_wide h si hPS).trans hb
    have hc : (migrateLegacyPatch h si "EnableWideScreenPatches"
        "Widescreen 16:9").1.ContainsValue "EmuCore" "EnableNoInterlacingPatches" = true := by
      simp [SettingsInterface.ContainsValue, hb']
    have hv : (migrateLegacyPatch h si "EnableWideScreenPatches"
        "Widescreen 16:9").1.GetBoolValueD "EmuCore" "EnableNoInterlacingPatches" = b := by
      simp [SettingsInterface.GetBoolValueD, SettingsInterface.GetBoolValue, hb']
    rw [mem_migrateLegacyPatch h _ _ _ _ _ hPS hED (Or.inl rfl),
      mem_migrateLegacyPatch h _ _ _ _ _ hPS hED (Or.inr rfl)]
    cases b <;> simp [hc, hv, hED, hED']

/-- C15, at an overlay with widescreen patches on and no-interlacing patches off. -/
theorem C15_legacy_patch_mapping_witness :
    ("Widescreen 16:9" ∈ (Panel.GraphicsSettingsWidget exampleHost
        (gameDialog SettingsInterface.empty exampleLegacyOverlay)).dialog.edited.GetStringList
        exampleHost.PATCHES_CONFIG_SECTION exampleHost.PATCH_ENABLE_CONFIG_KEY ↔ true = true) ∧
    ("No-Interlacing" ∈ (Panel.GraphicsSettingsWidget exampleHost
        (gameDialog SettingsInterface.empty exampleLegacyOverlay)).dialog.edited.GetStringList
        exampleHost.PATCHES_CONFIG_SECTION exampleHost.PATCH_DISABLE_CONFIG_KEY ↔
        false = false) :=
  ⟨((C15_legacy_patch_mapping exampleHost
      (gameDialog SettingsInterface.empty exampleLegacyOverlay) exampleLegacyOverlay rfl
      (by decide) (by decide)).1 true (by decide)).1,
   ((C15_legacy_patch_mapping exampleHost
      (gameDialog SettingsInterface.empty exampleLegacyOverlay) exampleLegacyOverlay rfl
      (by decide) (by decide)).2 false (by decide)).2⟩

/-- C16: the migration block works only when needed.  In global mode the
constructor leaves the dialog and its stores as they were.  In per-game mode, if
the per-game store holds neither legacy key, the dialog is left as it was: no key,
no list and no call of `saveAndReloadGameSettings`; and in general the game
settings are saved and reloaded exactly once if at least one legacy key was
present and not at all otherwise. -/
theorem C16_migration_only_if_necessary (h : Host) (d : SettingsWindow) :
    (d.sif = none → (Panel.GraphicsSettingsWidget h d).dialog = d) ∧
    (∀ si, d.sif = some si →
      si.ContainsValue "EmuCore" "EnableWideScreenPatches" = false →
      si.ContainsValue "EmuCore" "EnableNoInterlacingPatches" = false →
      (Panel.GraphicsSettingsWidget h d).dialog = d) ∧
    (∀ si, d.sif = some si → h.PATCHES_CONFIG_SECTION ≠ "EmuCore" →
      (Panel.GraphicsSettingsWidget h d).dialog.saves =
        d.saves +
          (if si.ContainsValue "EmuCore" "EnableWideScreenPatches" = true ∨
              si.ContainsValue "EmuCore" "EnableNoInterlacingPatches" = true then 1 else 0)) := by
  rw [Panel.GraphicsSettingsWidget_dialog]
  refine ⟨?_, ?_, ?_⟩
  · intro hd
    unfold migrateLegacyPatches
    rw [hd]
  · intro si hd h1 h2
    obtain ⟨base, sif, saves⟩ := d
    simp only at hd
    subst hd
    simp [migrateLegacyPatches, migrateLegacyPatch, h1, h2]
  · intro si hd hPS
    have h2 : (migrateLegacyPatch h si "EnableWideScreenPatches"
        "Widescreen 16:9").1.ContainsValue "EmuCore" "EnableNoInterlacingPatches" =
        si.ContainsValue "EmuCore" "EnableNoInterlacingPatches" := by
      unfold SettingsInterface.ContainsValue
      rw [containsValue_after_wide h si hPS]
    unfold migrateLegacyPatches
    rw [hd]
    dsimp only
    rw [migrateLegacyPatch_snd, migrateLegacyPatch_snd, h2]
    cases si.ContainsValue "EmuCore" "EnableWideScreenPatches" <;>
      cases si.ContainsValue "EmuCore" "EnableNoInterlacingPatches" <;>
      simp [SettingsWindow.saveAndReloadGameSettings]

/-- C16, in global mode, at an overlay without legacy keys, and at an overlay
holding both. -/
theorem C16_migration_only_if_necessary_witness :
    (Panel.GraphicsSettingsWidget exampleHost (globalDialog SettingsInterface.empty)).dialog =
      globalDialog SettingsInterface.empty ∧
    (Panel.GraphicsSettingsWidget exampleHost
      (gameDialog SettingsInterface.empty SettingsInterface.empty)).dialog =
      gameDialog SettingsInterface.empty SettingsInterface.empty ∧
    (Panel.GraphicsSettingsWidget exampleHost
      (gameDialog SettingsInterface.empty exampleLegacyOverlay)).dialog.saves =
      0 + (if exampleLegacyOverlay.ContainsValue "EmuCore" "EnableWideScreenPatches" = true ∨
        exampleLegacyOverlay.ContainsValue "EmuCore" "EnableNoInterlacingPatches" = true
        then 1 else 0) :=
  ⟨(C16_migration_only_if_necessary exampleHost (globalDialog SettingsInterface.empty)).1 rfl,
   (C16_migration_only_if_necessary exampleHost
      (gameDialog SettingsInterface.empty SettingsInterface.empty)).2.1
      SettingsInterface.empty rfl (by decide) (by decide),
   (C16_migration_only_if_necessary exampleHost
      (gameDialog SettingsInterface.empty exampleLegacyOverlay)).2.2
      exampleLegacyOverlay rfl (by decide)⟩

end GraphicsSettings
